import Mathlib

/-!
# Asset wire codec of `pkg/kubecost/asset_unmarshal.go`

A shallow embedding of the decoders (`InterfaceToAny`, `InterfaceToCloud`, ...,
`RawMessageToAssetSetResponse`, `AssetSetRangeResponse.UnmarshalJSON`), of the helper
decoders (`toAssetProp`, `toAssetPricingModels`, `toBreakdown`, `getTypedVal`) and of the
encoders (`MarshalJSON`).

Conventions of the embedding

* `float64` is an arbitrary carrier `F` with a zero value and a subtraction; nothing is
  assumed about its arithmetic, so every general statement holds for IEEE doubles.
* A Go `interface{}` produced by the JSON parser is a value of `JSON F`; the nil interface
  is `JSON.null` (the parser maps JSON `null` to nil, and indexing a map at an absent key
  gives nil as well).
* A Go map is an association list with first-match lookup; the order of the list is the
  order in which `range` visits the entries in the run under consideration.
* A Go call ends in one of three ways: it returns nil, it returns an error, or it panics
  (an unchecked type assertion `x.(T)` on a value of another type, a nil dereference).
  `Result` records which, together with the receiver as the call left it.
* The standard library (`json.Unmarshal`, `time.Parse`, `time.Format`) is a parameter `Lib`.
* The rendering helpers (`jsonEncode`, `jsonEncodeString`, `jsonEncodeFloat64`) and the
  accessors (`Minutes`, `TotalCost`, `GPUs`, ...) that the encoders call are declared
  outside the file; they are parameters as well (`Helpers`, `Accessors`).
-/

namespace Kubecost

/-- A Go `error` value, identified with its message. -/
abbrev Error := String

/-- A `[]byte` holding JSON text (`gojson.RawMessage`, the argument of `UnmarshalJSON`). -/
abbrev RawMessage := String

/-- A `time.Time`, counted from the zero value of `time.Time` (which is `0`). -/
abbrev Time := Int

/-- A Go `map[string]V`: association list, first match wins. -/
abbrev GoMap (V : Type) := List (String × V)

/-- The dynamically typed value `interface{}` that the JSON parser produces:
nil, `bool`, `float64`, `string`, `[]interface{}`, `map[string]interface{}`. -/
inductive JSON (F : Type) where
  | null : JSON F
  | bool (b : Bool) : JSON F
  | num (x : F) : JSON F
  | str (s : String) : JSON F
  | arr (xs : List (JSON F)) : JSON F
  | obj (members : List (String × JSON F)) : JSON F

/-- The two run-time panics the decoders can raise. -/
inductive Panic where
  | interfaceConversion
  | nilDereference
  deriving DecidableEq, Repr

/-- How a computation that does not complete ends: a returned error or a panic. -/
inductive Fail where
  | error (e : Error)
  | panic (p : Panic)
  deriving DecidableEq, Repr

/-- How a call ends. -/
inductive Status where
  | ok
  | error (e : Error)
  | panic (p : Panic)
  deriving DecidableEq, Repr

/-- The status of a call that stops with the failure `f`. -/
def Fail.toStatus : Fail → Status
  | .error e => .error e
  | .panic p => .panic p

/-- Outcome of a method with a pointer receiver: the receiver as the call left it (at the
return, or at the point of the panic) and how the call ended. -/
structure Result (σ : Type) where
  state : σ
  status : Status

/-- Sequencing of two pieces of a method body: the second runs only if the first
completed. -/
def Result.andThen {σ : Type} (r : Result σ) (f : σ → Result σ) : Result σ :=
  match r.status with
  | .ok => f r.state
  | _ => r

/-- Standard-library functions the codec calls. -/
structure Lib (F : Type) where
  /-- Parse JSON text into an `interface{}`: `json.Unmarshal(b, &f)`. -/
  unmarshal : RawMessage → Except Error (JSON F)
  /-- Split a JSON object into raw fragments: `gojson.Unmarshal(b, &assetMap)` with
  `assetMap map[string]*gojson.RawMessage`; a member whose value is `null` gives a nil
  pointer (`none`). -/
  unmarshalRawMap : RawMessage → Except Error (GoMap (Option RawMessage))
  /-- Split a JSON array of objects: `gojson.Unmarshal(b, &assetMapList)`. -/
  unmarshalRawMapList : RawMessage → Except Error (List (GoMap (Option RawMessage)))
  /-- Timestamp parser: `time.Parse(time.RFC3339, s)`. -/
  parseRFC3339 : String → Except Error Time
  /-- Timestamp printer: `t.Format(time.RFC3339)`. -/
  formatRFC3339 : Time → String

/-! ## Go maps -/

/-- Assignment `m[k] = v`: overwrite the binding of `k` or add one. -/
def GoMap.set {V : Type} : GoMap V → String → V → GoMap V
  | [], k, v => [(k, v)]
  | (k', v') :: rest, k, v =>
    if k' = k then (k, v) :: rest else (k', v') :: GoMap.set rest k v

/-- The keys of a map, in visiting order. -/
def GoMap.keys {V : Type} (m : GoMap V) : List String := m.map Prod.fst

/-- Indexing `fmap[k]` of a `map[string]interface{}`: nil when the key is absent. -/
def index {F : Type} (fmap : List (String × JSON F)) (k : String) : JSON F :=
  match fmap.lookup k with
  | some v => v
  | none => .null

/-- Whether the value is a `string`. -/
def JSON.isStr {F : Type} : JSON F → Bool
  | .str _ => true
  | _ => false

/-- Whether the value is a `float64`. -/
def JSON.isNum {F : Type} : JSON F → Bool
  | .num _ => true
  | _ => false

/-- Whether the value is a `map[string]interface{}`. -/
def JSON.isObj {F : Type} : JSON F → Bool
  | .obj _ => true
  | _ => false

/-- Whether the value is the nil interface. -/
def JSON.isNull {F : Type} : JSON F → Bool
  | .null => true
  | _ => false

/-- The unchecked assertion `v.(map[string]interface{})`. -/
def assertMap {F : Type} : JSON F → Except Fail (List (String × JSON F))
  | .obj m => .ok m
  | _ => .error (.panic .interfaceConversion)

/-- The unchecked assertion `v.(string)`. -/
def assertString {F : Type} : JSON F → Except Fail String
  | .str s => .ok s
  | _ => .error (.panic .interfaceConversion)

/-- The checked assertion `s, ok := v.(string)`. -/
def asString {F : Type} : JSON F → Option String
  | .str s => some s
  | _ => none

/-- The checked assertion `x, ok := v.(float64)`. -/
def asFloat64 {F : Type} : JSON F → Option F
  | .num x => some x
  | _ => none

/-! ## Data model -/

/-- The struct `AssetProperties`: the eleven fields `toAssetProp` fills. -/
structure AssetProperties where
  Category : String := ""
  Provider : String := ""
  Account : String := ""
  Project : String := ""
  Service : String := ""
  Cluster : String := ""
  Name : String := ""
  ProviderID : String := ""
  Region : String := ""
  PricingSource : String := ""
  Currency : String := ""
  deriving DecidableEq, Repr

/-- The struct `AssetPricingModels`. -/
structure AssetPricingModels (F : Type) where
  Preemptible : F
  ReservedInstance : F
  SavingsPlan : F
  deriving DecidableEq, Repr

/-- The struct `Breakdown`. -/
structure Breakdown (F : Type) where
  Idle : F
  Other : F
  System : F
  User : F
  deriving DecidableEq, Repr

/-- The struct `Window`: two `*time.Time`. -/
structure Window where
  start : Option Time := none
  end_ : Option Time := none
  deriving DecidableEq, Repr

/-- The struct `Any`, with the fields `InterfaceToAny` assigns. A nil pointer or nil map
is `none`. -/
structure Any (F : Type) where
  properties : Option AssetProperties
  labels : Option (GoMap String)
  assetPricingModels : Option (AssetPricingModels F)
  start : Time
  end_ : Time
  window : Window
  adjustment : F
  credit : F
  discount : F
  Cost : F
  deriving DecidableEq, Repr

/-- The zero value `var a Any`. -/
def Any.zero (F : Type) [Zero F] : Any F :=
  { properties := none, labels := none, assetPricingModels := none, start := 0, end_ := 0,
    window := {}, adjustment := 0, credit := 0, discount := 0, Cost := 0 }

/-! ## Helper decoders -/

/-- Go `toAssetProp`: each field is copied when the key holds a string and is left at the
zero value otherwise. -/
def toAssetProp {F : Type} (fproperties : List (String × JSON F)) : AssetProperties :=
  let properties : AssetProperties := {}
  let properties := match asString (index fproperties "category") with
    | some category => { properties with Category := category }
    | none => properties
  let properties := match asString (index fproperties "provider") with
    | some provider => { properties with Provider := provider }
    | none => properties
  let properties := match asString (index fproperties "account") with
    | some account => { properties with Account := account }
    | none => properties
  let properties := match asString (index fproperties "project") with
    | some project => { properties with Project := project }
    | none => properties
  let properties := match asString (index fproperties "service") with
    | some service => { properties with Service := service }
    | none => properties
  let properties := match asString (index fproperties "cluster") with
    | some cluster => { properties with Cluster := cluster }
    | none => properties
  let properties := match asString (index fproperties "name") with
    | some name => { properties with Name := name }
    | none => properties
  let properties := match asString (index fproperties "providerID") with
    | some providerID => { properties with ProviderID := providerID }
    | none => properties
  let properties := match asString (index fproperties "region") with
    | some region => { properties with Region := region }
    | none => properties
  let properties := match asString (index fproperties "pricingSource") with
    | some pricingSource => { properties with PricingSource := pricingSource }
    | none => properties
  let properties := match asString (index fproperties "currency") with
    | some currency => { properties with Currency := currency }
    | none => properties
  properties

/-- Go `toAssetPricingModels`: nil for the nil map, otherwise a record whose fields are
copied when the key holds a number. -/
def toAssetPricingModels {F : Type} [Zero F] :
    Option (List (String × JSON F)) → Option (AssetPricingModels F)
  | none => none
  | some fpricingModels =>
    let pricingModels : AssetPricingModels F :=
      { Preemptible := 0, ReservedInstance := 0, SavingsPlan := 0 }
    let pricingModels := match asFloat64 (index fpricingModels "preemptible") with
      | some preemptible => { pricingModels with Preemptible := preemptible }
      | none => pricingModels
    let pricingModels := match asFloat64 (index fpricingModels "reservedInstance") with
      | some reservedInstance => { pricingModels with ReservedInstance := reservedInstance }
      | none => pricingModels
    let pricingModels := match asFloat64 (index fpricingModels "savingsPlan") with
      | some savingsPlan => { pricingModels with SavingsPlan := savingsPlan }
      | none => pricingModels
    some pricingModels

/-- Go `toBreakdown`. -/
def toBreakdown {F : Type} [Zero F] (fproperties : List (String × JSON F)) : Breakdown F :=
  let breakdown : Breakdown F := { Idle := 0, Other := 0, System := 0, User := 0 }
  let breakdown := match asFloat64 (index fproperties "idle") with
    | some idle => { breakdown with Idle := idle }
    | none => breakdown
  let breakdown := match asFloat64 (index fproperties "other") with
    | some other => { breakdown with Other := other }
    | none => breakdown
  let breakdown := match asFloat64 (index fproperties "system") with
    | some system => { breakdown with System := system }
    | none => breakdown
  let breakdown := match asFloat64 (index fproperties "user") with
    | some user => { breakdown with User := user }
    | none => breakdown
  breakdown

/-- Go `getTypedVal`: a `float64` or a `string` is handed back, anything else is an error.
The text of the error renders the offending value and is read by no caller; it is not
modelled beyond a fixed message. -/
def getTypedVal {F : Type} : JSON F → Except Error (JSON F)
  | .num x => .ok (.num x)
  | .str s => .ok (.str s)
  | _ => .error "Type is an invalid type"

/-- The statement
`if x, err := getTypedVal(v); err == nil { field = x.(float64) }`:
skipped when `getTypedVal` fails, an assignment when `v` is a number, and a panic of the
unchecked assertion when `v` is a string. -/
def setFloat64 {F σ : Type} (v : JSON F) (assign : σ → F → σ) (s : σ) : Result σ :=
  match getTypedVal v with
  | .error _ => ⟨s, .ok⟩
  | .ok (.num x) => ⟨assign s x, .ok⟩
  | .ok _ => ⟨s, .panic .interfaceConversion⟩

/-- The statement
`if x, err := getTypedVal(v); err == nil { field = x.(string) }`:
skipped when `getTypedVal` fails, an assignment when `v` is a string, and a panic of the
unchecked assertion when `v` is a number. -/
def setString {F σ : Type} (v : JSON F) (assign : σ → String → σ) (s : σ) : Result σ :=
  match getTypedVal v with
  | .error _ => ⟨s, .ok⟩
  | .ok (.str x) => ⟨assign s x, .ok⟩
  | .ok _ => ⟨s, .panic .interfaceConversion⟩

/-- The loop `for k, v := range m { labels[k] = v.(string) }`. -/
def labelsLoop {F : Type} : List (String × JSON F) → GoMap String → Except Fail (GoMap String)
  | [], labels => .ok labels
  | (k, v) :: rest, labels =>
    match assertString v with
    | .ok s => labelsLoop rest (GoMap.set labels k s)
    | .error f => .error f

/-- What the opening block of every `InterfaceToX` computes before it assigns anything. -/
structure Common (F : Type) where
  properties : AssetProperties
  pricingModels : Option (AssetPricingModels F)
  labels : GoMap String
  start : Time
  end_ : Time

/-- The block `// parse pricingModels map to AssetPricingModels`: nil unless the key holds
a non-nil value, which is then asserted to be an object. -/
def parsePricingModels {F : Type} [Zero F] (fmap : List (String × JSON F)) :
    Except Fail (Option (AssetPricingModels F)) :=
  match index fmap "assetPricingModels" with
  | .null => .ok none
  | fpricingModels =>
    match assertMap fpricingModels with
    | .error f => .error f
    | .ok m => .ok (toAssetPricingModels (some m))

/-- The block `// parse labels map to AssetLabels`. -/
def parseLabels {F : Type} (fmap : List (String × JSON F)) : Except Fail (GoMap String) :=
  match assertMap (index fmap "labels") with
  | .error f => .error f
  | .ok flabels => labelsLoop flabels []

/-- The statement `t, err := time.Parse(time.RFC3339, v.(string)); if err != nil { return err }`. -/
def parseTime {F : Type} (lib : Lib F) (v : JSON F) : Except Fail Time :=
  match assertString v with
  | .error f => .error f
  | .ok s =>
    match lib.parseRFC3339 s with
    | .error err => .error (.error err)
    | .ok t => .ok t

/-- The opening block shared verbatim by the eight decoders (`InterfaceToAny` lines 60-84,
and the same lines of the seven others): properties, pricing models, labels, start, end,
in this order; the first failing step ends the call. -/
def parseCommon {F : Type} [Zero F] (lib : Lib F) (fmap : List (String × JSON F)) :
    Except Fail (Common F) :=
  match assertMap (index fmap "properties") with
  | .error f => .error f
  | .ok fproperties =>
    let properties := toAssetProp fproperties
    match parsePricingModels fmap with
    | .error f => .error f
    | .ok pricingModels =>
      match parseLabels fmap with
      | .error f => .error f
      | .ok labels =>
        match parseTime lib (index fmap "start") with
        | .error f => .error f
        | .ok start =>
          match parseTime lib (index fmap "end") with
          | .error f => .error f
          | .ok end_ => .ok ⟨properties, pricingModels, labels, start, end_⟩

/-- Go `(a *Any) InterfaceToAny`. -/
def Any.InterfaceToAny {F : Type} [Zero F] [Sub F] (lib : Lib F) (a : Any F) (itf : JSON F) :
    Result (Any F) :=
  match assertMap itf with
  | .error f => ⟨a, f.toStatus⟩
  | .ok fmap =>
    match parseCommon lib fmap with
    | .error f => ⟨a, f.toStatus⟩
    | .ok c =>
      let a := { a with
        properties := some c.properties, labels := some c.labels,
        assetPricingModels := c.pricingModels, start := c.start, end_ := c.end_,
        window := { start := some c.start, end_ := some c.end_ } }
      setFloat64 (index fmap "adjustment") (fun a x => { a with adjustment := x }) a
        |>.andThen (setFloat64 (index fmap "credit") (fun a x => { a with credit := x }))
        |>.andThen (setFloat64 (index fmap "discount") (fun a x => { a with discount := x }))
        |>.andThen (setFloat64 (index fmap "totalCost")
          (fun a x => { a with Cost := x - a.adjustment - a.credit }))

/-- Go `(a *Any) UnmarshalJSON`: parse the bytes, then `InterfaceToAny` into the same
receiver. -/
def Any.UnmarshalJSON {F : Type} [Zero F] [Sub F] (lib : Lib F) (a : Any F) (b : RawMessage) :
    Result (Any F) :=
  match lib.unmarshal b with
  | .error err => ⟨a, .error err⟩
  | .ok f => Any.InterfaceToAny lib a f

/-! ### Cloud -/

/-- The struct `Cloud`. -/
structure Cloud (F : Type) where
  properties : Option AssetProperties
  labels : Option (GoMap String)
  assetPricingModels : Option (AssetPricingModels F)
  start : Time
  end_ : Time
  window : Window
  adjustment : F
  credit : F
  discount : F
  Cost : F
  UsageType : String
  UsageDetail : String
  deriving DecidableEq, Repr

/-- The zero value `var ca Cloud`. -/
def Cloud.zero (F : Type) [Zero F] : Cloud F :=
  { properties := none, labels := none, assetPricingModels := none, start := 0, end_ := 0,
    window := {}, adjustment := 0, credit := 0, discount := 0, Cost := 0,
    UsageType := "", UsageDetail := "" }

/-- Go `(ca *Cloud) InterfaceToCloud`. -/
def Cloud.InterfaceToCloud {F : Type} [Zero F] [Sub F] (lib : Lib F) (ca : Cloud F)
    (itf : JSON F) : Result (Cloud F) :=
  match assertMap itf with
  | .error f => ⟨ca, f.toStatus⟩
  | .ok fmap =>
    match parseCommon lib fmap with
    | .error f => ⟨ca, f.toStatus⟩
    | .ok c =>
      let ca := { ca with
        properties := some c.properties, labels := some c.labels,
        assetPricingModels := c.pricingModels, start := c.start, end_ := c.end_,
        window := { start := some c.start, end_ := some c.end_ } }
      setString (index fmap "usageType") (fun ca x => { ca with UsageType := x }) ca
        |>.andThen (setString (index fmap "usageDetail") (fun ca x => { ca with UsageDetail := x }))
        |>.andThen (setFloat64 (index fmap "adjustment") (fun ca x => { ca with adjustment := x }))
        |>.andThen (setFloat64 (index fmap "credit") (fun ca x => { ca with credit := x }))
        |>.andThen (setFloat64 (index fmap "discount") (fun ca x => { ca with discount := x }))
        |>.andThen (setFloat64 (index fmap "totalCost")
          (fun ca x => { ca with Cost := x - ca.adjustment - ca.credit }))

/-! ### ClusterManagement -/

/-- The struct `ClusterManagement`: its decoder assigns no `start` or `end` field, the
interval lives in `window` only. -/
structure ClusterManagement (F : Type) where
  properties : Option AssetProperties
  labels : Option (GoMap String)
  assetPricingModels : Option (AssetPricingModels F)
  window : Window
  adjustment : F
  credit : F
  discount : F
  Cost : F
  deriving DecidableEq, Repr

/-- The zero value `var cm ClusterManagement`. -/
def ClusterManagement.zero (F : Type) [Zero F] : ClusterManagement F :=
  { properties := none, labels := none, assetPricingModels := none,
    window := {}, adjustment := 0, credit := 0, discount := 0, Cost := 0 }

/-- Go `(cm *ClusterManagement) InterfaceToClusterManagement`. -/
def ClusterManagement.InterfaceToClusterManagement {F : Type} [Zero F] [Sub F] (lib : Lib F)
    (cm : ClusterManagement F) (itf : JSON F) : Result (ClusterManagement F) :=
  match assertMap itf with
  | .error f => ⟨cm, f.toStatus⟩
  | .ok fmap =>
    match parseCommon lib fmap with
    | .error f => ⟨cm, f.toStatus⟩
    | .ok c =>
      let cm := { cm with
        properties := some c.properties, labels := some c.labels,
        assetPricingModels := c.pricingModels,
        window := { start := some c.start, end_ := some c.end_ } }
      setFloat64 (index fmap "adjustment") (fun cm x => { cm with adjustment := x }) cm
        |>.andThen (setFloat64 (index fmap "credit") (fun cm x => { cm with credit := x }))
        |>.andThen (setFloat64 (index fmap "discount") (fun cm x => { cm with discount := x }))
        |>.andThen (setFloat64 (index fmap "totalCost")
          (fun cm x => { cm with Cost := x - cm.adjustment - cm.credit }))

/-! ### Disk -/

/-- The struct `Disk`. `Local` is the in-memory flag that has no wire form. -/
structure Disk (F : Type) where
  properties : Option AssetProperties
  labels : Option (GoMap String)
  assetPricingModels : Option (AssetPricingModels F)
  start : Time
  end_ : Time
  window : Window
  adjustment : F
  credit : F
  discount : F
  Cost : F
  ByteHours : F
  Local : Bool
  Breakdown : Option (Breakdown F)
  StorageClass : String
  deriving DecidableEq, Repr

/-- The zero value `var d Disk`. -/
def Disk.zero (F : Type) [Zero F] : Disk F :=
  { properties := none, labels := none, assetPricingModels := none, start := 0, end_ := 0,
    window := {}, adjustment := 0, credit := 0, discount := 0, Cost := 0,
    ByteHours := 0, Local := false, Breakdown := none, StorageClass := "" }

/-- Go `(d *Disk) InterfaceToDisk`. -/
def Disk.InterfaceToDisk {F : Type} [Zero F] [Sub F] (lib : Lib F) (d : Disk F)
    (itf : JSON F) : Result (Disk F) :=
  match assertMap itf with
  | .error f => ⟨d, f.toStatus⟩
  | .ok fmap =>
    match parseCommon lib fmap with
    | .error f => ⟨d, f.toStatus⟩
    | .ok c =>
      match assertMap (index fmap "breakdown") with
      | .error f => ⟨d, f.toStatus⟩
      | .ok fbreakdown =>
        let breakdown := toBreakdown fbreakdown
        let d := { d with
          properties := some c.properties, labels := some c.labels,
          assetPricingModels := c.pricingModels, start := c.start, end_ := c.end_,
          window := { start := some c.start, end_ := some c.end_ },
          Breakdown := some breakdown }
        setString (index fmap "storageClass") (fun d x => { d with StorageClass := x }) d
          |>.andThen (setFloat64 (index fmap "adjustment") (fun d x => { d with adjustment := x }))
          |>.andThen (setFloat64 (index fmap "credit") (fun d x => { d with credit := x }))
          |>.andThen (setFloat64 (index fmap "discount") (fun d x => { d with discount := x }))
          |>.andThen (setFloat64 (index fmap "totalCost")
            (fun d x => { d with Cost := x - d.adjustment - d.credit }))
          |>.andThen (setFloat64 (index fmap "byteHours") (fun d x => { d with ByteHours := x }))

/-! ### Network -/

/-- The struct `Network`. -/
structure Network (F : Type) where
  properties : Option AssetProperties
  labels : Option (GoMap String)
  assetPricingModels : Option (AssetPricingModels F)
  start : Time
  end_ : Time
  window : Window
  adjustment : F
  credit : F
  discount : F
  Cost : F
  deriving DecidableEq, Repr

/-- The zero value `var nw Network`. -/
def Network.zero (F : Type) [Zero F] : Network F :=
  { properties := none, labels := none, assetPricingModels := none, start := 0, end_ := 0,
    window := {}, adjustment := 0, credit := 0, discount := 0, Cost := 0 }

/-- Go `(n *Network) InterfaceToNetwork`. -/
def Network.InterfaceToNetwork {F : Type} [Zero F] [Sub F] (lib : Lib F) (n : Network F)
    (itf : JSON F) : Result (Network F) :=
  match assertMap itf with
  | .error f => ⟨n, f.toStatus⟩
  | .ok fmap =>
    match parseCommon lib fmap with
    | .error f => ⟨n, f.toStatus⟩
    | .ok c =>
      let n := { n with
        properties := some c.properties, labels := some c.labels,
        assetPricingModels := c.pricingModels, start := c.start, end_ := c.end_,
        window := { start := some c.start, end_ := some c.end_ } }
      setFloat64 (index fmap "adjustment") (fun n x => { n with adjustment := x }) n
        |>.andThen (setFloat64 (index fmap "credit") (fun n x => { n with credit := x }))
        |>.andThen (setFloat64 (index fmap "discount") (fun n x => { n with discount := x }))
        |>.andThen (setFloat64 (index fmap "totalCost")
          (fun n x => { n with Cost := x - n.adjustment - n.credit }))

/-! ### Node -/

/-- The struct `Node`: it has no base-cost field, its cost is carried by `CPUCost`,
`GPUCost` and `RAMCost`. -/
structure Node (F : Type) where
  properties : Option AssetProperties
  labels : Option (GoMap String)
  assetPricingModels : Option (AssetPricingModels F)
  start : Time
  end_ : Time
  window : Window
  adjustment : F
  credit : F
  discount : F
  NodeType : String
  CPUCoreHours : F
  RAMByteHours : F
  GPUHours : F
  CPUBreakdown : Option (Breakdown F)
  RAMBreakdown : Option (Breakdown F)
  CPUCost : F
  GPUCost : F
  GPUCount : F
  RAMCost : F
  deriving DecidableEq, Repr

/-- The zero value `var n Node`. -/
def Node.zero (F : Type) [Zero F] : Node F :=
  { properties := none, labels := none, assetPricingModels := none, start := 0, end_ := 0,
    window := {}, adjustment := 0, credit := 0, discount := 0, NodeType := "",
    CPUCoreHours := 0, RAMByteHours := 0, GPUHours := 0, CPUBreakdown := none,
    RAMBreakdown := none, CPUCost := 0, GPUCost := 0, GPUCount := 0, RAMCost := 0 }

/-- Go `(n *Node) InterfaceToNode`. -/
def Node.InterfaceToNode {F : Type} [Zero F] (lib : Lib F) (n : Node F)
    (itf : JSON F) : Result (Node F) :=
  match assertMap itf with
  | .error f => ⟨n, f.toStatus⟩
  | .ok fmap =>
    match parseCommon lib fmap with
    | .error f => ⟨n, f.toStatus⟩
    | .ok c =>
      match assertMap (index fmap "cpuBreakdown") with
      | .error f => ⟨n, f.toStatus⟩
      | .ok fcpuBreakdown =>
        match assertMap (index fmap "ramBreakdown") with
        | .error f => ⟨n, f.toStatus⟩
        | .ok framBreakdown =>
          let cpuBreakdown := toBreakdown fcpuBreakdown
          let ramBreakdown := toBreakdown framBreakdown
          let n := { n with
            properties := some c.properties, labels := some c.labels,
            assetPricingModels := c.pricingModels, start := c.start, end_ := c.end_,
            window := { start := some c.start, end_ := some c.end_ },
            CPUBreakdown := some cpuBreakdown, RAMBreakdown := some ramBreakdown }
          setFloat64 (index fmap "adjustment") (fun n x => { n with adjustment := x }) n
            |>.andThen (setFloat64 (index fmap "credit") (fun n x => { n with credit := x }))
            |>.andThen (setFloat64 (index fmap "discount") (fun n x => { n with discount := x }))
            |>.andThen (setString (index fmap "nodeType") (fun n x => { n with NodeType := x }))
            |>.andThen (setFloat64 (index fmap "cpuCoreHours")
              (fun n x => { n with CPUCoreHours := x }))
            |>.andThen (setFloat64 (index fmap "ramByteHours")
              (fun n x => { n with RAMByteHours := x }))
            |>.andThen (setFloat64 (index fmap "GPUHours") (fun n x => { n with GPUHours := x }))
            |>.andThen (setFloat64 (index fmap "cpuCost") (fun n x => { n with CPUCost := x }))
            |>.andThen (setFloat64 (index fmap "gpuCost") (fun n x => { n with GPUCost := x }))
            |>.andThen (setFloat64 (index fmap "gpuCount") (fun n x => { n with GPUCount := x }))
            |>.andThen (setFloat64 (index fmap "ramCost") (fun n x => { n with RAMCost := x }))

/-! ### LoadBalancer -/

/-- The struct `LoadBalancer`. -/
structure LoadBalancer (F : Type) where
  properties : Option AssetProperties
  labels : Option (GoMap String)
  assetPricingModels : Option (AssetPricingModels F)
  start : Time
  end_ : Time
  window : Window
  adjustment : F
  credit : F
  discount : F
  Cost : F
  deriving DecidableEq, Repr

/-- The zero value `var lb LoadBalancer`. -/
def LoadBalancer.zero (F : Type) [Zero F] : LoadBalancer F :=
  { properties := none, labels := none, assetPricingModels := none, start := 0, end_ := 0,
    window := {}, adjustment := 0, credit := 0, discount := 0, Cost := 0 }

/-- Go `(lb *LoadBalancer) InterfaceToLoadBalancer`. -/
def LoadBalancer.InterfaceToLoadBalancer {F : Type} [Zero F] [Sub F] (lib : Lib F)
    (lb : LoadBalancer F) (itf : JSON F) : Result (LoadBalancer F) :=
  match assertMap itf with
  | .error f => ⟨lb, f.toStatus⟩
  | .ok fmap =>
    match parseCommon lib fmap with
    | .error f => ⟨lb, f.toStatus⟩
    | .ok c =>
      let lb := { lb with
        properties := some c.properties, labels := some c.labels,
        assetPricingModels := c.pricingModels, start := c.start, end_ := c.end_,
        window := { start := some c.start, end_ := some c.end_ } }
      setFloat64 (index fmap "adjustment") (fun lb x => { lb with adjustment := x }) lb
        |>.andThen (setFloat64 (index fmap "credit") (fun lb x => { lb with credit := x }))
        |>.andThen (setFloat64 (index fmap "discount") (fun lb x => { lb with discount := x }))
        |>.andThen (setFloat64 (index fmap "totalCost")
          (fun lb x => { lb with Cost := x - lb.adjustment - lb.credit }))

/-! ### SharedAsset -/

/-- The struct `SharedAsset`: like `ClusterManagement`, no `start` or `end` field is
assigned by its decoder. -/
structure SharedAsset (F : Type) where
  properties : Option AssetProperties
  labels : Option (GoMap String)
  assetPricingModels : Option (AssetPricingModels F)
  window : Window
  adjustment : F
  credit : F
  discount : F
  Cost : F
  deriving DecidableEq, Repr

/-- The zero value `var sa SharedAsset`. -/
def SharedAsset.zero (F : Type) [Zero F] : SharedAsset F :=
  { properties := none, labels := none, assetPricingModels := none,
    window := {}, adjustment := 0, credit := 0, discount := 0, Cost := 0 }

/-- Go `(sa *SharedAsset) InterfaceToSharedAsset`. -/
def SharedAsset.InterfaceToSharedAsset {F : Type} [Zero F] [Sub F] (lib : Lib F)
    (sa : SharedAsset F) (itf : JSON F) : Result (SharedAsset F) :=
  match assertMap itf with
  | .error f => ⟨sa, f.toStatus⟩
  | .ok fmap =>
    match parseCommon lib fmap with
    | .error f => ⟨sa, f.toStatus⟩
    | .ok c =>
      let sa := { sa with
        properties := some c.properties, labels := some c.labels,
        assetPricingModels := c.pricingModels,
        window := { start := some c.start, end_ := some c.end_ } }
      setFloat64 (index fmap "adjustment") (fun sa x => { sa with adjustment := x }) sa
        |>.andThen (setFloat64 (index fmap "credit") (fun sa x => { sa with credit := x }))
        |>.andThen (setFloat64 (index fmap "discount") (fun sa x => { sa with discount := x }))
        |>.andThen (setFloat64 (index fmap "totalCost")
          (fun sa x => { sa with Cost := x - sa.adjustment - sa.credit }))

/-! ## Collection and range codecs -/

/-- The interface `Asset`: a pointer to one of the eight concrete kinds. -/
inductive Asset (F : Type) where
  | any (a : Any F)
  | cloud (ca : Cloud F)
  | clusterManagement (cm : ClusterManagement F)
  | disk (d : Disk F)
  | network (nw : Network F)
  | node (n : Node F)
  | loadBalancer (lb : LoadBalancer F)
  | sharedAsset (sa : SharedAsset F)
  deriving DecidableEq, Repr

/-- The struct `AssetSetResponse`; `Assets` is `none` while the map is nil. -/
structure AssetSetResponse (F : Type) where
  Assets : Option (GoMap (Asset F))
  deriving DecidableEq, Repr

/-- The zero value `var asresp AssetSetResponse`. -/
def AssetSetResponse.zero (F : Type) : AssetSetResponse F := { Assets := none }

/-- The struct `AssetSetRangeResponse`; the nil slice and the empty slice are both `[]`. -/
structure AssetSetRangeResponse (F : Type) where
  Assets : List (AssetSetResponse F)
  deriving DecidableEq, Repr

/-- The tail of each `case` of the dispatcher: `if err != nil { return err }`, then the
decoded record is boxed as an `Asset`. A panic of the decoder unwinds through the caller. -/
def boxed {F σ : Type} (r : Result σ) (box : σ → Asset F) : Except Fail (Asset F) :=
  match r.status with
  | .ok => .ok (box r.state)
  | .error e => .error (.error e)
  | .panic p => .error (.panic p)

/-- The body of the loop of `RawMessageToAssetSetResponse` for one `rawMessage`: parse the
fragment, assert it is an object, switch on `fmap["type"]`, decode into a zero record of
the selected kind. -/
def decodeEntry {F : Type} [Zero F] [Sub F] (lib : Lib F) (rawMessage : Option RawMessage) :
    Except Fail (Asset F) :=
  match rawMessage with
  | none => .error (.panic .nilDereference)
  | some raw =>
    match lib.unmarshal raw with
    | .error err => .error (.error err)
    | .ok f =>
      match assertMap f with
      | .error p => .error p
      | .ok fmap =>
        match index fmap "type" with
        | .str "Cloud" =>
          boxed (Cloud.InterfaceToCloud lib (Cloud.zero F) f) Asset.cloud
        | .str "ClusterManagement" =>
          boxed (ClusterManagement.InterfaceToClusterManagement lib (ClusterManagement.zero F) f)
            Asset.clusterManagement
        | .str "Disk" =>
          boxed (Disk.InterfaceToDisk lib (Disk.zero F) f) Asset.disk
        | .str "Network" =>
          boxed (Network.InterfaceToNetwork lib (Network.zero F) f) Asset.network
        | .str "Node" =>
          boxed (Node.InterfaceToNode lib (Node.zero F) f) Asset.node
        | .str "LoadBalancer" =>
          boxed (LoadBalancer.InterfaceToLoadBalancer lib (LoadBalancer.zero F) f)
            Asset.loadBalancer
        | .str "Shared" =>
          boxed (SharedAsset.InterfaceToSharedAsset lib (SharedAsset.zero F) f)
            Asset.sharedAsset
        | _ =>
          boxed (Any.InterfaceToAny lib (Any.zero F) f) Asset.any

/-- The loop `for key, rawMessage := range assetMap` of `RawMessageToAssetSetResponse`,
filling `newAssetMap`; the first failing entry ends the call. -/
def decodeLoop {F : Type} [Zero F] [Sub F] (lib : Lib F) :
    GoMap (Option RawMessage) → GoMap (Asset F) → Except Fail (GoMap (Asset F))
  | [], newAssetMap => .ok newAssetMap
  | (key, rawMessage) :: rest, newAssetMap =>
    match decodeEntry lib rawMessage with
    | .error f => .error f
    | .ok asset => decodeLoop lib rest (GoMap.set newAssetMap key asset)

/-- Go `(asr *AssetSetResponse) RawMessageToAssetSetResponse`. -/
def AssetSetResponse.RawMessageToAssetSetResponse {F : Type} [Zero F] [Sub F] (lib : Lib F)
    (asr : AssetSetResponse F) (assetMap : GoMap (Option RawMessage)) :
    Result (AssetSetResponse F) :=
  match decodeLoop lib assetMap [] with
  | .error f => ⟨asr, f.toStatus⟩
  | .ok newAssetMap => ⟨{ asr with Assets := some newAssetMap }, .ok⟩

/-- Go `(asr *AssetSetResponse) UnmarshalJSON`. -/
def AssetSetResponse.UnmarshalJSON {F : Type} [Zero F] [Sub F] (lib : Lib F)
    (asr : AssetSetResponse F) (b : RawMessage) : Result (AssetSetResponse F) :=
  match lib.unmarshalRawMap b with
  | .error err => ⟨asr, .error err⟩
  | .ok assetMap => AssetSetResponse.RawMessageToAssetSetResponse lib asr assetMap

/-- The loop `for _, rawm := range assetMapList` of `AssetSetRangeResponse.UnmarshalJSON`,
appending to `assetSetList`. -/
def rangeLoop {F : Type} [Zero F] [Sub F] (lib : Lib F) :
    List (GoMap (Option RawMessage)) → List (AssetSetResponse F) →
      Except Fail (List (AssetSetResponse F))
  | [], assetSetList => .ok assetSetList
  | rawm :: rest, assetSetList =>
    let r := AssetSetResponse.RawMessageToAssetSetResponse lib (AssetSetResponse.zero F) rawm
    match r.status with
    | .error e => .error (.error e)
    | .panic p => .error (.panic p)
    | .ok => rangeLoop lib rest (assetSetList ++ [r.state])

/-- Go `(asrr *AssetSetRangeResponse) UnmarshalJSON`. -/
def AssetSetRangeResponse.UnmarshalJSON {F : Type} [Zero F] [Sub F] (lib : Lib F)
    (asrr : AssetSetRangeResponse F) (b : RawMessage) : Result (AssetSetRangeResponse F) :=
  match lib.unmarshalRawMapList b with
  | .error err => ⟨asrr, .error err⟩
  | .ok assetMapList =>
    match rangeLoop lib assetMapList [] with
    | .error f => ⟨asrr, f.toStatus⟩
    | .ok assetSetList => ⟨{ asrr with Assets := assetSetList }, .ok⟩

/-! ## Encoders

`MarshalJSON` opens a buffer with an opening brace, calls one rendering helper per member
(`jsonEncode`, `jsonEncodeString` or `jsonEncodeFloat64`, with the member's name, its value
and a separator) and closes the buffer. The embedding keeps the helper calls in the order
they are made; the helpers themselves are declared outside this file, so the text they
append is a parameter (`Helpers`), and `buffer` is the text `MarshalJSON` returns. Nothing
is assumed about that text: a statement that needs the JSON parser to read it back says
so (`readsBack`). -/

/-- Modelled from the spec: the accessors that compute derived wire values (`Minutes`,
`TotalCost`, `Bytes`, `CPUCores`, `RAMBytes`, `GPUs`) are declared outside this file; they
are parameters of the encoders. -/
structure Accessors (F : Type) where
  minutes : Time → Time → F
  totalCost : Asset F → F
  bytes : Disk F → F
  cpuCores : Node F → F
  ramBytes : Node F → F
  gpus : Node F → F

/-- Modelled from the spec: the rendering helpers `jsonEncode`, `jsonEncodeString` and
`jsonEncodeFloat64` are declared outside this file; the text each appends to the buffer,
given the member's name, its value and the separator, is a parameter. -/
structure Helpers (F : Type) where
  jsonEncode : String → JSON F → String → String
  jsonEncodeString : String → String → String → String
  jsonEncodeFloat64 : String → F → String → String

/-- The value of one member and the helper `MarshalJSON` writes it with: `jsonEncode` takes
any value (here in its JSON form), `jsonEncodeString` a string, `jsonEncodeFloat64` a
`float64`. -/
inductive HelperCall (F : Type) where
  | jsonEncode (obj : JSON F)
  | jsonEncodeString (obj : String)
  | jsonEncodeFloat64 (obj : F)

/-- The JSON value a helper call is meant to write. -/
def HelperCall.value {F : Type} : HelperCall F → JSON F
  | .jsonEncode obj => obj
  | .jsonEncodeString obj => .str obj
  | .jsonEncodeFloat64 obj => .num obj

/-- Modelled from the spec: the members of the JSON form of an `AssetProperties` (written
by `jsonEncode`, which is not in this file): the eleven string fields of the spec under
their wire names. -/
def propertiesMembers {F : Type} (p : AssetProperties) : List (String × JSON F) :=
  [("category", .str p.Category), ("provider", .str p.Provider),
   ("account", .str p.Account), ("project", .str p.Project),
   ("service", .str p.Service), ("cluster", .str p.Cluster), ("name", .str p.Name),
   ("providerID", .str p.ProviderID), ("region", .str p.Region),
   ("pricingSource", .str p.PricingSource), ("currency", .str p.Currency)]

/-- Modelled from the spec: the JSON form of `*AssetProperties`, `null` for the nil
pointer. -/
def encodeProperties {F : Type} : Option AssetProperties → JSON F
  | none => .null
  | some p => .obj (propertiesMembers p)

/-- Modelled from the spec: the members of the JSON form of a labels map, one string
member per label. -/
def labelsMembers {F : Type} (labels : GoMap String) : List (String × JSON F) :=
  labels.map (fun kv => (kv.1, JSON.str kv.2))

/-- Modelled from the spec: the JSON form of a labels map written by `jsonEncode`, `null`
for the nil map. -/
def encodeLabels {F : Type} : Option (GoMap String) → JSON F
  | none => .null
  | some labels => .obj (labelsMembers labels)

/-- Modelled from the spec: the JSON form of `*AssetPricingModels` written by `jsonEncode`:
`null` for the nil pointer, otherwise the three numbers under their wire names. -/
def encodePricingModels {F : Type} : Option (AssetPricingModels F) → JSON F
  | none => .null
  | some pm => .obj
    [("preemptible", .num pm.Preemptible), ("reservedInstance", .num pm.ReservedInstance),
     ("savingsPlan", .num pm.SavingsPlan)]

/-- Modelled from the spec: the members of the JSON form of a `Breakdown`, the four numbers
under their wire names. -/
def breakdownMembers {F : Type} (b : Breakdown F) : List (String × JSON F) :=
  [("idle", .num b.Idle), ("other", .num b.Other), ("system", .num b.System),
   ("user", .num b.User)]

/-- Modelled from the spec: the JSON form of `*Breakdown` written by `jsonEncode`, `null`
for the nil pointer. -/
def encodeBreakdown {F : Type} : Option (Breakdown F) → JSON F
  | none => .null
  | some b => .obj (breakdownMembers b)

/-- Modelled from the spec: the JSON form of an optional instant, `null` for nil. -/
def encodeTime {F : Type} (lib : Lib F) : Option Time → JSON F
  | none => .null
  | some t => .str (lib.formatRFC3339 t)

/-- Modelled from the spec: the JSON form of a `Window` written by `jsonEncode`: its two
instants under `start` and `end`. -/
def encodeWindow {F : Type} (lib : Lib F) (w : Window) : JSON F :=
  .obj [("start", encodeTime lib w.start), ("end", encodeTime lib w.end_)]

/-- Modelled from the spec: `Start()` and `End()` of the two kinds that keep their interval
in `window` only dereference the window's pointers; a nil pointer panics. -/
def derefTime : Option Time → Except Fail Time
  | none => .error (.panic .nilDereference)
  | some t => .ok t

/-- Go `(a *Any) MarshalJSON`: no `type` member. -/
def Any.MarshalJSON {F : Type} (acc : Accessors F) (lib : Lib F) (a : Any F) :
    Except Fail (List (String × HelperCall F)) :=
  .ok
    [("properties", .jsonEncode (encodeProperties a.properties)),
     ("labels", .jsonEncode (encodeLabels a.labels)),
     ("assetPricingModels", .jsonEncode (encodePricingModels a.assetPricingModels)),
     ("window", .jsonEncode (encodeWindow lib a.window)),
     ("start", .jsonEncodeString (lib.formatRFC3339 a.start)),
     ("end", .jsonEncodeString (lib.formatRFC3339 a.end_)),
     ("minutes", .jsonEncodeFloat64 (acc.minutes a.start a.end_)),
     ("adjustment", .jsonEncodeFloat64 a.adjustment),
     ("credit", .jsonEncodeFloat64 a.credit),
     ("discount", .jsonEncodeFloat64 a.discount),
     ("totalCost", .jsonEncodeFloat64 (acc.totalCost (.any a)))]

/-- Go `(ca *Cloud) MarshalJSON`. -/
def Cloud.MarshalJSON {F : Type} (acc : Accessors F) (lib : Lib F) (ca : Cloud F) :
    Except Fail (List (String × HelperCall F)) :=
  .ok
    [("type", .jsonEncodeString "Cloud"),
     ("properties", .jsonEncode (encodeProperties ca.properties)),
     ("labels", .jsonEncode (encodeLabels ca.labels)),
     ("assetPricingModels", .jsonEncode (encodePricingModels ca.assetPricingModels)),
     ("usageType", .jsonEncode (.str ca.UsageType)),
     ("usageDetail", .jsonEncode (.str ca.UsageDetail)),
     ("window", .jsonEncode (encodeWindow lib ca.window)),
     ("start", .jsonEncodeString (lib.formatRFC3339 ca.start)),
     ("end", .jsonEncodeString (lib.formatRFC3339 ca.end_)),
     ("minutes", .jsonEncodeFloat64 (acc.minutes ca.start ca.end_)),
     ("adjustment", .jsonEncodeFloat64 ca.adjustment),
     ("credit", .jsonEncodeFloat64 ca.credit),
     ("discount", .jsonEncodeFloat64 ca.discount),
     ("totalCost", .jsonEncodeFloat64 (acc.totalCost (.cloud ca)))]

/-- Go `(cm *ClusterManagement) MarshalJSON`. -/
def ClusterManagement.MarshalJSON {F : Type} (acc : Accessors F) (lib : Lib F)
    (cm : ClusterManagement F) : Except Fail (List (String × HelperCall F)) :=
  match derefTime cm.window.start with
  | .error f => .error f
  | .ok start =>
    match derefTime cm.window.end_ with
    | .error f => .error f
    | .ok end_ =>
      .ok
        [("type", .jsonEncodeString "ClusterManagement"),
         ("properties", .jsonEncode (encodeProperties cm.properties)),
         ("labels", .jsonEncode (encodeLabels cm.labels)),
         ("assetPricingModels", .jsonEncode (encodePricingModels cm.assetPricingModels)),
         ("window", .jsonEncode (encodeWindow lib cm.window)),
         ("start", .jsonEncodeString (lib.formatRFC3339 start)),
         ("end", .jsonEncodeString (lib.formatRFC3339 end_)),
         ("minutes", .jsonEncodeFloat64 (acc.minutes start end_)),
         ("adjustment", .jsonEncodeFloat64 cm.adjustment),
         ("credit", .jsonEncodeFloat64 cm.credit),
         ("discount", .jsonEncodeFloat64 cm.discount),
         ("totalCost", .jsonEncodeFloat64 (acc.totalCost (.clusterManagement cm)))]

/-- Go `(d *Disk) MarshalJSON`: `Local` is not written. -/
def Disk.MarshalJSON {F : Type} (acc : Accessors F) (lib : Lib F) (d : Disk F) :
    Except Fail (List (String × HelperCall F)) :=
  .ok
    [("type", .jsonEncodeString "Disk"),
     ("properties", .jsonEncode (encodeProperties d.properties)),
     ("labels", .jsonEncode (encodeLabels d.labels)),
     ("assetPricingModels", .jsonEncode (encodePricingModels d.assetPricingModels)),
     ("window", .jsonEncode (encodeWindow lib d.window)),
     ("start", .jsonEncodeString (lib.formatRFC3339 d.start)),
     ("end", .jsonEncodeString (lib.formatRFC3339 d.end_)),
     ("minutes", .jsonEncodeFloat64 (acc.minutes d.start d.end_)),
     ("byteHours", .jsonEncodeFloat64 d.ByteHours),
     ("bytes", .jsonEncodeFloat64 (acc.bytes d)),
     ("breakdown", .jsonEncode (encodeBreakdown d.Breakdown)),
     ("storageClass", .jsonEncode (.str d.StorageClass)),
     ("adjustment", .jsonEncodeFloat64 d.adjustment),
     ("credit", .jsonEncodeFloat64 d.credit),
     ("discount", .jsonEncodeFloat64 d.discount),
     ("totalCost", .jsonEncodeFloat64 (acc.totalCost (.disk d)))]

/-- Go `(n *Network) MarshalJSON`. -/
def Network.MarshalJSON {F : Type} (acc : Accessors F) (lib : Lib F) (n : Network F) :
    Except Fail (List (String × HelperCall F)) :=
  .ok
    [("type", .jsonEncodeString "Network"),
     ("properties", .jsonEncode (encodeProperties n.properties)),
     ("labels", .jsonEncode (encodeLabels n.labels)),
     ("assetPricingModels", .jsonEncode (encodePricingModels n.assetPricingModels)),
     ("window", .jsonEncode (encodeWindow lib n.window)),
     ("start", .jsonEncodeString (lib.formatRFC3339 n.start)),
     ("end", .jsonEncodeString (lib.formatRFC3339 n.end_)),
     ("minutes", .jsonEncodeFloat64 (acc.minutes n.start n.end_)),
     ("adjustment", .jsonEncodeFloat64 n.adjustment),
     ("credit", .jsonEncodeFloat64 n.credit),
     ("discount", .jsonEncodeFloat64 n.discount),
     ("totalCost", .jsonEncodeFloat64 (acc.totalCost (.network n)))]

/-- Go `(n *Node) MarshalJSON`: `assetPricingModels` is written before `labels`, and
`gpuCount` is the value of the accessor `GPUs()`, not the field `GPUCount`. -/
def Node.MarshalJSON {F : Type} (acc : Accessors F) (lib : Lib F) (n : Node F) :
    Except Fail (List (String × HelperCall F)) :=
  .ok
    [("type", .jsonEncodeString "Node"),
     ("properties", .jsonEncode (encodeProperties n.properties)),
     ("assetPricingModels", .jsonEncode (encodePricingModels n.assetPricingModels)),
     ("labels", .jsonEncode (encodeLabels n.labels)),
     ("window", .jsonEncode (encodeWindow lib n.window)),
     ("start", .jsonEncodeString (lib.formatRFC3339 n.start)),
     ("end", .jsonEncodeString (lib.formatRFC3339 n.end_)),
     ("minutes", .jsonEncodeFloat64 (acc.minutes n.start n.end_)),
     ("nodeType", .jsonEncodeString n.NodeType),
     ("cpuCores", .jsonEncodeFloat64 (acc.cpuCores n)),
     ("ramBytes", .jsonEncodeFloat64 (acc.ramBytes n)),
     ("cpuCoreHours", .jsonEncodeFloat64 n.CPUCoreHours),
     ("ramByteHours", .jsonEncodeFloat64 n.RAMByteHours),
     ("GPUHours", .jsonEncodeFloat64 n.GPUHours),
     ("cpuBreakdown", .jsonEncode (encodeBreakdown n.CPUBreakdown)),
     ("ramBreakdown", .jsonEncode (encodeBreakdown n.RAMBreakdown)),
     ("cpuCost", .jsonEncodeFloat64 n.CPUCost),
     ("gpuCost", .jsonEncodeFloat64 n.GPUCost),
     ("gpuCount", .jsonEncodeFloat64 (acc.gpus n)),
     ("ramCost", .jsonEncodeFloat64 n.RAMCost),
     ("adjustment", .jsonEncodeFloat64 n.adjustment),
     ("credit", .jsonEncodeFloat64 n.credit),
     ("discount", .jsonEncodeFloat64 n.discount),
     ("totalCost", .jsonEncodeFloat64 (acc.totalCost (.node n)))]

/-- Go `(lb *LoadBalancer) MarshalJSON`. -/
def LoadBalancer.MarshalJSON {F : Type} (acc : Accessors F) (lib : Lib F)
    (lb : LoadBalancer F) : Except Fail (List (String × HelperCall F)) :=
  .ok
    [("type", .jsonEncodeString "LoadBalancer"),
     ("properties", .jsonEncode (encodeProperties lb.properties)),
     ("labels", .jsonEncode (encodeLabels lb.labels)),
     ("assetPricingModels", .jsonEncode (encodePricingModels lb.assetPricingModels)),
     ("window", .jsonEncode (encodeWindow lib lb.window)),
     ("start", .jsonEncodeString (lib.formatRFC3339 lb.start)),
     ("end", .jsonEncodeString (lib.formatRFC3339 lb.end_)),
     ("minutes", .jsonEncodeFloat64 (acc.minutes lb.start lb.end_)),
     ("adjustment", .jsonEncodeFloat64 lb.adjustment),
     ("credit", .jsonEncodeFloat64 lb.credit),
     ("discount", .jsonEncodeFloat64 lb.discount),
     ("totalCost", .jsonEncodeFloat64 (acc.totalCost (.loadBalancer lb)))]

/-- Go `(sa *SharedAsset) MarshalJSON`. -/
def SharedAsset.MarshalJSON {F : Type} (acc : Accessors F) (lib : Lib F)
    (sa : SharedAsset F) : Except Fail (List (String × HelperCall F)) :=
  match derefTime sa.window.start with
  | .error f => .error f
  | .ok start =>
    match derefTime sa.window.end_ with
    | .error f => .error f
    | .ok end_ =>
      .ok
        [("type", .jsonEncodeString "Shared"),
         ("properties", .jsonEncode (encodeProperties sa.properties)),
         ("labels", .jsonEncode (encodeLabels sa.labels)),
         ("assetPricingModels", .jsonEncode (encodePricingModels sa.assetPricingModels)),
         ("window", .jsonEncode (encodeWindow lib sa.window)),
         ("start", .jsonEncodeString (lib.formatRFC3339 start)),
         ("end", .jsonEncodeString (lib.formatRFC3339 end_)),
         ("minutes", .jsonEncodeFloat64 (acc.minutes start end_)),
         ("adjustment", .jsonEncodeFloat64 sa.adjustment),
         ("credit", .jsonEncodeFloat64 sa.credit),
         ("discount", .jsonEncodeFloat64 sa.discount),
         ("totalCost", .jsonEncodeFloat64 (acc.totalCost (.sharedAsset sa)))]

/-- The text the helper calls append to the buffer, the last call with the empty
separator and every other call with a comma. -/
def renderCalls {F : Type} (h : Helpers F) : List (String × HelperCall F) → String
  | [] => ""
  | (name, call) :: rest =>
    let comma := if rest.isEmpty then "" else ","
    (match call with
      | .jsonEncode obj => h.jsonEncode name obj comma
      | .jsonEncodeString obj => h.jsonEncodeString name obj comma
      | .jsonEncodeFloat64 obj => h.jsonEncodeFloat64 name obj comma)
    ++ renderCalls h rest

/-- The bytes a `MarshalJSON` body returns: the buffer opened with a brace, the text of
the helper calls, the closing brace. -/
def buffer {F : Type} (h : Helpers F) (calls : List (String × HelperCall F)) : RawMessage :=
  "\x7b" ++ renderCalls h calls ++ "\x7d"

/-- The members the helper calls are meant to write: each name with the JSON value of the
call. -/
def writtenMembers {F : Type} (calls : List (String × HelperCall F)) :
    List (String × JSON F) :=
  calls.map (fun c => (c.1, c.2.value))

/-- The decode, into the record `fresh`, of what an encoder wrote: the encoder's failure,
or what `UnmarshalJSON` of the kind does on the returned bytes, `json.Unmarshal` followed
by the `InterfaceToX` decoder. -/
def decodeEncoded {F σ : Type} (h : Helpers F) (lib : Lib F)
    (encoded : Except Fail (List (String × HelperCall F)))
    (decode : σ → JSON F → Result σ) (fresh : σ) : Result σ :=
  match encoded with
  | .error f => ⟨fresh, f.toStatus⟩
  | .ok calls =>
    match lib.unmarshal (buffer h calls) with
    | .error err => ⟨fresh, .error err⟩
    | .ok f => decode fresh f

/-- The JSON parser reads the written bytes back: `json.Unmarshal` of the buffer returns
an object that holds, under each of the keys `ks`, the value the encoder wrote under that
key. Whether it does depends on the rendering helpers. -/
def readsBack {F : Type} (h : Helpers F) (lib : Lib F)
    (encoded : Except Fail (List (String × HelperCall F))) (ks : List String) : Prop :=
  ∀ calls, encoded = .ok calls →
    ∃ fmap, lib.unmarshal (buffer h calls) = .ok (.obj fmap)
      ∧ ∀ k ∈ ks, index fmap k = index (writtenMembers calls) k

/-- The decoder run directly on the object of the written members, what `UnmarshalJSON`
does when the parser reads the bytes back exactly. -/
def decodeWritten {F σ : Type} (encoded : Except Fail (List (String × HelperCall F)))
    (decode : σ → JSON F → Result σ) (fresh : σ) : Result σ :=
  match encoded with
  | .error f => ⟨fresh, f.toStatus⟩
  | .ok calls => decode fresh (.obj (writtenMembers calls))

/-- The common part of a record can be read back from the wire: the properties pointer is
not nil, the labels map is not nil (and binds each key once, as a map does), and the
timestamp parser returns `start` and `end` from their RFC 3339 renderings. -/
def wireReady {F : Type} (lib : Lib F) (properties : Option AssetProperties)
    (labels : Option (GoMap String)) (start end_ : Time) : Prop :=
  properties.isSome = true
  ∧ (∃ m, labels = some m ∧ (GoMap.keys m).Nodup)
  ∧ lib.parseRFC3339 (lib.formatRFC3339 start) = .ok start
  ∧ lib.parseRFC3339 (lib.formatRFC3339 end_) = .ok end_

/-- The keys an encoder wrote, in the order it wrote them; none when the encoder did not
return. -/
def writtenKeys {V : Type} (encoded : Except Fail (List (String × V))) :
    Option (List String) :=
  match encoded with
  | .ok members => some (GoMap.keys members)
  | .error _ => none

/-- The key order the specification states for every kind: `type` (except for the generic
kind), the common keys, the kind-specific keys, then `adjustment`, `credit`, `discount` and
`totalCost`. -/
def specKeyOrder (withType : Bool) (kindSpecific : List String) : List String :=
  (if withType then ["type"] else [])
    ++ ["properties", "labels", "assetPricingModels", "window", "start", "end", "minutes"]
    ++ kindSpecific ++ ["adjustment", "credit", "discount", "totalCost"]

/-! ## Shapes of entries

Executable descriptions of the entries the statements below range over. -/

/-- Whether a library call returned without error. -/
def isOk {ε α : Type} : Except ε α → Bool
  | .ok _ => true
  | .error _ => false

/-- The value of a key read as a number, `d` when the key holds anything else. -/
def floatOr {F : Type} (v : JSON F) (d : F) : F :=
  match v with
  | .num x => x
  | _ => d

/-- The value of a key read as a string, `d` when the key holds anything else. -/
def stringOr {F : Type} (v : JSON F) (d : String) : String :=
  match v with
  | .str x => x
  | _ => d

/-- Whether the value is an object all of whose members are strings. -/
def isStringMap {F : Type} : JSON F → Bool
  | .obj flabels => flabels.all (fun kv => kv.2.isStr)
  | _ => false

/-- Whether the value is a string the timestamp parser accepts. -/
def isTimestamp {F : Type} (lib : Lib F) : JSON F → Bool
  | .str s => isOk (lib.parseRFC3339 s)
  | _ => false

/-- The common fields have the shapes every decoder requires: `properties` an object,
`assetPricingModels` absent (or null) or an object, `labels` an object of strings, `start`
and `end` strings the timestamp parser accepts. -/
def validCommon {F : Type} (lib : Lib F) (fmap : List (String × JSON F)) : Bool :=
  (index fmap "properties").isObj
  && ((index fmap "assetPricingModels").isNull || (index fmap "assetPricingModels").isObj)
  && isStringMap (index fmap "labels")
  && isTimestamp lib (index fmap "start")
  && isTimestamp lib (index fmap "end")

/-- The pricing-model reference the opening block computes from the value of
`assetPricingModels`. -/
def pricingOf {F : Type} [Zero F] (v : JSON F) : Option (AssetPricingModels F) :=
  match v with
  | .obj m => toAssetPricingModels (some m)
  | _ => none

/-- The base cost the decoders compute from the value of `totalCost`: the number minus
adjustment and credit, `d` when the key holds no number. -/
def costOr {F : Type} [Sub F] (v : JSON F) (adjustment credit d : F) : F :=
  match v with
  | .num x => x - adjustment - credit
  | _ => d

/-- The receiver after an optional numeric assignment that did not panic. -/
def updFloat {F σ : Type} (v : JSON F) (assign : σ → F → σ) (s : σ) : σ :=
  match v with
  | .num x => assign s x
  | _ => s

/-- The receiver after an optional string assignment that did not panic. -/
def updString {F σ : Type} (v : JSON F) (assign : σ → String → σ) (s : σ) : σ :=
  match v with
  | .str x => assign s x
  | _ => s

/-- The optional numeric keys `ks` hold no string (a number, or something `getTypedVal`
rejects, or nothing). -/
def noStringAt {F : Type} (fmap : List (String × JSON F)) (ks : List String) : Bool :=
  ks.all (fun k => !(index fmap k).isStr)

/-- The optional string keys `ks` hold no number. -/
def noNumberAt {F : Type} (fmap : List (String × JSON F)) (ks : List String) : Bool :=
  ks.all (fun k => !(index fmap k).isNum)

/-- The seven discriminator strings the dispatcher recognises. -/
def knownTypes : List String :=
  ["Cloud", "ClusterManagement", "Disk", "Network", "Node", "LoadBalancer", "Shared"]

/-- An entry every decoder of a kind without extra fields accepts (`Any`,
`ClusterManagement`, `Network`, `LoadBalancer`, `SharedAsset`): valid common fields and no
string under one of the four optional numeric keys. -/
def validGeneric {F : Type} (lib : Lib F) (fmap : List (String × JSON F)) : Bool :=
  validCommon lib fmap && noStringAt fmap ["adjustment", "credit", "discount", "totalCost"]

/-- An entry `InterfaceToCloud` accepts. -/
def validCloud {F : Type} (lib : Lib F) (fmap : List (String × JSON F)) : Bool :=
  validCommon lib fmap && noStringAt fmap ["adjustment", "credit", "discount", "totalCost"]
  && noNumberAt fmap ["usageType", "usageDetail"]

/-- An entry `InterfaceToDisk` accepts. -/
def validDisk {F : Type} (lib : Lib F) (fmap : List (String × JSON F)) : Bool :=
  validCommon lib fmap && (index fmap "breakdown").isObj
  && noStringAt fmap ["adjustment", "credit", "discount", "totalCost", "byteHours"]
  && noNumberAt fmap ["storageClass"]

/-- An entry `InterfaceToNode` accepts. -/
def validNode {F : Type} (lib : Lib F) (fmap : List (String × JSON F)) : Bool :=
  validCommon lib fmap && (index fmap "cpuBreakdown").isObj
  && (index fmap "ramBreakdown").isObj
  && noStringAt fmap ["adjustment", "credit", "discount", "cpuCoreHours", "ramByteHours",
      "GPUHours", "cpuCost", "gpuCost", "gpuCount", "ramCost"]
  && noNumberAt fmap ["nodeType"]

/-- The members of an object value, none for any other value. -/
def membersOf {F : Type} : JSON F → List (String × JSON F)
  | .obj m => m
  | _ => []

/-- The part of the opening block that precedes the timestamps succeeds: `properties` an
object, `assetPricingModels` absent (or null) or an object, `labels` an object of
strings. -/
def validUpToTime {F : Type} (fmap : List (String × JSON F)) : Bool :=
  (index fmap "properties").isObj
  && ((index fmap "assetPricingModels").isNull || (index fmap "assetPricingModels").isObj)
  && isStringMap (index fmap "labels")

/-- The error the timestamp parser produces on the entry: on the `start` string, or, when
`start` parses, on the `end` string; none when both parse or one of them is no string. -/
def timestampError {F : Type} (lib : Lib F) (fmap : List (String × JSON F)) : Option Error :=
  match index fmap "start" with
  | .str s =>
    match lib.parseRFC3339 s with
    | .error err => some err
    | .ok _ =>
      match index fmap "end" with
      | .str e =>
        match lib.parseRFC3339 e with
        | .error err => some err
        | .ok _ => none
      | _ => none
  | _ => none

/-- The eleven keys `toAssetProp` reads. -/
def propertyKeys : List String :=
  ["category", "provider", "account", "project", "service", "cluster", "name",
   "providerID", "region", "pricingSource", "currency"]

/-- The wire keys that carry derived values: written by the encoders, read by no
decoder. -/
def derivedKeys : List String :=
  ["minutes", "cost", "window", "bytes", "cpuCores", "ramBytes"]

/-- The statement `if x, v := m[k].(string); v { field = x }` of `toAssetProp`. -/
def setIfString {F : Type} (v : JSON F) (assign : AssetProperties → String → AssetProperties)
    (s : AssetProperties) : AssetProperties :=
  match asString v with
  | some x => assign s x
  | none => s

/-- The keys the opening block of every decoder reads. -/
def commonKeys : List String :=
  ["properties", "assetPricingModels", "labels", "start", "end"]

/-- The keys read by the decoders of the kinds without extra fields. -/
def readKeysGeneric : List String :=
  commonKeys ++ ["adjustment", "credit", "discount", "totalCost"]

/-- The keys `InterfaceToCloud` reads. -/
def readKeysCloud : List String :=
  commonKeys ++ ["usageType", "usageDetail", "adjustment", "credit", "discount", "totalCost"]

/-- The keys `InterfaceToDisk` reads. -/
def readKeysDisk : List String :=
  commonKeys ++ ["breakdown", "storageClass", "adjustment", "credit", "discount", "totalCost",
    "byteHours"]

/-- The keys `InterfaceToNode` reads. -/
def readKeysNode : List String :=
  commonKeys ++ ["cpuBreakdown", "ramBreakdown", "adjustment", "credit", "discount",
    "nodeType", "cpuCoreHours", "ramByteHours", "GPUHours", "cpuCost", "gpuCost", "gpuCount",
    "ramCost"]

/-- A call ended by returning nil or by the panic of a type assertion. -/
def okOrPanic (st : Status) : Prop :=
  st = .ok ∨ st = .panic .interfaceConversion

/-- The fields of the receiver that the `Any` decoder assigns before the optional
scalars. -/
def Any.common {F : Type} (x : Any F) :=
  (x.properties, x.labels, x.assetPricingModels, x.start, x.end_, x.window)

/-- The fields of the receiver that the `Cloud` decoder assigns before the optional
scalars. -/
def Cloud.common {F : Type} (x : Cloud F) :=
  (x.properties, x.labels, x.assetPricingModels, x.start, x.end_, x.window)

/-- The fields of the receiver that the `ClusterManagement` decoder assigns before the optional
scalars. -/
def ClusterManagement.common {F : Type} (x : ClusterManagement F) :=
  (x.properties, x.labels, x.assetPricingModels, x.window)

/-- The fields of the receiver that the `Disk` decoder assigns before the optional
scalars. -/
def Disk.common {F : Type} (x : Disk F) :=
  (x.properties, x.labels, x.assetPricingModels, x.start, x.end_, x.window, x.Breakdown)

/-- The fields of the receiver that the `Network` decoder assigns before the optional
scalars. -/
def Network.common {F : Type} (x : Network F) :=
  (x.properties, x.labels, x.assetPricingModels, x.start, x.end_, x.window)

/-- The fields of the receiver that the `Node` decoder assigns before the optional
scalars. -/
def Node.common {F : Type} (x : Node F) :=
  (x.properties, x.labels, x.assetPricingModels, x.start, x.end_, x.window, x.CPUBreakdown, x.RAMBreakdown)

/-- The fields of the receiver that the `LoadBalancer` decoder assigns before the optional
scalars. -/
def LoadBalancer.common {F : Type} (x : LoadBalancer F) :=
  (x.properties, x.labels, x.assetPricingModels, x.start, x.end_, x.window)

/-- The fields of the receiver that the `SharedAsset` decoder assigns before the optional
scalars. -/
def SharedAsset.common {F : Type} (x : SharedAsset F) :=
  (x.properties, x.labels, x.assetPricingModels, x.window)

/-! ## Decoded records -/

/-- What `InterfaceToAny` leaves in the receiver `a` when it returns nil: the common
fields from the opening block, every optional scalar from its key when the key holds a
value of the right type and from the receiver otherwise. -/
def Any.decoded {F : Type} [Zero F] [Sub F] (a : Any F) (c : Common F)
    (fmap : List (String × JSON F)) : Any F :=
  { properties := some c.properties,
    labels := some c.labels,
    assetPricingModels := c.pricingModels,
    start := c.start,
    end_ := c.end_,
    window := { start := some c.start, end_ := some c.end_ },
    adjustment := floatOr (index fmap "adjustment") a.adjustment,
    credit := floatOr (index fmap "credit") a.credit,
    discount := floatOr (index fmap "discount") a.discount,
    Cost := costOr (index fmap "totalCost") (floatOr (index fmap "adjustment") a.adjustment)
          (floatOr (index fmap "credit") a.credit) a.Cost }

/-- What `InterfaceToCloud` leaves in the receiver `ca` when it returns nil: the common
fields from the opening block, every optional scalar from its key when the key holds a
value of the right type and from the receiver otherwise. -/
def Cloud.decoded {F : Type} [Zero F] [Sub F] (ca : Cloud F) (c : Common F)
    (fmap : List (String × JSON F)) : Cloud F :=
  { properties := some c.properties,
    labels := some c.labels,
    assetPricingModels := c.pricingModels,
    start := c.start,
    end_ := c.end_,
    window := { start := some c.start, end_ := some c.end_ },
    adjustment := floatOr (index fmap "adjustment") ca.adjustment,
    credit := floatOr (index fmap "credit") ca.credit,
    discount := floatOr (index fmap "discount") ca.discount,
    Cost := costOr (index fmap "totalCost") (floatOr (index fmap "adjustment") ca.adjustment)
          (floatOr (index fmap "credit") ca.credit) ca.Cost,
    UsageType := stringOr (index fmap "usageType") ca.UsageType,
    UsageDetail := stringOr (index fmap "usageDetail") ca.UsageDetail }

/-- What `InterfaceToClusterManagement` leaves in the receiver `cm` when it returns nil: the common
fields from the opening block, every optional scalar from its key when the key holds a
value of the right type and from the receiver otherwise. -/
def ClusterManagement.decoded {F : Type} [Zero F] [Sub F] (cm : ClusterManagement F) (c : Common F)
    (fmap : List (String × JSON F)) : ClusterManagement F :=
  { properties := some c.properties,
    labels := some c.labels,
    assetPricingModels := c.pricingModels,
    window := { start := some c.start, end_ := some c.end_ },
    adjustment := floatOr (index fmap "adjustment") cm.adjustment,
    credit := floatOr (index fmap "credit") cm.credit,
    discount := floatOr (index fmap "discount") cm.discount,
    Cost := costOr (index fmap "totalCost") (floatOr (index fmap "adjustment") cm.adjustment)
          (floatOr (index fmap "credit") cm.credit) cm.Cost }

/-- What `InterfaceToDisk` leaves in the receiver `d` when it returns nil: the common
fields from the opening block, every optional scalar from its key when the key holds a
value of the right type and from the receiver otherwise. -/
def Disk.decoded {F : Type} [Zero F] [Sub F] (d : Disk F) (c : Common F)
    (fmap : List (String × JSON F)) (fbreakdown : List (String × JSON F)) : Disk F :=
  { properties := some c.properties,
    labels := some c.labels,
    assetPricingModels := c.pricingModels,
    start := c.start,
    end_ := c.end_,
    window := { start := some c.start, end_ := some c.end_ },
    adjustment := floatOr (index fmap "adjustment") d.adjustment,
    credit := floatOr (index fmap "credit") d.credit,
    discount := floatOr (index fmap "discount") d.discount,
    Cost := costOr (index fmap "totalCost") (floatOr (index fmap "adjustment") d.adjustment)
          (floatOr (index fmap "credit") d.credit) d.Cost,
    ByteHours := floatOr (index fmap "byteHours") d.ByteHours,
    Local := d.Local,
    Breakdown := some (toBreakdown fbreakdown),
    StorageClass := stringOr (index fmap "storageClass") d.StorageClass }

/-- What `InterfaceToNetwork` leaves in the receiver `n` when it returns nil: the common
fields from the opening block, every optional scalar from its key when the key holds a
value of the right type and from the receiver otherwise. -/
def Network.decoded {F : Type} [Zero F] [Sub F] (n : Network F) (c : Common F)
    (fmap : List (String × JSON F)) : Network F :=
  { properties := some c.properties,
    labels := some c.labels,
    assetPricingModels := c.pricingModels,
    start := c.start,
    end_ := c.end_,
    window := { start := some c.start, end_ := some c.end_ },
    adjustment := floatOr (index fmap "adjustment") n.adjustment,
    credit := floatOr (index fmap "credit") n.credit,
    discount := floatOr (index fmap "discount") n.discount,
    Cost := costOr (index fmap "totalCost") (floatOr (index fmap "adjustment") n.adjustment)
          (floatOr (index fmap "credit") n.credit) n.Cost }

/-- What `InterfaceToNode` leaves in the receiver `n` when it returns nil: the common
fields from the opening block, every optional scalar from its key when the key holds a
value of the right type and from the receiver otherwise. -/
def Node.decoded {F : Type} [Zero F] (n : Node F) (c : Common F)
    (fmap : List (String × JSON F)) (fcpuBreakdown : List (String × JSON F)) (framBreakdown : List (String × JSON F)) : Node F :=
  { properties := some c.properties,
    labels := some c.labels,
    assetPricingModels := c.pricingModels,
    start := c.start,
    end_ := c.end_,
    window := { start := some c.start, end_ := some c.end_ },
    adjustment := floatOr (index fmap "adjustment") n.adjustment,
    credit := floatOr (index fmap "credit") n.credit,
    discount := floatOr (index fmap "discount") n.discount,
    NodeType := stringOr (index fmap "nodeType") n.NodeType,
    CPUCoreHours := floatOr (index fmap "cpuCoreHours") n.CPUCoreHours,
    RAMByteHours := floatOr (index fmap "ramByteHours") n.RAMByteHours,
    GPUHours := floatOr (index fmap "GPUHours") n.GPUHours,
    CPUBreakdown := some (toBreakdown fcpuBreakdown),
    RAMBreakdown := some (toBreakdown framBreakdown),
    CPUCost := floatOr (index fmap "cpuCost") n.CPUCost,
    GPUCost := floatOr (index fmap "gpuCost") n.GPUCost,
    GPUCount := floatOr (index fmap "gpuCount") n.GPUCount,
    RAMCost := floatOr (index fmap "ramCost") n.RAMCost }

/-- What `InterfaceToLoadBalancer` leaves in the receiver `lb` when it returns nil: the common
fields from the opening block, every optional scalar from its key when the key holds a
value of the right type and from the receiver otherwise. -/
def LoadBalancer.decoded {F : Type} [Zero F] [Sub F] (lb : LoadBalancer F) (c : Common F)
    (fmap : List (String × JSON F)) : LoadBalancer F :=
  { properties := some c.properties,
    labels := some c.labels,
    assetPricingModels := c.pricingModels,
    start := c.start,
    end_ := c.end_,
    window := { start := some c.start, end_ := some c.end_ },
    adjustment := floatOr (index fmap "adjustment") lb.adjustment,
    credit := floatOr (index fmap "credit") lb.credit,
    discount := floatOr (index fmap "discount") lb.discount,
    Cost := costOr (index fmap "totalCost") (floatOr (index fmap "adjustment") lb.adjustment)
          (floatOr (index fmap "credit") lb.credit) lb.Cost }

/-- What `InterfaceToSharedAsset` leaves in the receiver `sa` when it returns nil: the common
fields from the opening block, every optional scalar from its key when the key holds a
value of the right type and from the receiver otherwise. -/
def SharedAsset.decoded {F : Type} [Zero F] [Sub F] (sa : SharedAsset F) (c : Common F)
    (fmap : List (String × JSON F)) : SharedAsset F :=
  { properties := some c.properties,
    labels := some c.labels,
    assetPricingModels := c.pricingModels,
    window := { start := some c.start, end_ := some c.end_ },
    adjustment := floatOr (index fmap "adjustment") sa.adjustment,
    credit := floatOr (index fmap "credit") sa.credit,
    discount := floatOr (index fmap "discount") sa.discount,
    Cost := costOr (index fmap "totalCost") (floatOr (index fmap "adjustment") sa.adjustment)
          (floatOr (index fmap "credit") sa.credit) sa.Cost }


/-- The members of the Disk entry of the concrete scenario, in wire order, given the
`float64` values `n1`, `n2`, `n3`, `n4`, `n10` the parser produces for the literals 1, 2, 3,
4 and 10. -/
def diskScenario {F : Type} (n1 n2 n3 n4 n10 : F) : List (String × JSON F) :=
  [("type", .str "Disk"), ("properties", .obj []), ("labels", .obj []),
   ("start", .str "2023-01-01T00:00:00Z"), ("end", .str "2023-01-02T00:00:00Z"),
   ("breakdown", .obj [("idle", .num n1), ("other", .num n2), ("system", .num n3),
     ("user", .num n4)]),
   ("totalCost", .num n10), ("adjustment", .num n1), ("credit", .num n2)]

/-! ## Sample inputs -/

/-- A timestamp parser defined on two strings, standing in for `time.Parse`. -/
def sampleParse (s : String) : Except Error Time :=
  if s = "2023-01-01T00:00:00Z" then .ok 63808128000
  else if s = "2023-01-02T00:00:00Z" then .ok 63808214400
  else .error "parsing time: cannot parse"

/-- The common members of the sample entries. -/
def sampleCommon : List (String × JSON Int) :=
  [("properties", .obj []), ("labels", .obj []),
   ("start", .str "2023-01-01T00:00:00Z"), ("end", .str "2023-01-02T00:00:00Z")]

/-- The Disk entry of the concrete scenario. -/
def sampleDisk : JSON Int := .obj (diskScenario 1 2 3 4 10)

/-- The members of an entry without discriminator. -/
def sampleGenericMembers : List (String × JSON Int) :=
  sampleCommon ++ [("totalCost", .num 10), ("adjustment", .num 1), ("credit", .num 2)]

/-- An entry without discriminator. -/
def sampleGeneric : JSON Int := .obj sampleGenericMembers

/-- An entry without `labels`. -/
def sampleNoLabels : JSON Int :=
  .obj [("properties", .obj []), ("start", .str "2023-01-01T00:00:00Z"),
    ("end", .str "2023-01-02T00:00:00Z")]

/-- The members of an entry whose `adjustment` is a JSON string. -/
def sampleStringAdjustmentMembers : List (String × JSON Int) :=
  sampleCommon ++ [("adjustment", .str "1"), ("totalCost", .num 10)]

/-- An entry whose `adjustment` is a JSON string. -/
def sampleStringAdjustment : JSON Int := .obj sampleStringAdjustmentMembers

/-- A Node entry with the given `totalCost` and no `adjustment` or `credit`. -/
def sampleNode (totalCost : Int) : JSON Int :=
  .obj ([("type", .str "Node")] ++ sampleCommon ++
    [("cpuBreakdown", .obj []), ("ramBreakdown", .obj []),
     ("cpuCost", .num 1), ("gpuCost", .num 1), ("ramCost", .num 1),
     ("totalCost", .num totalCost)])

/-- A library whose JSON parser knows five fragments by name. -/
def sampleLib : Lib Int where
  unmarshal := fun raw =>
    if raw = "disk" then .ok sampleDisk
    else if raw = "generic" then .ok sampleGeneric
    else if raw = "nolabels" then .ok sampleNoLabels
    else if raw = "stringadjustment" then .ok sampleStringAdjustment
    else if raw = "node" then .ok (sampleNode 10)
    else .error "invalid character"
  unmarshalRawMap := fun b =>
    if b = "set" then .ok [("d1", some "disk"), ("g1", some "generic")]
    else if b = "badset" then .ok [("d1", some "disk"), ("x", some "nolabels")]
    else .error "invalid character"
  unmarshalRawMapList := fun b =>
    if b = "range" then
      .ok [[("d1", some "disk")], [("g1", some "generic")], [("n1", some "node")]]
    else if b = "badrange" then
      .ok [[("d1", some "disk")], [("g1", some "generic"), ("x", some "nolabels")]]
    else .error "invalid character"
  parseRFC3339 := sampleParse
  formatRFC3339 := fun t =>
    if t = 63808128000 then "2023-01-01T00:00:00Z"
    else if t = 63808214400 then "2023-01-02T00:00:00Z"
    else "0001-01-01T00:00:00Z"

/-- Accessors whose `TotalCost` is the sum of base cost, adjustment and credit (for a Node:
of its three cost components, adjustment and credit) and whose `GPUs` is the GPU hours
divided by the hours of the interval. -/
def sampleAccessors : Accessors Int where
  minutes := fun s e => (e - s) / 60
  totalCost := fun x =>
    match x with
    | .any a => a.Cost + a.adjustment + a.credit
    | .cloud ca => ca.Cost + ca.adjustment + ca.credit
    | .clusterManagement cm => cm.Cost + cm.adjustment + cm.credit
    | .disk d => d.Cost + d.adjustment + d.credit
    | .network n => n.Cost + n.adjustment + n.credit
    | .node n => n.CPUCost + n.GPUCost + n.RAMCost + n.adjustment + n.credit
    | .loadBalancer lb => lb.Cost + lb.adjustment + lb.credit
    | .sharedAsset sa => sa.Cost + sa.adjustment + sa.credit
  bytes := fun _ => 0
  cpuCores := fun _ => 0
  ramBytes := fun _ => 0
  gpus := fun n => n.GPUHours * 60 / ((n.end_ - n.start) / 60)

/-- A Disk with properties, labels and a window, base cost 7, adjustment 1, credit 2, and
the given breakdown pointer. -/
def sampleDiskAsset (breakdown : Option (Breakdown Int)) : Disk Int :=
  { properties := some {}, labels := some [("app", "db")], assetPricingModels := none,
    start := 63808128000, end_ := 63808214400,
    window := { start := some 63808128000, end_ := some 63808214400 },
    adjustment := 1, credit := 2, discount := 0, Cost := 7, ByteHours := 24, Local := false,
    Breakdown := breakdown, StorageClass := "standard" }

/-- A library whose JSON parser is a table from fragment to parsed value and whose array
splitter is a table from text to raw collections; timestamps as in `sampleParse`. -/
def tableLib (entries : List (RawMessage × JSON Int))
    (ranges : List (RawMessage × List (GoMap (Option RawMessage)))) : Lib Int where
  unmarshal := fun raw =>
    match entries.lookup raw with
    | some v => .ok v
    | none => .error "invalid character"
  unmarshalRawMap := fun _ => .error "invalid character"
  unmarshalRawMapList := fun b =>
    match ranges.lookup b with
    | some ms => .ok ms
    | none => .error "invalid character"
  parseRFC3339 := sampleParse
  formatRFC3339 := fun _ => "0001-01-01T00:00:00Z"

/-- The members of an entry whose `start` is no timestamp. -/
def sampleBadStart : List (String × JSON Int) :=
  [("properties", .obj []), ("labels", .obj [("app", .str "db")]),
   ("start", .str "yesterday"), ("end", .str "2023-01-02T00:00:00Z")]

/-- The members of an entry whose `start` is no timestamp and whose `assetPricingModels`
is a number. -/
def sampleBadStartPricing : List (String × JSON Int) :=
  [("properties", .obj []), ("labels", .obj []), ("assetPricingModels", .num 5),
   ("start", .str "yesterday"), ("end", .str "2023-01-02T00:00:00Z")]

/-- A library that parses the fragment `badstart` to the entry `sampleBadStart`, `generic`
to the sample entry without discriminator, and splits `range` into two buckets. -/
def badStartLib : Lib Int :=
  tableLib [("badstart", .obj sampleBadStart), ("generic", sampleGeneric)]
    [("range", [[("g1", some "generic")], [("g2", some "generic"), ("b", some "badstart")]])]

/-- The members of an entry whose `assetPricingModels` is JSON `null`. -/
def sampleNullPricing : List (String × JSON Int) :=
  sampleCommon ++ [("assetPricingModels", .null), ("totalCost", .num 10)]

/-- The members of an entry whose `assetPricingModels` is an object with one number. -/
def samplePricing : List (String × JSON Int) :=
  sampleCommon ++ [("assetPricingModels", .obj [("preemptible", .num 1)]),
    ("totalCost", .num 10)]

/-- The members of an entry whose `assetPricingModels` is a string. -/
def sampleStringPricing : List (String × JSON Int) :=
  sampleCommon ++ [("assetPricingModels", .str "spot")]

/-- The members of a Cloud entry whose `usageType` is a number. -/
def sampleNumericUsage : List (String × JSON Int) :=
  [("type", .str "Cloud")] ++ sampleCommon ++ [("usageType", .num 5)]

/-- The members of the sample entry without discriminator, with derived keys added. -/
def sampleGenericDerived : List (String × JSON Int) :=
  [("minutes", .num 1440), ("cost", .num 99)] ++ sampleGenericMembers
    ++ [("window", .str "any")]

/-- The members of a breakdown object with a number under `idle`, a string under `other`,
`null` under `system` and no `user` member. -/
def sampleMixedBreakdown : List (String × JSON Int) :=
  [("idle", .num 1), ("other", .str "2"), ("system", .null)]

/-- The members of a pricing-model object with a number under `preemptible`, a boolean
under `reservedInstance` and no `savingsPlan` member. -/
def sampleMixedPricing : List (String × JSON Int) :=
  [("preemptible", .num 1), ("reservedInstance", .bool true)]

/-- The members of an entry with an adjustment and a credit and no `totalCost`. -/
def sampleNoTotalCost : List (String × JSON Int) :=
  sampleCommon ++ [("adjustment", .num 1), ("credit", .num 2)]

/-- A record that has been decoded into before: what `InterfaceToAny` leaves in a fresh
record on the sample entry without discriminator. -/
def sampleStaleAny : Any Int :=
  (Any.InterfaceToAny sampleLib (Any.zero Int) sampleGeneric).state

/-- The members of a Node entry without `totalCost`: cost components 1, 2 and 3. -/
def sampleNodeMembers : List (String × JSON Int) :=
  [("type", .str "Node")] ++ sampleCommon ++
    [("cpuBreakdown", .obj []), ("ramBreakdown", .obj []),
     ("cpuCost", .num 1), ("gpuCost", .num 2), ("ramCost", .num 3)]

/-- The members of the same Node entry with a `totalCost` member added. -/
def sampleNodeWithTotal : List (String × JSON Int) :=
  sampleNodeMembers ++ [("totalCost", .num 10)]

/-- The members of an entry with two labels. -/
def sampleLabelled : List (String × JSON Int) :=
  [("properties", .obj []), ("labels", .obj [("app", .str "db"), ("tier", .str "data")]),
   ("start", .str "2023-01-01T00:00:00Z"), ("end", .str "2023-01-02T00:00:00Z")]

/-- The members of an entry one of whose labels is a number. -/
def sampleNumericLabel : List (String × JSON Int) :=
  [("properties", .obj []), ("labels", .obj [("app", .str "db"), ("replicas", .num 3)]),
   ("start", .str "2023-01-01T00:00:00Z"), ("end", .str "2023-01-02T00:00:00Z")]

/-- A raw collection with a Disk entry and an entry without discriminator. -/
def sampleSet : GoMap (Option RawMessage) :=
  [("d1", some "disk"), ("g1", some "generic")]

/-- A Node with properties, labels and a window. -/
def sampleNodeAsset : Node Int :=
  { properties := some {}, labels := some [("app", "db")], assetPricingModels := none,
    start := 63808128000, end_ := 63808214400,
    window := { start := some 63808128000, end_ := some 63808214400 },
    adjustment := 1, credit := 2, discount := 0, NodeType := "standard",
    CPUCoreHours := 48, RAMByteHours := 96, GPUHours := 0,
    CPUBreakdown := some ⟨1, 2, 3, 4⟩, RAMBreakdown := some ⟨1, 2, 3, 4⟩,
    CPUCost := 1, GPUCost := 2, GPUCount := 0, RAMCost := 3 }

/-- A Cloud asset with properties, labels and a window. -/
def sampleCloudAsset : Cloud Int :=
  { properties := some {}, labels := some [("app", "db")], assetPricingModels := none,
    start := 63808128000, end_ := 63808214400,
    window := { start := some 63808128000, end_ := some 63808214400 },
    adjustment := 1, credit := 2, discount := 0, Cost := 7,
    UsageType := "compute", UsageDetail := "on demand" }

/-- A ClusterManagement asset whose window has both instants. -/
def sampleClusterManagementAsset : ClusterManagement Int :=
  { properties := some {}, labels := some [], assetPricingModels := none,
    window := { start := some 63808128000, end_ := some 63808214400 },
    adjustment := 1, credit := 2, discount := 0, Cost := 7 }

/-- The Disk record the concrete scenario decodes to: cost 7, breakdown 1, 2, 3, 4. -/
def sampleDiskDecoded : Disk Int :=
  { properties := some {}, labels := some [], assetPricingModels := none,
    start := 63808128000, end_ := 63808214400,
    window := { start := some 63808128000, end_ := some 63808214400 },
    adjustment := 1, credit := 2, discount := 0, Cost := 7, ByteHours := 0, Local := false,
    Breakdown := some ⟨1, 2, 3, 4⟩, StorageClass := "" }

/-- The record the sample entry without discriminator decodes to: cost 7. -/
def sampleGenericDecoded : Any Int :=
  { properties := some {}, labels := some [], assetPricingModels := none,
    start := 63808128000, end_ := 63808214400,
    window := { start := some 63808128000, end_ := some 63808214400 },
    adjustment := 1, credit := 2, discount := 0, Cost := 7 }

/-- The double quote character, as text. -/
def dquote : String := String.singleton (Char.ofNat 34)

mutual
/-- A JSON printer for the samples: numbers with six decimals, strings without escaping. -/
def printJSON : JSON Int → String
  | .null => "null"
  | .bool b => toString b
  | .num x => toString x ++ ".000000"
  | .str s => dquote ++ s ++ dquote
  | .arr xs => "[" ++ printItems xs ++ "]"
  | .obj ms => "\x7b" ++ printMembers ms ++ "\x7d"
/-- The items of an array, separated by commas. -/
def printItems : List (JSON Int) → String
  | [] => ""
  | [x] => printJSON x
  | x :: rest => printJSON x ++ "," ++ printItems rest
/-- The members of an object, separated by commas. -/
def printMembers : List (String × JSON Int) → String
  | [] => ""
  | [(k, v)] => dquote ++ k ++ dquote ++ ":" ++ printJSON v
  | (k, v) :: rest => dquote ++ k ++ dquote ++ ":" ++ printJSON v ++ "," ++ printMembers rest
end

/-- Rendering helpers for the samples: `"name":value` followed by the separator, with
numbers printed with six decimals and strings written between quotes as they are. -/
def sampleHelpers : Helpers Int where
  jsonEncode := fun name obj comma => dquote ++ name ++ dquote ++ ":" ++ printJSON obj ++ comma
  jsonEncodeString := fun name obj comma =>
    dquote ++ name ++ dquote ++ ":" ++ dquote ++ obj ++ dquote ++ comma
  jsonEncodeFloat64 := fun name obj comma =>
    dquote ++ name ++ dquote ++ ":" ++ toString obj ++ ".000000" ++ comma

/-- The helper calls an encoder made, none when it did not return. -/
def callsOf {F : Type} (encoded : Except Fail (List (String × HelperCall F))) :
    List (String × HelperCall F) :=
  match encoded with
  | .ok calls => calls
  | .error _ => []

/-- A Node with 48 GPU hours over one day, and a stored GPU count of 5. -/
def sampleGpuNode : Node Int :=
  { properties := some {}, labels := some [("app", "db")], assetPricingModels := none,
    start := 63808128000, end_ := 63808214400,
    window := { start := some 63808128000, end_ := some 63808214400 },
    adjustment := 1, credit := 2, discount := 0, NodeType := "standard",
    CPUCoreHours := 48, RAMByteHours := 96, GPUHours := 48,
    CPUBreakdown := some ⟨1, 2, 3, 4⟩, RAMBreakdown := some ⟨1, 2, 3, 4⟩,
    CPUCost := 1, GPUCost := 2, GPUCount := 5, RAMCost := 3 }

/-- The JSON text of the sample Disk, with the given text for the value of `breakdown`. -/
def sampleDiskText (breakdown : String) : RawMessage :=
  "\x7b\"type\":\"Disk\",\"properties\":\x7b\"category\":\"\",\"provider\":\"\"" ++
  ",\"account\":\"\",\"project\":\"\",\"service\":\"\",\"cluster\":\"\",\"na" ++
  "me\":\"\",\"providerID\":\"\",\"region\":\"\",\"pricingSource\":\"\",\"c" ++
  "urrency\":\"\"\x7d,\"labels\":\x7b\"app\":\"db\"\x7d,\"assetPricingModels\":" ++
  "null,\"window\":\x7b\"start\":\"2023-01-01T00:00:00Z\",\"end\":\"202" ++
  "3-01-02T00:00:00Z\"\x7d,\"start\":\"2023-01-01T00:00:00Z\",\"end\"" ++
  ":\"2023-01-02T00:00:00Z\",\"minutes\":1440.000000,\"byteHours" ++
  "\":24.000000,\"bytes\":0.000000,\"breakdown\":" ++
  breakdown ++
  ",\"storageClass\":\"standard\",\"adjustment\":1.000000,\"credit" ++
  "\":2.000000,\"discount\":0.000000,\"totalCost\":10.000000\x7d"

/-- The JSON text of a breakdown with the numbers 1, 2, 3 and 4. -/
def sampleBreakdownText : String :=
  "\x7b\"idle\":1.000000,\"other\":2.000000,\"system\":3.000000,\"use" ++
  "r\":4.000000\x7d"

/-- The JSON text of the sample Node with 48 GPU hours. -/
def sampleGpuNodeText : RawMessage :=
  "\x7b\"type\":\"Node\",\"properties\":\x7b\"category\":\"\",\"provider\":\"\"" ++
  ",\"account\":\"\",\"project\":\"\",\"service\":\"\",\"cluster\":\"\",\"na" ++
  "me\":\"\",\"providerID\":\"\",\"region\":\"\",\"pricingSource\":\"\",\"c" ++
  "urrency\":\"\"\x7d,\"assetPricingModels\":null,\"labels\":\x7b\"app\":\"" ++
  "db\"\x7d,\"window\":\x7b\"start\":\"2023-01-01T00:00:00Z\",\"end\":\"202" ++
  "3-01-02T00:00:00Z\"\x7d,\"start\":\"2023-01-01T00:00:00Z\",\"end\"" ++
  ":\"2023-01-02T00:00:00Z\",\"minutes\":1440.000000,\"nodeType\"" ++
  ":\"standard\",\"cpuCores\":0.000000,\"ramBytes\":0.000000,\"cpu" ++
  "CoreHours\":48.000000,\"ramByteHours\":96.000000,\"GPUHours\"" ++
  ":48.000000,\"cpuBreakdown\":\x7b\"idle\":1.000000,\"other\":2.000" ++
  "000,\"system\":3.000000,\"user\":4.000000\x7d,\"ramBreakdown\":\x7b\"" ++
  "idle\":1.000000,\"other\":2.000000,\"system\":3.000000,\"user\"" ++
  ":4.000000\x7d,\"cpuCost\":1.000000,\"gpuCost\":2.000000,\"gpuCou" ++
  "nt\":2.000000,\"ramCost\":3.000000,\"adjustment\":1.000000,\"c" ++
  "redit\":2.000000,\"discount\":0.000000,\"totalCost\":9.000000" ++
  "\x7d"

/-- The object the text of an empty `AssetProperties` parses to. -/
def sampleParsedProperties : JSON Int :=
  .obj [("category", .str ""), ("provider", .str ""), ("account", .str ""),
    ("project", .str ""), ("service", .str ""), ("cluster", .str ""), ("name", .str ""),
    ("providerID", .str ""), ("region", .str ""), ("pricingSource", .str ""),
    ("currency", .str "")]

/-- The members the common part of the sample texts parses to. -/
def sampleParsedWindow : List (String × JSON Int) :=
  [("window", .obj [("start", .str "2023-01-01T00:00:00Z"),
      ("end", .str "2023-01-02T00:00:00Z")]),
   ("start", .str "2023-01-01T00:00:00Z"), ("end", .str "2023-01-02T00:00:00Z"),
   ("minutes", .num 1440)]

/-- The members the text of the sample Disk parses to, given the value of `breakdown`. -/
def sampleParsedDisk (breakdown : JSON Int) : List (String × JSON Int) :=
  [("type", .str "Disk"), ("properties", sampleParsedProperties),
   ("labels", .obj [("app", .str "db")]), ("assetPricingModels", .null)]
  ++ sampleParsedWindow ++
  [("byteHours", .num 24), ("bytes", .num 0), ("breakdown", breakdown),
   ("storageClass", .str "standard"), ("adjustment", .num 1), ("credit", .num 2),
   ("discount", .num 0), ("totalCost", .num 10)]

/-- The object the text of the sample breakdown parses to. -/
def sampleParsedBreakdown : JSON Int :=
  .obj [("idle", .num 1), ("other", .num 2), ("system", .num 3), ("user", .num 4)]

/-- The members the text of the sample Node parses to. -/
def sampleParsedGpuNode : List (String × JSON Int) :=
  [("type", .str "Node"), ("properties", sampleParsedProperties),
   ("assetPricingModels", .null), ("labels", .obj [("app", .str "db")])]
  ++ sampleParsedWindow ++
  [("nodeType", .str "standard"), ("cpuCores", .num 0), ("ramBytes", .num 0),
   ("cpuCoreHours", .num 48), ("ramByteHours", .num 96), ("GPUHours", .num 48),
   ("cpuBreakdown", sampleParsedBreakdown), ("ramBreakdown", sampleParsedBreakdown),
   ("cpuCost", .num 1), ("gpuCost", .num 2), ("gpuCount", .num 2), ("ramCost", .num 3),
   ("adjustment", .num 1), ("credit", .num 2), ("discount", .num 0), ("totalCost", .num 9)]

/-- The sample library with a JSON parser that knows three texts: the sample Disk with
its breakdown, the sample Disk with `null` for the breakdown, and the sample Node. -/
def wireLib : Lib Int :=
  { sampleLib with
    unmarshal := fun raw =>
      if raw = sampleDiskText sampleBreakdownText then
        .ok (.obj (sampleParsedDisk sampleParsedBreakdown))
      else if raw = sampleDiskText "null" then .ok (.obj (sampleParsedDisk .null))
      else if raw = sampleGpuNodeText then .ok (.obj sampleParsedGpuNode)
      else .error "invalid character" }

/-! ## Properties -/

section Lemmas

variable {F : Type}

theorem isObj_elim {v : JSON F} (h : v.isObj = true) : ∃ m, v = .obj m := by
  cases v <;> simp [JSON.isObj] at h
  exact ⟨_, rfl⟩

theorem isStr_elim {v : JSON F} (h : v.isStr = true) : ∃ s, v = .str s := by
  cases v <;> simp [JSON.isStr] at h
  exact ⟨_, rfl⟩

theorem assertMap_of_not_obj {v : JSON F} (h : v.isObj = false) :
    assertMap v = .error (.panic .interfaceConversion) := by
  cases v <;> simp [JSON.isObj] at h <;> rfl

theorem assertString_of_not_str {v : JSON F} (h : v.isStr = false) :
    assertString v = .error (.panic .interfaceConversion) := by
  cases v <;> simp [JSON.isStr] at h <;> rfl

theorem toStatus_ne_ok (f : Fail) : f.toStatus ≠ .ok := by
  cases f <;> simp [Fail.toStatus]

theorem andThen_of_ok {σ : Type} (s : σ) (f : σ → Result σ) :
    Result.andThen ⟨s, .ok⟩ f = f s := rfl

theorem andThen_of_panic {σ : Type} (r : Result σ) (f : σ → Result σ) (p : Panic)
    (h : r.status = .panic p) : r.andThen f = r := by
  simp [Result.andThen, h]

theorem setFloat64_of_str {σ : Type} (x : String) (assign : σ → F → σ) (s : σ) :
    setFloat64 (.str x) assign s = ⟨s, .panic .interfaceConversion⟩ := rfl

theorem setFloat64_of_num {σ : Type} (x : F) (assign : σ → F → σ) (s : σ) :
    setFloat64 (.num x) assign s = ⟨assign s x, .ok⟩ := rfl

theorem setFloat64_ok_eq {σ : Type} (v : JSON F) (assign : σ → F → σ) (s s' : σ)
    (h : v.isStr = false) (hs : updFloat v assign s = s') :
    setFloat64 v assign s = ⟨s', .ok⟩ := by
  subst hs
  cases v <;> simp [JSON.isStr] at h <;> rfl

theorem setFloat64_put {σ : Type} (v : JSON F) (put : σ → F → σ) (get : σ → F) (s : σ)
    (h : v.isStr = false) (hid : put s (get s) = s) :
    setFloat64 v put s = ⟨put s (floatOr v (get s)), .ok⟩ := by
  cases v <;> simp [JSON.isStr] at h <;> simp [setFloat64, getTypedVal, floatOr, hid]

theorem setString_put {σ : Type} (v : JSON F) (put : σ → String → σ) (get : σ → String) (s : σ)
    (h : v.isNum = false) (hid : put s (get s) = s) :
    setString v put s = ⟨put s (stringOr v (get s)), .ok⟩ := by
  cases v <;> simp [JSON.isNum] at h <;> simp [setString, getTypedVal, stringOr, hid]

theorem setFloat64_status {σ : Type} (v : JSON F) (assign : σ → F → σ) (s : σ) :
    (setFloat64 v assign s).status = .ok
      ∨ (setFloat64 v assign s).status = .panic .interfaceConversion := by
  cases v <;> simp [setFloat64, getTypedVal]

theorem setString_status {σ : Type} (v : JSON F) (assign : σ → String → σ) (s : σ) :
    (setString v assign s).status = .ok
      ∨ (setString v assign s).status = .panic .interfaceConversion := by
  cases v <;> simp [setString, getTypedVal]

theorem labelsLoop_ok (l : List (String × JSON F)) (acc : GoMap String)
    (h : l.all (fun kv => kv.2.isStr) = true) : ∃ ls, labelsLoop l acc = .ok ls := by
  induction l generalizing acc with
  | nil => exact ⟨acc, rfl⟩
  | cons kv rest ih =>
    obtain ⟨k, v⟩ := kv
    simp only [List.all_cons, Bool.and_eq_true] at h
    obtain ⟨s, hs⟩ := isStr_elim h.1
    subst hs
    simpa [labelsLoop, assertString] using ih (GoMap.set acc k s) h.2

theorem isStringMap_elim {v : JSON F} (h : isStringMap v = true) :
    ∃ l, v = .obj l ∧ l.all (fun kv => kv.2.isStr) = true := by
  cases v <;> simp only [isStringMap, Bool.false_eq_true] at h
  exact ⟨_, rfl, h⟩

theorem isTimestamp_elim {lib : Lib F} {v : JSON F} (h : isTimestamp lib v = true) :
    ∃ s t, v = .str s ∧ lib.parseRFC3339 s = .ok t := by
  cases v <;> simp only [isTimestamp, Bool.false_eq_true] at h
  rename_i s
  cases hp : lib.parseRFC3339 s <;> simp only [hp, isOk, Bool.false_eq_true] at h
  exact ⟨s, _, rfl, hp⟩

theorem assertMap_ok {v : JSON F} {m : List (String × JSON F)} (h : assertMap v = .ok m) :
    v = .obj m := by
  cases v <;> simp [assertMap] at h
  rw [h]

theorem assertString_ok {v : JSON F} {s : String} (h : assertString v = .ok s) :
    v = .str s := by
  cases v <;> simp [assertString] at h
  rw [h]

theorem parseTime_ok {lib : Lib F} {v : JSON F} {t : Time} (h : parseTime lib v = .ok t) :
    ∃ s, v = .str s ∧ lib.parseRFC3339 s = .ok t := by
  unfold parseTime at h
  cases h1 : assertString v <;> simp [h1] at h
  rename_i s
  cases h2 : lib.parseRFC3339 s <;> simp [h2] at h
  exact ⟨s, assertString_ok h1, h ▸ h2⟩

theorem parseLabels_ok {fmap : List (String × JSON F)} {ls : GoMap String}
    (h : parseLabels fmap = .ok ls) :
    ∃ l, index fmap "labels" = .obj l ∧ labelsLoop l [] = .ok ls := by
  unfold parseLabels at h
  cases h1 : assertMap (index fmap "labels") <;> simp [h1] at h
  exact ⟨_, assertMap_ok h1, h⟩

theorem parseCommon_shape [Zero F] (lib : Lib F) (fmap : List (String × JSON F)) (c : Common F)
    (h : parseCommon lib fmap = .ok c) :
    (index fmap "properties").isObj = true ∧ (index fmap "labels").isObj = true
      ∧ (index fmap "start").isStr = true ∧ (index fmap "end").isStr = true := by
  unfold parseCommon at h
  cases h1 : assertMap (index fmap "properties") <;> simp [h1] at h
  cases h2 : parsePricingModels fmap <;> simp [h2] at h
  cases h3 : parseLabels fmap <;> simp [h3] at h
  cases h4 : parseTime lib (index fmap "start") <;> simp [h4] at h
  cases h5 : parseTime lib (index fmap "end") <;> simp [h5] at h
  obtain ⟨l, hl, -⟩ := parseLabels_ok h3
  obtain ⟨s, hs, -⟩ := parseTime_ok h4
  obtain ⟨e, he, -⟩ := parseTime_ok h5
  rw [assertMap_ok h1, hl, hs, he]
  simp [JSON.isObj, JSON.isStr]

theorem parseCommon_eq_ok [Zero F] (lib : Lib F) (fmap p l : List (String × JSON F))
    (ls : GoMap String) (s e : String) (t0 t1 : Time)
    (hp : index fmap "properties" = .obj p)
    (hm : ((index fmap "assetPricingModels").isNull
      || (index fmap "assetPricingModels").isObj) = true)
    (hl : index fmap "labels" = .obj l) (hll : labelsLoop l [] = .ok ls)
    (hs : index fmap "start" = .str s) (hst : lib.parseRFC3339 s = .ok t0)
    (he : index fmap "end" = .str e) (het : lib.parseRFC3339 e = .ok t1) :
    parseCommon lib fmap
      = .ok ⟨toAssetProp p, pricingOf (index fmap "assetPricingModels"), ls, t0, t1⟩ := by
  have hpm : parsePricingModels fmap = .ok (pricingOf (index fmap "assetPricingModels")) := by
    unfold parsePricingModels
    cases hv : index fmap "assetPricingModels" <;>
      simp [hv, JSON.isNull, JSON.isObj] at hm <;> simp [assertMap, pricingOf]
  simp [parseCommon, hpm, parseLabels, parseTime, hp, hl, hll, hs, hst, he, het, assertMap,
    assertString]

theorem parseCommon_of_valid [Zero F] (lib : Lib F) (fmap : List (String × JSON F))
    (h : validCommon lib fmap = true) : ∃ c, parseCommon lib fmap = .ok c := by
  simp only [validCommon, Bool.and_eq_true] at h
  obtain ⟨⟨⟨⟨hp, hm⟩, hl⟩, hs⟩, he⟩ := h
  obtain ⟨p, hp⟩ := isObj_elim hp
  obtain ⟨l, hl, hall⟩ := isStringMap_elim hl
  obtain ⟨ls, hll⟩ := labelsLoop_ok l [] hall
  obtain ⟨s, t0, hs, hst⟩ := isTimestamp_elim hs
  obtain ⟨e, t1, he, het⟩ := isTimestamp_elim he
  exact ⟨_, parseCommon_eq_ok lib fmap p l ls s e _ _ hp hm hl hll hs hst he het⟩

theorem parseCommon_error_of_missing [Zero F] (lib : Lib F) (fmap : List (String × JSON F))
    (h : (index fmap "properties").isObj = false ∨ (index fmap "labels").isObj = false
      ∨ (index fmap "start").isStr = false ∨ (index fmap "end").isStr = false) :
    ∃ f, parseCommon lib fmap = .error f := by
  cases hc : parseCommon lib fmap with
  | error f => exact ⟨f, rfl⟩
  | ok c =>
    obtain ⟨h1, h2, h3, h4⟩ := parseCommon_shape lib fmap c hc
    rw [h1, h2, h3, h4] at h
    simp at h

theorem boxed_ok_iff {σ : Type} (r : Result σ) (box : σ → Asset F) (a : Asset F) :
    boxed r box = .ok a ↔ r.status = .ok ∧ a = box r.state := by
  unfold boxed
  cases h : r.status <;> simp [eq_comm]

theorem decodeLoop_error [Zero F] [Sub F] (lib : Lib F) (assetMap : GoMap (Option RawMessage))
    (acc : GoMap (Asset F))
    (h : ∃ e ∈ assetMap, isOk (decodeEntry lib e.2) = false) :
    ∃ f, decodeLoop lib assetMap acc = .error f := by
  induction assetMap generalizing acc with
  | nil => simp at h
  | cons kv rest ih =>
    obtain ⟨key, rawMessage⟩ := kv
    unfold decodeLoop
    cases hd : decodeEntry lib rawMessage with
    | error f => exact ⟨f, rfl⟩
    | ok asset =>
      obtain ⟨e, he, hf⟩ := h
      rcases List.mem_cons.mp he with rfl | he
      · simp [hd, isOk] at hf
      · exact ih _ ⟨e, he, hf⟩

theorem rangeLoop_ok [Zero F] [Sub F] (lib : Lib F) (ms : List (GoMap (Option RawMessage)))
    (acc : List (AssetSetResponse F))
    (h : ∀ m ∈ ms, (AssetSetResponse.RawMessageToAssetSetResponse lib
      (AssetSetResponse.zero F) m).status = .ok) :
    rangeLoop lib ms acc = .ok (acc ++ ms.map (fun m =>
      (AssetSetResponse.RawMessageToAssetSetResponse lib (AssetSetResponse.zero F) m).state)) := by
  induction ms generalizing acc with
  | nil => simp [rangeLoop]
  | cons m rest ih =>
    have hm := h m (List.mem_cons_self _ _)
    have hr := ih (acc ++ [(AssetSetResponse.RawMessageToAssetSetResponse lib
      (AssetSetResponse.zero F) m).state]) (fun m' hm' => h m' (List.mem_cons_of_mem _ hm'))
    simp only [rangeLoop, hm, hr]
    simp

theorem rangeLoop_error [Zero F] [Sub F] (lib : Lib F) (ms : List (GoMap (Option RawMessage)))
    (acc : List (AssetSetResponse F))
    (h : ∃ m ∈ ms, (AssetSetResponse.RawMessageToAssetSetResponse lib
      (AssetSetResponse.zero F) m).status ≠ .ok) :
    ∃ f, rangeLoop lib ms acc = .error f := by
  induction ms generalizing acc with
  | nil => simp at h
  | cons m rest ih =>
    cases hs : (AssetSetResponse.RawMessageToAssetSetResponse lib
      (AssetSetResponse.zero F) m).status with
    | error e => exact ⟨.error e, by simp only [rangeLoop, hs]⟩
    | panic p => exact ⟨.panic p, by simp only [rangeLoop, hs]⟩
    | ok =>
      obtain ⟨m', hm', hf⟩ := h
      rcases List.mem_cons.mp hm' with rfl | hm'
      · exact absurd hs hf
      · obtain ⟨f, hf'⟩ := ih (acc ++ [(AssetSetResponse.RawMessageToAssetSetResponse lib
          (AssetSetResponse.zero F) m).state]) ⟨m', hm', hf⟩
        exact ⟨f, by simp only [rangeLoop, hs, hf']⟩

theorem Any.InterfaceToAny_ok [Zero F] [Sub F] (lib : Lib F) (a : Any F)
    (fmap : List (String × JSON F)) (c : Common F)
    (hc : parseCommon lib fmap = .ok c)
    (hf : noStringAt fmap ["adjustment", "credit", "discount", "totalCost"] = true) :
    Any.InterfaceToAny lib a (.obj fmap) = ⟨Any.decoded a c fmap, .ok⟩ := by
  simp only [noStringAt, List.all_cons, List.all_nil, Bool.and_true, Bool.and_eq_true,
    Bool.not_eq_true'] at hf
  obtain ⟨hf0, hf1, hf2, hf3⟩ := hf
  simp only [Any.InterfaceToAny, assertMap, hc]
  rw [setFloat64_put _ _ (fun x => x.adjustment) _ hf0 rfl, andThen_of_ok]
  dsimp only
  rw [setFloat64_put _ _ (fun x => x.credit) _ hf1 rfl, andThen_of_ok]
  dsimp only
  rw [setFloat64_put _ _ (fun x => x.discount) _ hf2 rfl, andThen_of_ok]
  dsimp only
  exact setFloat64_ok_eq _ _ _ _ hf3
    (by unfold Any.decoded; generalize index fmap "totalCost" = v; cases v <;> rfl)

theorem Cloud.InterfaceToCloud_ok [Zero F] [Sub F] (lib : Lib F) (ca : Cloud F)
    (fmap : List (String × JSON F)) (c : Common F)
    (hc : parseCommon lib fmap = .ok c)
    (hf : noStringAt fmap ["adjustment", "credit", "discount", "totalCost"] = true)
    (hs : noNumberAt fmap ["usageType", "usageDetail"] = true) :
    Cloud.InterfaceToCloud lib ca (.obj fmap) = ⟨Cloud.decoded ca c fmap, .ok⟩ := by
  simp only [noStringAt, List.all_cons, List.all_nil, Bool.and_true, Bool.and_eq_true,
    Bool.not_eq_true'] at hf
  simp only [noNumberAt, List.all_cons, List.all_nil, Bool.and_true, Bool.and_eq_true,
    Bool.not_eq_true'] at hs
  obtain ⟨hf0, hf1, hf2, hf3⟩ := hf
  obtain ⟨hs0, hs1⟩ := hs
  simp only [Cloud.InterfaceToCloud, assertMap, hc]
  rw [setString_put _ _ (fun x => x.UsageType) _ hs0 rfl, andThen_of_ok]
  dsimp only
  rw [setString_put _ _ (fun x => x.UsageDetail) _ hs1 rfl, andThen_of_ok]
  dsimp only
  rw [setFloat64_put _ _ (fun x => x.adjustment) _ hf0 rfl, andThen_of_ok]
  dsimp only
  rw [setFloat64_put _ _ (fun x => x.credit) _ hf1 rfl, andThen_of_ok]
  dsimp only
  rw [setFloat64_put _ _ (fun x => x.discount) _ hf2 rfl, andThen_of_ok]
  dsimp only
  exact setFloat64_ok_eq _ _ _ _ hf3
    (by unfold Cloud.decoded; generalize index fmap "totalCost" = v; cases v <;> rfl)

theorem ClusterManagement.InterfaceToClusterManagement_ok [Zero F] [Sub F] (lib : Lib F) (cm : ClusterManagement F)
    (fmap : List (String × JSON F)) (c : Common F)
    (hc : parseCommon lib fmap = .ok c)
    (hf : noStringAt fmap ["adjustment", "credit", "discount", "totalCost"] = true) :
    ClusterManagement.InterfaceToClusterManagement lib cm (.obj fmap) = ⟨ClusterManagement.decoded cm c fmap, .ok⟩ := by
  simp only [noStringAt, List.all_cons, List.all_nil, Bool.and_true, Bool.and_eq_true,
    Bool.not_eq_true'] at hf
  obtain ⟨hf0, hf1, hf2, hf3⟩ := hf
  simp only [ClusterManagement.InterfaceToClusterManagement, assertMap, hc]
  rw [setFloat64_put _ _ (fun x => x.adjustment) _ hf0 rfl, andThen_of_ok]
  dsimp only
  rw [setFloat64_put _ _ (fun x => x.credit) _ hf1 rfl, andThen_of_ok]
  dsimp only
  rw [setFloat64_put _ _ (fun x => x.discount) _ hf2 rfl, andThen_of_ok]
  dsimp only
  exact setFloat64_ok_eq _ _ _ _ hf3
    (by unfold ClusterManagement.decoded; generalize index fmap "totalCost" = v; cases v <;> rfl)

theorem Disk.InterfaceToDisk_ok [Zero F] [Sub F] (lib : Lib F) (d : Disk F)
    (fmap : List (String × JSON F)) (c : Common F) (fbreakdown : List (String × JSON F))
    (hc : parseCommon lib fmap = .ok c)
    (hbreakdown : index fmap "breakdown" = .obj fbreakdown)
    (hf : noStringAt fmap ["adjustment", "credit", "discount", "totalCost", "byteHours"] = true)
    (hs : noNumberAt fmap ["storageClass"] = true) :
    Disk.InterfaceToDisk lib d (.obj fmap) = ⟨Disk.decoded d c fmap fbreakdown, .ok⟩ := by
  simp only [noStringAt, List.all_cons, List.all_nil, Bool.and_true, Bool.and_eq_true,
    Bool.not_eq_true'] at hf
  simp only [noNumberAt, List.all_cons, List.all_nil, Bool.and_true, Bool.and_eq_true,
    Bool.not_eq_true'] at hs
  obtain ⟨hf0, hf1, hf2, hf3, hf4⟩ := hf
  have hs0 := hs
  simp only [Disk.InterfaceToDisk, assertMap, hc, hbreakdown]
  rw [setString_put _ _ (fun x => x.StorageClass) _ hs0 rfl, andThen_of_ok]
  dsimp only
  rw [setFloat64_put _ _ (fun x => x.adjustment) _ hf0 rfl, andThen_of_ok]
  dsimp only
  rw [setFloat64_put _ _ (fun x => x.credit) _ hf1 rfl, andThen_of_ok]
  dsimp only
  rw [setFloat64_put _ _ (fun x => x.discount) _ hf2 rfl, andThen_of_ok]
  dsimp only
  rw [setFloat64_ok_eq _ _ _
    ({ properties := some c.properties,
        labels := some c.labels,
        assetPricingModels := c.pricingModels,
        start := c.start,
        end_ := c.end_,
        window := { start := some c.start, end_ := some c.end_ },
        adjustment := floatOr (index fmap "adjustment") d.adjustment,
        credit := floatOr (index fmap "credit") d.credit,
        discount := floatOr (index fmap "discount") d.discount,
        Cost := costOr (index fmap "totalCost") (floatOr (index fmap "adjustment") d.adjustment)
          (floatOr (index fmap "credit") d.credit) d.Cost,
        ByteHours := d.ByteHours,
        Local := d.Local,
        Breakdown := some (toBreakdown fbreakdown),
        StorageClass := stringOr (index fmap "storageClass") d.StorageClass })
    hf3 (by generalize index fmap "totalCost" = v; cases v <;> rfl), andThen_of_ok]
  rw [setFloat64_put _ _ (fun x => x.ByteHours) _ hf4 rfl]
  rfl

theorem Network.InterfaceToNetwork_ok [Zero F] [Sub F] (lib : Lib F) (n : Network F)
    (fmap : List (String × JSON F)) (c : Common F)
    (hc : parseCommon lib fmap = .ok c)
    (hf : noStringAt fmap ["adjustment", "credit", "discount", "totalCost"] = true) :
    Network.InterfaceToNetwork lib n (.obj fmap) = ⟨Network.decoded n c fmap, .ok⟩ := by
  simp only [noStringAt, List.all_cons, List.all_nil, Bool.and_true, Bool.and_eq_true,
    Bool.not_eq_true'] at hf
  obtain ⟨hf0, hf1, hf2, hf3⟩ := hf
  simp only [Network.InterfaceToNetwork, assertMap, hc]
  rw [setFloat64_put _ _ (fun x => x.adjustment) _ hf0 rfl, andThen_of_ok]
  dsimp only
  rw [setFloat64_put _ _ (fun x => x.credit) _ hf1 rfl, andThen_of_ok]
  dsimp only
  rw [setFloat64_put _ _ (fun x => x.discount) _ hf2 rfl, andThen_of_ok]
  dsimp only
  exact setFloat64_ok_eq _ _ _ _ hf3
    (by unfold Network.decoded; generalize index fmap "totalCost" = v; cases v <;> rfl)

theorem Node.InterfaceToNode_ok [Zero F] (lib : Lib F) (n : Node F)
    (fmap : List (String × JSON F)) (c : Common F) (fcpuBreakdown : List (String × JSON F)) (framBreakdown : List (String × JSON F))
    (hc : parseCommon lib fmap = .ok c)
    (hcpuBreakdown : index fmap "cpuBreakdown" = .obj fcpuBreakdown)
    (hramBreakdown : index fmap "ramBreakdown" = .obj framBreakdown)
    (hf : noStringAt fmap ["adjustment", "credit", "discount", "cpuCoreHours", "ramByteHours", "GPUHours", "cpuCost", "gpuCost", "gpuCount", "ramCost"] = true)
    (hs : noNumberAt fmap ["nodeType"] = true) :
    Node.InterfaceToNode lib n (.obj fmap) = ⟨Node.decoded n c fmap fcpuBreakdown framBreakdown, .ok⟩ := by
  simp only [noStringAt, List.all_cons, List.all_nil, Bool.and_true, Bool.and_eq_true,
    Bool.not_eq_true'] at hf
  simp only [noNumberAt, List.all_cons, List.all_nil, Bool.and_true, Bool.and_eq_true,
    Bool.not_eq_true'] at hs
  obtain ⟨hf0, hf1, hf2, hf3, hf4, hf5, hf6, hf7, hf8, hf9⟩ := hf
  have hs0 := hs
  simp only [Node.InterfaceToNode, assertMap, hc, hcpuBreakdown, hramBreakdown]
  rw [setFloat64_put _ _ (fun x => x.adjustment) _ hf0 rfl, andThen_of_ok]
  dsimp only
  rw [setFloat64_put _ _ (fun x => x.credit) _ hf1 rfl, andThen_of_ok]
  dsimp only
  rw [setFloat64_put _ _ (fun x => x.discount) _ hf2 rfl, andThen_of_ok]
  dsimp only
  rw [setString_put _ _ (fun x => x.NodeType) _ hs0 rfl, andThen_of_ok]
  dsimp only
  rw [setFloat64_put _ _ (fun x => x.CPUCoreHours) _ hf3 rfl, andThen_of_ok]
  dsimp only
  rw [setFloat64_put _ _ (fun x => x.RAMByteHours) _ hf4 rfl, andThen_of_ok]
  dsimp only
  rw [setFloat64_put _ _ (fun x => x.GPUHours) _ hf5 rfl, andThen_of_ok]
  dsimp only
  rw [setFloat64_put _ _ (fun x => x.CPUCost) _ hf6 rfl, andThen_of_ok]
  dsimp only
  rw [setFloat64_put _ _ (fun x => x.GPUCost) _ hf7 rfl, andThen_of_ok]
  dsimp only
  rw [setFloat64_put _ _ (fun x => x.GPUCount) _ hf8 rfl, andThen_of_ok]
  dsimp only
  rw [setFloat64_put _ _ (fun x => x.RAMCost) _ hf9 rfl]
  rfl

theorem LoadBalancer.InterfaceToLoadBalancer_ok [Zero F] [Sub F] (lib : Lib F) (lb : LoadBalancer F)
    (fmap : List (String × JSON F)) (c : Common F)
    (hc : parseCommon lib fmap = .ok c)
    (hf : noStringAt fmap ["adjustment", "credit", "discount", "totalCost"] = true) :
    LoadBalancer.InterfaceToLoadBalancer lib lb (.obj fmap) = ⟨LoadBalancer.decoded lb c fmap, .ok⟩ := by
  simp only [noStringAt, List.all_cons, List.all_nil, Bool.and_true, Bool.and_eq_true,
    Bool.not_eq_true'] at hf
  obtain ⟨hf0, hf1, hf2, hf3⟩ := hf
  simp only [LoadBalancer.InterfaceToLoadBalancer, assertMap, hc]
  rw [setFloat64_put _ _ (fun x => x.adjustment) _ hf0 rfl, andThen_of_ok]
  dsimp only
  rw [setFloat64_put _ _ (fun x => x.credit) _ hf1 rfl, andThen_of_ok]
  dsimp only
  rw [setFloat64_put _ _ (fun x => x.discount) _ hf2 rfl, andThen_of_ok]
  dsimp only
  exact setFloat64_ok_eq _ _ _ _ hf3
    (by unfold LoadBalancer.decoded; generalize index fmap "totalCost" = v; cases v <;> rfl)

theorem SharedAsset.InterfaceToSharedAsset_ok [Zero F] [Sub F] (lib : Lib F) (sa : SharedAsset F)
    (fmap : List (String × JSON F)) (c : Common F)
    (hc : parseCommon lib fmap = .ok c)
    (hf : noStringAt fmap ["adjustment", "credit", "discount", "totalCost"] = true) :
    SharedAsset.InterfaceToSharedAsset lib sa (.obj fmap) = ⟨SharedAsset.decoded sa c fmap, .ok⟩ := by
  simp only [noStringAt, List.all_cons, List.all_nil, Bool.and_true, Bool.and_eq_true,
    Bool.not_eq_true'] at hf
  obtain ⟨hf0, hf1, hf2, hf3⟩ := hf
  simp only [SharedAsset.InterfaceToSharedAsset, assertMap, hc]
  rw [setFloat64_put _ _ (fun x => x.adjustment) _ hf0 rfl, andThen_of_ok]
  dsimp only
  rw [setFloat64_put _ _ (fun x => x.credit) _ hf1 rfl, andThen_of_ok]
  dsimp only
  rw [setFloat64_put _ _ (fun x => x.discount) _ hf2 rfl, andThen_of_ok]
  dsimp only
  exact setFloat64_ok_eq _ _ _ _ hf3
    (by unfold SharedAsset.decoded; generalize index fmap "totalCost" = v; cases v <;> rfl)


theorem andThen_panic_mk {σ : Type} (s : σ) (p : Panic) (f : σ → Result σ) :
    Result.andThen ⟨s, .panic p⟩ f = ⟨s, .panic p⟩ := rfl

theorem setString_cases {σ : Type} (v : JSON F) (assign : σ → String → σ) (s : σ) :
    (∃ s', setString v assign s = ⟨s', .ok⟩)
      ∨ setString v assign s = ⟨s, .panic .interfaceConversion⟩ := by
  cases v <;> simp [setString, getTypedVal]

theorem noStringAt_cons (fmap : List (String × JSON F)) (k : String) (ks : List String) :
    noStringAt fmap (k :: ks) = (!(index fmap k).isStr && noStringAt fmap ks) := rfl

theorem noStringAt_append (fmap : List (String × JSON F)) (ks ks' : List String) :
    noStringAt fmap (ks ++ ks') = (noStringAt fmap ks && noStringAt fmap ks') := by
  simp [noStringAt, List.all_append]

theorem lookup_set_self {V : Type} (m : GoMap V) (k : String) (v : V) :
    List.lookup k (GoMap.set m k v) = some v := by
  induction m with
  | nil => simp [GoMap.set, List.lookup]
  | cons kv rest ih =>
    obtain ⟨k', v'⟩ := kv
    by_cases h : k' = k
    · simp [GoMap.set, h, List.lookup]
    · have h' : (k == k') = false := by simpa using fun e => h e.symm
      simp [GoMap.set, h, List.lookup, h', ih]

theorem lookup_set_ne {V : Type} (m : GoMap V) (k k' : String) (v : V) (hne : k' ≠ k) :
    List.lookup k' (GoMap.set m k v) = List.lookup k' m := by
  induction m with
  | nil =>
    have h' : (k' == k) = false := by simpa using hne
    simp [GoMap.set, List.lookup, h']
  | cons kv rest ih =>
    obtain ⟨k0, v0⟩ := kv
    by_cases h : k0 = k
    · subst h
      have h' : (k' == k0) = false := by simpa using hne
      simp [GoMap.set, List.lookup, h']
    · simp only [GoMap.set, h, if_false, List.lookup]
      cases hk : (k' == k0) <;> simp [ih]

theorem decodeLoop_append [Zero F] [Sub F] (lib : Lib F) (xs ys : GoMap (Option RawMessage))
    (acc : GoMap (Asset F)) :
    decodeLoop lib (xs ++ ys) acc
      = match decodeLoop lib xs acc with
        | .error f => .error f
        | .ok acc' => decodeLoop lib ys acc' := by
  induction xs generalizing acc with
  | nil => rfl
  | cons kv rest ih =>
    obtain ⟨k, raw⟩ := kv
    simp only [List.cons_append, decodeLoop]
    cases decodeEntry lib raw with
    | error f => rfl
    | ok a => exact ih _

theorem decodeLoop_ok_of_all [Zero F] [Sub F] (lib : Lib F) (m : GoMap (Option RawMessage))
    (acc : GoMap (Asset F)) (h : ∀ e ∈ m, isOk (decodeEntry lib e.2) = true) :
    ∃ res, decodeLoop lib m acc = .ok res := by
  induction m generalizing acc with
  | nil => exact ⟨acc, rfl⟩
  | cons kv rest ih =>
    obtain ⟨k, raw⟩ := kv
    have hk := h (k, raw) (List.mem_cons_self _ _)
    cases hd : decodeEntry lib raw with
    | error f => simp [hd, isOk] at hk
    | ok a =>
      obtain ⟨res, hres⟩ := ih (GoMap.set acc k a) (fun e he => h e (List.mem_cons_of_mem _ he))
      exact ⟨res, by simp only [decodeLoop, hd, hres]⟩

theorem decodeLoop_lookup_of_not_mem [Zero F] [Sub F] (lib : Lib F)
    (m : GoMap (Option RawMessage)) (acc res : GoMap (Asset F)) (key : String)
    (h : decodeLoop lib m acc = .ok res) (hk : key ∉ GoMap.keys m) :
    List.lookup key res = List.lookup key acc := by
  induction m generalizing acc with
  | nil =>
    simp only [decodeLoop, Except.ok.injEq] at h
    rw [h]
  | cons kv rest ih =>
    obtain ⟨k, raw⟩ := kv
    simp only [GoMap.keys, List.map_cons, List.mem_cons, not_or] at hk
    cases hd : decodeEntry lib raw with
    | error f => simp [decodeLoop, hd] at h
    | ok a =>
      simp only [decodeLoop, hd] at h
      rw [ih (GoMap.set acc k a) h hk.2, lookup_set_ne acc k key a hk.1]

theorem decodeEntry_of_unknown_type [Zero F] [Sub F] (lib : Lib F) (raw : RawMessage)
    (fmap : List (String × JSON F)) (h : lib.unmarshal raw = .ok (.obj fmap))
    (ht : ∀ s ∈ knownTypes, index fmap "type" ≠ .str s) :
    decodeEntry lib (some raw)
      = boxed (Any.InterfaceToAny lib (Any.zero F) (.obj fmap)) Asset.any := by
  simp only [decodeEntry, h, assertMap]
  split
  all_goals first
    | rfl
    | (rename_i heq; exact absurd heq (ht _ (by simp [knownTypes])))

theorem noStringAt_snoc_num (fmap : List (String × JSON F)) (ks : List String) (k : String)
    (x : F) (h : noStringAt fmap ks = true) (hk : index fmap k = .num x) :
    noStringAt fmap (ks ++ [k]) = true := by
  rw [noStringAt_append, h]
  simp [noStringAt, hk, JSON.isStr]

theorem set_of_not_mem {V : Type} (m : GoMap V) (k : String) (v : V)
    (h : k ∉ GoMap.keys m) : GoMap.set m k v = m ++ [(k, v)] := by
  induction m with
  | nil => rfl
  | cons kv rest ih =>
    obtain ⟨k', v'⟩ := kv
    simp only [GoMap.keys, List.map_cons, List.mem_cons, not_or] at h
    have hne : ¬ k' = k := fun e => h.1 e.symm
    simp only [GoMap.set, hne, if_false, List.cons_append]
    rw [ih h.2]

theorem labelsLoop_map (l acc : GoMap String) (h : (GoMap.keys (acc ++ l)).Nodup) :
    labelsLoop (l.map (fun kv => (kv.1, (JSON.str kv.2 : JSON F)))) acc = .ok (acc ++ l) := by
  induction l generalizing acc with
  | nil => simp [labelsLoop]
  | cons kv rest ih =>
    obtain ⟨k, v⟩ := kv
    have hk : k ∉ GoMap.keys acc := by
      simp only [GoMap.keys, List.map_append, List.map_cons] at h
      have := (List.nodup_append.mp h).2.2
      intro hmem
      exact this hmem (List.mem_cons_self _ _)
    simp only [List.map_cons, labelsLoop, assertString]
    rw [set_of_not_mem acc k v hk]
    have := ih (acc ++ [(k, v)]) (by simpa using h)
    simpa using this

theorem index_cons (k k' : String) (v : JSON F) (rest : List (String × JSON F)) :
    index ((k', v) :: rest) k = if k = k' then v else index rest k := by
  by_cases h : k = k'
  · subst h
    simp [index, List.lookup]
  · have h' : (k == k') = false := by simpa using h
    simp [index, List.lookup, h', h]

theorem index_nil (k : String) : index ([] : List (String × JSON F)) k = .null := rfl

theorem pricingOf_encode [Zero F] (pm : Option (AssetPricingModels F)) :
    pricingOf (encodePricingModels pm) = pm := by
  cases pm <;> rfl

theorem encodePricingModels_shape (pm : Option (AssetPricingModels F)) :
    ((encodePricingModels pm).isNull || (encodePricingModels pm).isObj) = true := by
  cases pm <;> rfl

theorem toAssetProp_members (p : AssetProperties) :
    toAssetProp (propertiesMembers p : List (String × JSON F)) = p := by
  simp [toAssetProp, propertiesMembers, index_cons, asString]

theorem toBreakdown_members [Zero F] (b : Breakdown F) :
    toBreakdown (breakdownMembers b) = b := by
  simp [toBreakdown, breakdownMembers, index_cons, asFloat64]

theorem labelsLoop_members (m : GoMap String) (h : (GoMap.keys m).Nodup) :
    labelsLoop (labelsMembers m : List (String × JSON F)) [] = .ok m := by
  simpa [labelsMembers] using labelsLoop_map m [] (by simpa using h)

theorem round_trip_of_Any [Zero F] [Sub F] (acc : Accessors F) (lib : Lib F) (a : Any F)
    (hr : wireReady lib a.properties a.labels a.start a.end_)
    (hw : a.window = { start := some a.start, end_ := some a.end_ })
    (hcost : acc.totalCost (.any a) - a.adjustment - a.credit = a.Cost) :
    decodeWritten (Any.MarshalJSON acc lib a) (Any.InterfaceToAny lib) (Any.zero F)
      = ⟨a, .ok⟩ := by
  obtain ⟨hp, ⟨m, hm, hnd⟩, hs, he⟩ := hr
  obtain ⟨p, hp'⟩ := Option.isSome_iff_exists.mp hp
  simp only [decodeWritten, Any.MarshalJSON, writtenMembers, List.map_cons, List.map_nil,
    HelperCall.value]
  rw [Any.InterfaceToAny_ok lib (Any.zero F) _ ⟨p, a.assetPricingModels, m, a.start, a.end_⟩
    ?_ ?_]
  · obtain ⟨fproperties, flabels, fassetPricingModels, fstart, fend_, fwindow, fadjustment, fcredit, fdiscount, fCost⟩
      := a
    simp only at hp' hm hw hcost
    subst hp' hm hw
    simp [Any.decoded, Any.zero, index_cons, floatOr, stringOr, costOr, toBreakdown_members, hcost]
  · rw [parseCommon_eq_ok lib _ (propertiesMembers p) (labelsMembers m) m
      (lib.formatRFC3339 a.start) (lib.formatRFC3339 a.end_) a.start a.end_
      (by simp [index_cons, hp', encodeProperties])
      (by simpa [index_cons] using encodePricingModels_shape a.assetPricingModels)
      (by simp [index_cons, hm, encodeLabels])
      (labelsLoop_members m hnd)
      (by simp [index_cons]) hs (by simp [index_cons]) he]
    simp [toAssetProp_members, index_cons, pricingOf_encode]
  · simp [noStringAt, index_cons, JSON.isStr]

theorem round_trip_of_Cloud [Zero F] [Sub F] (acc : Accessors F) (lib : Lib F) (ca : Cloud F)
    (hr : wireReady lib ca.properties ca.labels ca.start ca.end_)
    (hw : ca.window = { start := some ca.start, end_ := some ca.end_ })
    (hcost : acc.totalCost (.cloud ca) - ca.adjustment - ca.credit = ca.Cost) :
    decodeWritten (Cloud.MarshalJSON acc lib ca) (Cloud.InterfaceToCloud lib) (Cloud.zero F)
      = ⟨ca, .ok⟩ := by
  obtain ⟨hp, ⟨m, hm, hnd⟩, hs, he⟩ := hr
  obtain ⟨p, hp'⟩ := Option.isSome_iff_exists.mp hp
  simp only [decodeWritten, Cloud.MarshalJSON, writtenMembers, List.map_cons, List.map_nil,
    HelperCall.value]
  rw [Cloud.InterfaceToCloud_ok lib (Cloud.zero F) _ ⟨p, ca.assetPricingModels, m, ca.start, ca.end_⟩
    ?_ ?_ ?_]
  · obtain ⟨fproperties, flabels, fassetPricingModels, fstart, fend_, fwindow, fadjustment, fcredit, fdiscount, fCost, fUsageType, fUsageDetail⟩
      := ca
    simp only at hp' hm hw hcost
    subst hp' hm hw
    simp [Cloud.decoded, Cloud.zero, index_cons, floatOr, stringOr, costOr, toBreakdown_members, hcost]
  · rw [parseCommon_eq_ok lib _ (propertiesMembers p) (labelsMembers m) m
      (lib.formatRFC3339 ca.start) (lib.formatRFC3339 ca.end_) ca.start ca.end_
      (by simp [index_cons, hp', encodeProperties])
      (by simpa [index_cons] using encodePricingModels_shape ca.assetPricingModels)
      (by simp [index_cons, hm, encodeLabels])
      (labelsLoop_members m hnd)
      (by simp [index_cons]) hs (by simp [index_cons]) he]
    simp [toAssetProp_members, index_cons, pricingOf_encode]
  · simp [noStringAt, index_cons, JSON.isStr]
  · simp [noNumberAt, index_cons, JSON.isNum]

theorem round_trip_of_ClusterManagement [Zero F] [Sub F] (acc : Accessors F) (lib : Lib F) (cm : ClusterManagement F) (s e : Time)
    (hr : wireReady lib cm.properties cm.labels s e)
    (hw : cm.window = { start := some s, end_ := some e })
    (hcost : acc.totalCost (.clusterManagement cm) - cm.adjustment - cm.credit = cm.Cost) :
    decodeWritten (ClusterManagement.MarshalJSON acc lib cm) (ClusterManagement.InterfaceToClusterManagement lib) (ClusterManagement.zero F)
      = ⟨cm, .ok⟩ := by
  obtain ⟨hp, ⟨m, hm, hnd⟩, hs, he⟩ := hr
  obtain ⟨p, hp'⟩ := Option.isSome_iff_exists.mp hp
  simp only [decodeWritten, ClusterManagement.MarshalJSON, writtenMembers, List.map_cons, List.map_nil,
    HelperCall.value, hw, derefTime]
  rw [ClusterManagement.InterfaceToClusterManagement_ok lib (ClusterManagement.zero F) _ ⟨p, cm.assetPricingModels, m, s, e⟩
    ?_ ?_]
  · obtain ⟨fproperties, flabels, fassetPricingModels, fwindow, fadjustment, fcredit, fdiscount, fCost⟩
      := cm
    simp only at hp' hm hw hcost
    subst hp' hm hw
    simp [ClusterManagement.decoded, ClusterManagement.zero, index_cons, floatOr, stringOr, costOr, toBreakdown_members, hcost]
  · rw [parseCommon_eq_ok lib _ (propertiesMembers p) (labelsMembers m) m
      (lib.formatRFC3339 s) (lib.formatRFC3339 e) s e
      (by simp [index_cons, hp', encodeProperties])
      (by simpa [index_cons] using encodePricingModels_shape cm.assetPricingModels)
      (by simp [index_cons, hm, encodeLabels])
      (labelsLoop_members m hnd)
      (by simp [index_cons]) hs (by simp [index_cons]) he]
    simp [toAssetProp_members, index_cons, pricingOf_encode]
  · simp [noStringAt, index_cons, JSON.isStr]

theorem round_trip_of_Disk [Zero F] [Sub F] (acc : Accessors F) (lib : Lib F) (d : Disk F)
    (hr : wireReady lib d.properties d.labels d.start d.end_)
    (hw : d.window = { start := some d.start, end_ := some d.end_ })
    (hbBreakdown : d.Breakdown.isSome = true)
    (hcost : acc.totalCost (.disk d) - d.adjustment - d.credit = d.Cost) :
    decodeWritten (Disk.MarshalJSON acc lib d) (Disk.InterfaceToDisk lib) (Disk.zero F)
      = ⟨{ d with Local := false }, .ok⟩ := by
  obtain ⟨hp, ⟨m, hm, hnd⟩, hs, he⟩ := hr
  obtain ⟨p, hp'⟩ := Option.isSome_iff_exists.mp hp
  obtain ⟨bBreakdown, hbBreakdown'⟩ := Option.isSome_iff_exists.mp hbBreakdown
  simp only [decodeWritten, Disk.MarshalJSON, writtenMembers, List.map_cons, List.map_nil,
    HelperCall.value]
  rw [Disk.InterfaceToDisk_ok lib (Disk.zero F) _ ⟨p, d.assetPricingModels, m, d.start, d.end_⟩ (breakdownMembers bBreakdown)
    ?_ ?_ ?_ ?_]
  · obtain ⟨fproperties, flabels, fassetPricingModels, fstart, fend_, fwindow, fadjustment, fcredit, fdiscount, fCost, fByteHours, fLocal, fBreakdown, fStorageClass⟩
      := d
    simp only at hp' hm hw hbBreakdown' hcost
    subst hp' hm hw hbBreakdown'
    simp [Disk.decoded, Disk.zero, index_cons, floatOr, stringOr, costOr, toBreakdown_members, hcost]
  · rw [parseCommon_eq_ok lib _ (propertiesMembers p) (labelsMembers m) m
      (lib.formatRFC3339 d.start) (lib.formatRFC3339 d.end_) d.start d.end_
      (by simp [index_cons, hp', encodeProperties])
      (by simpa [index_cons] using encodePricingModels_shape d.assetPricingModels)
      (by simp [index_cons, hm, encodeLabels])
      (labelsLoop_members m hnd)
      (by simp [index_cons]) hs (by simp [index_cons]) he]
    simp [toAssetProp_members, index_cons, pricingOf_encode]
  · simp [index_cons, hbBreakdown', encodeBreakdown]
  · simp [noStringAt, index_cons, JSON.isStr]
  · simp [noNumberAt, index_cons, JSON.isNum]

theorem round_trip_of_Network [Zero F] [Sub F] (acc : Accessors F) (lib : Lib F) (n : Network F)
    (hr : wireReady lib n.properties n.labels n.start n.end_)
    (hw : n.window = { start := some n.start, end_ := some n.end_ })
    (hcost : acc.totalCost (.network n) - n.adjustment - n.credit = n.Cost) :
    decodeWritten (Network.MarshalJSON acc lib n) (Network.InterfaceToNetwork lib) (Network.zero F)
      = ⟨n, .ok⟩ := by
  obtain ⟨hp, ⟨m, hm, hnd⟩, hs, he⟩ := hr
  obtain ⟨p, hp'⟩ := Option.isSome_iff_exists.mp hp
  simp only [decodeWritten, Network.MarshalJSON, writtenMembers, List.map_cons, List.map_nil,
    HelperCall.value]
  rw [Network.InterfaceToNetwork_ok lib (Network.zero F) _ ⟨p, n.assetPricingModels, m, n.start, n.end_⟩
    ?_ ?_]
  · obtain ⟨fproperties, flabels, fassetPricingModels, fstart, fend_, fwindow, fadjustment, fcredit, fdiscount, fCost⟩
      := n
    simp only at hp' hm hw hcost
    subst hp' hm hw
    simp [Network.decoded, Network.zero, index_cons, floatOr, stringOr, costOr, toBreakdown_members, hcost]
  · rw [parseCommon_eq_ok lib _ (propertiesMembers p) (labelsMembers m) m
      (lib.formatRFC3339 n.start) (lib.formatRFC3339 n.end_) n.start n.end_
      (by simp [index_cons, hp', encodeProperties])
      (by simpa [index_cons] using encodePricingModels_shape n.assetPricingModels)
      (by simp [index_cons, hm, encodeLabels])
      (labelsLoop_members m hnd)
      (by simp [index_cons]) hs (by simp [index_cons]) he]
    simp [toAssetProp_members, index_cons, pricingOf_encode]
  · simp [noStringAt, index_cons, JSON.isStr]

theorem round_trip_of_Node [Zero F] (acc : Accessors F) (lib : Lib F) (n : Node F)
    (hr : wireReady lib n.properties n.labels n.start n.end_)
    (hw : n.window = { start := some n.start, end_ := some n.end_ })
    (hbCPUBreakdown : n.CPUBreakdown.isSome = true)
    (hbRAMBreakdown : n.RAMBreakdown.isSome = true) :
    decodeWritten (Node.MarshalJSON acc lib n) (Node.InterfaceToNode lib) (Node.zero F)
      = ⟨{ n with GPUCount := acc.gpus n }, .ok⟩ := by
  obtain ⟨hp, ⟨m, hm, hnd⟩, hs, he⟩ := hr
  obtain ⟨p, hp'⟩ := Option.isSome_iff_exists.mp hp
  obtain ⟨bCPUBreakdown, hbCPUBreakdown'⟩ := Option.isSome_iff_exists.mp hbCPUBreakdown
  obtain ⟨bRAMBreakdown, hbRAMBreakdown'⟩ := Option.isSome_iff_exists.mp hbRAMBreakdown
  simp only [decodeWritten, Node.MarshalJSON, writtenMembers, List.map_cons, List.map_nil,
    HelperCall.value]
  rw [Node.InterfaceToNode_ok lib (Node.zero F) _ ⟨p, n.assetPricingModels, m, n.start, n.end_⟩ (breakdownMembers bCPUBreakdown) (breakdownMembers bRAMBreakdown)
    ?_ ?_ ?_ ?_ ?_]
  · obtain ⟨fproperties, flabels, fassetPricingModels, fstart, fend_, fwindow, fadjustment, fcredit, fdiscount, fNodeType, fCPUCoreHours, fRAMByteHours, fGPUHours, fCPUBreakdown, fRAMBreakdown, fCPUCost, fGPUCost, fGPUCount, fRAMCost⟩
      := n
    simp only at hp' hm hw hbCPUBreakdown' hbRAMBreakdown'
    subst hp' hm hw hbCPUBreakdown' hbRAMBreakdown'
    simp [Node.decoded, Node.zero, index_cons, floatOr, stringOr, costOr, toBreakdown_members]
  · rw [parseCommon_eq_ok lib _ (propertiesMembers p) (labelsMembers m) m
      (lib.formatRFC3339 n.start) (lib.formatRFC3339 n.end_) n.start n.end_
      (by simp [index_cons, hp', encodeProperties])
      (by simpa [index_cons] using encodePricingModels_shape n.assetPricingModels)
      (by simp [index_cons, hm, encodeLabels])
      (labelsLoop_members m hnd)
      (by simp [index_cons]) hs (by simp [index_cons]) he]
    simp [toAssetProp_members, index_cons, pricingOf_encode]
  · simp [index_cons, hbCPUBreakdown', encodeBreakdown]
  · simp [index_cons, hbRAMBreakdown', encodeBreakdown]
  · simp [noStringAt, index_cons, JSON.isStr]
  · simp [noNumberAt, index_cons, JSON.isNum]

theorem round_trip_of_LoadBalancer [Zero F] [Sub F] (acc : Accessors F) (lib : Lib F) (lb : LoadBalancer F)
    (hr : wireReady lib lb.properties lb.labels lb.start lb.end_)
    (hw : lb.window = { start := some lb.start, end_ := some lb.end_ })
    (hcost : acc.totalCost (.loadBalancer lb) - lb.adjustment - lb.credit = lb.Cost) :
    decodeWritten (LoadBalancer.MarshalJSON acc lib lb) (LoadBalancer.InterfaceToLoadBalancer lib) (LoadBalancer.zero F)
      = ⟨lb, .ok⟩ := by
  obtain ⟨hp, ⟨m, hm, hnd⟩, hs, he⟩ := hr
  obtain ⟨p, hp'⟩ := Option.isSome_iff_exists.mp hp
  simp only [decodeWritten, LoadBalancer.MarshalJSON, writtenMembers, List.map_cons, List.map_nil,
    HelperCall.value]
  rw [LoadBalancer.InterfaceToLoadBalancer_ok lib (LoadBalancer.zero F) _ ⟨p, lb.assetPricingModels, m, lb.start, lb.end_⟩
    ?_ ?_]
  · obtain ⟨fproperties, flabels, fassetPricingModels, fstart, fend_, fwindow, fadjustment, fcredit, fdiscount, fCost⟩
      := lb
    simp only at hp' hm hw hcost
    subst hp' hm hw
    simp [LoadBalancer.decoded, LoadBalancer.zero, index_cons, floatOr, stringOr, costOr, toBreakdown_members, hcost]
  · rw [parseCommon_eq_ok lib _ (propertiesMembers p) (labelsMembers m) m
      (lib.formatRFC3339 lb.start) (lib.formatRFC3339 lb.end_) lb.start lb.end_
      (by simp [index_cons, hp', encodeProperties])
      (by simpa [index_cons] using encodePricingModels_shape lb.assetPricingModels)
      (by simp [index_cons, hm, encodeLabels])
      (labelsLoop_members m hnd)
      (by simp [index_cons]) hs (by simp [index_cons]) he]
    simp [toAssetProp_members, index_cons, pricingOf_encode]
  · simp [noStringAt, index_cons, JSON.isStr]

theorem round_trip_of_SharedAsset [Zero F] [Sub F] (acc : Accessors F) (lib : Lib F) (sa : SharedAsset F) (s e : Time)
    (hr : wireReady lib sa.properties sa.labels s e)
    (hw : sa.window = { start := some s, end_ := some e })
    (hcost : acc.totalCost (.sharedAsset sa) - sa.adjustment - sa.credit = sa.Cost) :
    decodeWritten (SharedAsset.MarshalJSON acc lib sa) (SharedAsset.InterfaceToSharedAsset lib) (SharedAsset.zero F)
      = ⟨sa, .ok⟩ := by
  obtain ⟨hp, ⟨m, hm, hnd⟩, hs, he⟩ := hr
  obtain ⟨p, hp'⟩ := Option.isSome_iff_exists.mp hp
  simp only [decodeWritten, SharedAsset.MarshalJSON, writtenMembers, List.map_cons, List.map_nil,
    HelperCall.value, hw, derefTime]
  rw [SharedAsset.InterfaceToSharedAsset_ok lib (SharedAsset.zero F) _ ⟨p, sa.assetPricingModels, m, s, e⟩
    ?_ ?_]
  · obtain ⟨fproperties, flabels, fassetPricingModels, fwindow, fadjustment, fcredit, fdiscount, fCost⟩
      := sa
    simp only at hp' hm hw hcost
    subst hp' hm hw
    simp [SharedAsset.decoded, SharedAsset.zero, index_cons, floatOr, stringOr, costOr, toBreakdown_members, hcost]
  · rw [parseCommon_eq_ok lib _ (propertiesMembers p) (labelsMembers m) m
      (lib.formatRFC3339 s) (lib.formatRFC3339 e) s e
      (by simp [index_cons, hp', encodeProperties])
      (by simpa [index_cons] using encodePricingModels_shape sa.assetPricingModels)
      (by simp [index_cons, hm, encodeLabels])
      (labelsLoop_members m hnd)
      (by simp [index_cons]) hs (by simp [index_cons]) he]
    simp [toAssetProp_members, index_cons, pricingOf_encode]
  · simp [noStringAt, index_cons, JSON.isStr]


theorem setFloat64_frame {σ β : Type} (g : σ → β) (v : JSON F) (assign : σ → F → σ) (s : σ)
    (hg : ∀ s x, g (assign s x) = g s) : g (setFloat64 v assign s).state = g s := by
  cases v <;> simp [setFloat64, getTypedVal, hg]

theorem setString_frame {σ β : Type} (g : σ → β) (v : JSON F) (assign : σ → String → σ)
    (s : σ) (hg : ∀ s x, g (assign s x) = g s) : g (setString v assign s).state = g s := by
  cases v <;> simp [setString, getTypedVal, hg]

theorem andThen_frame {σ β : Type} (g : σ → β) (r : Result σ) (f : σ → Result σ)
    (hf : ∀ s, g (f s).state = g s) : g (r.andThen f).state = g r.state := by
  unfold Result.andThen
  cases h : r.status <;> simp [hf]

theorem Disk.breakdown_of_ok [Zero F] [Sub F] (lib : Lib F) (d : Disk F) (itf : JSON F)
    (h : (Disk.InterfaceToDisk lib d itf).status = .ok) :
    (Disk.InterfaceToDisk lib d itf).state.Breakdown.isSome = true := by
  unfold Disk.InterfaceToDisk at h ⊢
  cases h1 : assertMap itf with
  | error f => simp only [h1] at h; exact absurd h (toStatus_ne_ok f)
  | ok fmap =>
    simp only [h1] at h ⊢
    cases h2 : parseCommon lib fmap with
    | error f => simp only [h2] at h; exact absurd h (toStatus_ne_ok f)
    | ok c =>
      simp only [h2] at h ⊢
      cases h3 : assertMap (index fmap "breakdown") with
      | error f => simp only [h3] at h; exact absurd h (toStatus_ne_ok f)
      | ok fb =>
        simp only [h3]
        rw [andThen_frame (fun d : Disk F => d.Breakdown.isSome) _ _
            (fun s => setFloat64_frame (fun d : Disk F => d.Breakdown.isSome) _ _ s
              (by intros; rfl)),
          andThen_frame (fun d : Disk F => d.Breakdown.isSome) _ _
            (fun s => setFloat64_frame (fun d : Disk F => d.Breakdown.isSome) _ _ s
              (by intros; rfl)),
          andThen_frame (fun d : Disk F => d.Breakdown.isSome) _ _
            (fun s => setFloat64_frame (fun d : Disk F => d.Breakdown.isSome) _ _ s
              (by intros; rfl)),
          andThen_frame (fun d : Disk F => d.Breakdown.isSome) _ _
            (fun s => setFloat64_frame (fun d : Disk F => d.Breakdown.isSome) _ _ s
              (by intros; rfl)),
          andThen_frame (fun d : Disk F => d.Breakdown.isSome) _ _
            (fun s => setFloat64_frame (fun d : Disk F => d.Breakdown.isSome) _ _ s
              (by intros; rfl)),
          setString_frame (fun d : Disk F => d.Breakdown.isSome) _ _ _ (by intros; rfl)]
        rfl

theorem assertMap_obj (m : List (String × JSON F)) : assertMap (.obj m) = .ok m := rfl

theorem ok_common_of_Any [Zero F] [Sub F] (lib : Lib F) (a : Any F) (itf : JSON F)
    (h : (Any.InterfaceToAny lib a itf).status = .ok) :
    ∃ fmap c, itf = .obj fmap ∧ parseCommon lib fmap = .ok c
      ∧ (Any.InterfaceToAny lib a itf).state.properties
          = some c.properties
      ∧ (Any.InterfaceToAny lib a itf).state.labels
          = some c.labels
      ∧ (Any.InterfaceToAny lib a itf).state.assetPricingModels
          = c.pricingModels
      ∧ (Any.InterfaceToAny lib a itf).state.start
          = c.start
      ∧ (Any.InterfaceToAny lib a itf).state.end_
          = c.end_
      ∧ (Any.InterfaceToAny lib a itf).state.window
          = ({ start := some c.start, end_ := some c.end_ } : Window) := by
  cases h1 : assertMap itf with
  | error f =>
    simp only [Any.InterfaceToAny, h1] at h
    exact absurd h (toStatus_ne_ok f)
  | ok fmap =>
    have hi := assertMap_ok h1
    subst hi
    cases h2 : parseCommon lib fmap with
    | error f =>
      simp only [Any.InterfaceToAny, assertMap_obj, h2] at h
      exact absurd h (toStatus_ne_ok f)
    | ok c =>
      have key : Any.common (Any.InterfaceToAny lib a (.obj fmap)).state
          = (some c.properties,
            some c.labels,
            c.pricingModels,
            c.start,
            c.end_,
            ({ start := some c.start, end_ := some c.end_ } : Window)) := by
        simp only [Any.InterfaceToAny, assertMap_obj, h2]
        rw [andThen_frame Any.common _ _
            (fun s => setFloat64_frame Any.common _ _ s (by intros; rfl)),
          andThen_frame Any.common _ _
            (fun s => setFloat64_frame Any.common _ _ s (by intros; rfl)),
          andThen_frame Any.common _ _
            (fun s => setFloat64_frame Any.common _ _ s (by intros; rfl)),
          setFloat64_frame Any.common _ _ _ (by intros; rfl)]
        rfl
      exact ⟨fmap, c, rfl, h2,
        congrArg (fun t => t.1) key,
        congrArg (fun t => t.2.1) key,
        congrArg (fun t => t.2.2.1) key,
        congrArg (fun t => t.2.2.2.1) key,
        congrArg (fun t => t.2.2.2.2.1) key,
        congrArg (fun t => t.2.2.2.2.2) key⟩

theorem ok_common_of_Cloud [Zero F] [Sub F] (lib : Lib F) (ca : Cloud F) (itf : JSON F)
    (h : (Cloud.InterfaceToCloud lib ca itf).status = .ok) :
    ∃ fmap c, itf = .obj fmap ∧ parseCommon lib fmap = .ok c
      ∧ (Cloud.InterfaceToCloud lib ca itf).state.properties
          = some c.properties
      ∧ (Cloud.InterfaceToCloud lib ca itf).state.labels
          = some c.labels
      ∧ (Cloud.InterfaceToCloud lib ca itf).state.assetPricingModels
          = c.pricingModels
      ∧ (Cloud.InterfaceToCloud lib ca itf).state.start
          = c.start
      ∧ (Cloud.InterfaceToCloud lib ca itf).state.end_
          = c.end_
      ∧ (Cloud.InterfaceToCloud lib ca itf).state.window
          = ({ start := some c.start, end_ := some c.end_ } : Window) := by
  cases h1 : assertMap itf with
  | error f =>
    simp only [Cloud.InterfaceToCloud, h1] at h
    exact absurd h (toStatus_ne_ok f)
  | ok fmap =>
    have hi := assertMap_ok h1
    subst hi
    cases h2 : parseCommon lib fmap with
    | error f =>
      simp only [Cloud.InterfaceToCloud, assertMap_obj, h2] at h
      exact absurd h (toStatus_ne_ok f)
    | ok c =>
      have key : Cloud.common (Cloud.InterfaceToCloud lib ca (.obj fmap)).state
          = (some c.properties,
            some c.labels,
            c.pricingModels,
            c.start,
            c.end_,
            ({ start := some c.start, end_ := some c.end_ } : Window)) := by
        simp only [Cloud.InterfaceToCloud, assertMap_obj, h2]
        rw [andThen_frame Cloud.common _ _
            (fun s => setFloat64_frame Cloud.common _ _ s (by intros; rfl)),
          andThen_frame Cloud.common _ _
            (fun s => setFloat64_frame Cloud.common _ _ s (by intros; rfl)),
          andThen_frame Cloud.common _ _
            (fun s => setFloat64_frame Cloud.common _ _ s (by intros; rfl)),
          andThen_frame Cloud.common _ _
            (fun s => setFloat64_frame Cloud.common _ _ s (by intros; rfl)),
          andThen_frame Cloud.common _ _
            (fun s => setString_frame Cloud.common _ _ s (by intros; rfl)),
          setString_frame Cloud.common _ _ _ (by intros; rfl)]
        rfl
      exact ⟨fmap, c, rfl, h2,
        congrArg (fun t => t.1) key,
        congrArg (fun t => t.2.1) key,
        congrArg (fun t => t.2.2.1) key,
        congrArg (fun t => t.2.2.2.1) key,
        congrArg (fun t => t.2.2.2.2.1) key,
        congrArg (fun t => t.2.2.2.2.2) key⟩

theorem ok_common_of_ClusterManagement [Zero F] [Sub F] (lib : Lib F) (cm : ClusterManagement F) (itf : JSON F)
    (h : (ClusterManagement.InterfaceToClusterManagement lib cm itf).status = .ok) :
    ∃ fmap c, itf = .obj fmap ∧ parseCommon lib fmap = .ok c
      ∧ (ClusterManagement.InterfaceToClusterManagement lib cm itf).state.properties
          = some c.properties
      ∧ (ClusterManagement.InterfaceToClusterManagement lib cm itf).state.labels
          = some c.labels
      ∧ (ClusterManagement.InterfaceToClusterManagement lib cm itf).state.assetPricingModels
          = c.pricingModels
      ∧ (ClusterManagement.InterfaceToClusterManagement lib cm itf).state.window
          = ({ start := some c.start, end_ := some c.end_ } : Window) := by
  cases h1 : assertMap itf with
  | error f =>
    simp only [ClusterManagement.InterfaceToClusterManagement, h1] at h
    exact absurd h (toStatus_ne_ok f)
  | ok fmap =>
    have hi := assertMap_ok h1
    subst hi
    cases h2 : parseCommon lib fmap with
    | error f =>
      simp only [ClusterManagement.InterfaceToClusterManagement, assertMap_obj, h2] at h
      exact absurd h (toStatus_ne_ok f)
    | ok c =>
      have key : ClusterManagement.common (ClusterManagement.InterfaceToClusterManagement lib cm (.obj fmap)).state
          = (some c.properties,
            some c.labels,
            c.pricingModels,
            ({ start := some c.start, end_ := some c.end_ } : Window)) := by
        simp only [ClusterManagement.InterfaceToClusterManagement, assertMap_obj, h2]
        rw [andThen_frame ClusterManagement.common _ _
            (fun s => setFloat64_frame ClusterManagement.common _ _ s (by intros; rfl)),
          andThen_frame ClusterManagement.common _ _
            (fun s => setFloat64_frame ClusterManagement.common _ _ s (by intros; rfl)),
          andThen_frame ClusterManagement.common _ _
            (fun s => setFloat64_frame ClusterManagement.common _ _ s (by intros; rfl)),
          setFloat64_frame ClusterManagement.common _ _ _ (by intros; rfl)]
        rfl
      exact ⟨fmap, c, rfl, h2,
        congrArg (fun t => t.1) key,
        congrArg (fun t => t.2.1) key,
        congrArg (fun t => t.2.2.1) key,
        congrArg (fun t => t.2.2.2) key⟩

theorem ok_common_of_Disk [Zero F] [Sub F] (lib : Lib F) (d : Disk F) (itf : JSON F)
    (h : (Disk.InterfaceToDisk lib d itf).status = .ok) :
    ∃ fmap c fbreakdown, itf = .obj fmap ∧ parseCommon lib fmap = .ok c
      ∧ index fmap "breakdown" = .obj fbreakdown
      ∧ (Disk.InterfaceToDisk lib d itf).state.properties
          = some c.properties
      ∧ (Disk.InterfaceToDisk lib d itf).state.labels
          = some c.labels
      ∧ (Disk.InterfaceToDisk lib d itf).state.assetPricingModels
          = c.pricingModels
      ∧ (Disk.InterfaceToDisk lib d itf).state.start
          = c.start
      ∧ (Disk.InterfaceToDisk lib d itf).state.end_
          = c.end_
      ∧ (Disk.InterfaceToDisk lib d itf).state.window
          = ({ start := some c.start, end_ := some c.end_ } : Window)
      ∧ (Disk.InterfaceToDisk lib d itf).state.Breakdown
          = some (toBreakdown fbreakdown) := by
  cases h1 : assertMap itf with
  | error f =>
    simp only [Disk.InterfaceToDisk, h1] at h
    exact absurd h (toStatus_ne_ok f)
  | ok fmap =>
    have hi := assertMap_ok h1
    subst hi
    cases h2 : parseCommon lib fmap with
    | error f =>
      simp only [Disk.InterfaceToDisk, assertMap_obj, h2] at h
      exact absurd h (toStatus_ne_ok f)
    | ok c =>
      cases h3 : assertMap (index fmap "breakdown") with
      | error f =>
        simp only [Disk.InterfaceToDisk, assertMap_obj, h2, h3] at h
        exact absurd h (toStatus_ne_ok f)
      | ok fbreakdown =>
        have key : Disk.common (Disk.InterfaceToDisk lib d (.obj fmap)).state
            = (some c.properties,
              some c.labels,
              c.pricingModels,
              c.start,
              c.end_,
              ({ start := some c.start, end_ := some c.end_ } : Window),
              some (toBreakdown fbreakdown)) := by
          simp only [Disk.InterfaceToDisk, assertMap_obj, h2, h3]
          rw [andThen_frame Disk.common _ _
              (fun s => setFloat64_frame Disk.common _ _ s (by intros; rfl)),
            andThen_frame Disk.common _ _
              (fun s => setFloat64_frame Disk.common _ _ s (by intros; rfl)),
            andThen_frame Disk.common _ _
              (fun s => setFloat64_frame Disk.common _ _ s (by intros; rfl)),
            andThen_frame Disk.common _ _
              (fun s => setFloat64_frame Disk.common _ _ s (by intros; rfl)),
            andThen_frame Disk.common _ _
              (fun s => setFloat64_frame Disk.common _ _ s (by intros; rfl)),
            setString_frame Disk.common _ _ _ (by intros; rfl)]
          rfl
        exact ⟨fmap, c, fbreakdown, rfl, h2, assertMap_ok h3,
          congrArg (fun t => t.1) key,
          congrArg (fun t => t.2.1) key,
          congrArg (fun t => t.2.2.1) key,
          congrArg (fun t => t.2.2.2.1) key,
          congrArg (fun t => t.2.2.2.2.1) key,
          congrArg (fun t => t.2.2.2.2.2.1) key,
          congrArg (fun t => t.2.2.2.2.2.2) key⟩

theorem ok_common_of_Network [Zero F] [Sub F] (lib : Lib F) (n : Network F) (itf : JSON F)
    (h : (Network.InterfaceToNetwork lib n itf).status = .ok) :
    ∃ fmap c, itf = .obj fmap ∧ parseCommon lib fmap = .ok c
      ∧ (Network.InterfaceToNetwork lib n itf).state.properties
          = some c.properties
      ∧ (Network.InterfaceToNetwork lib n itf).state.labels
          = some c.labels
      ∧ (Network.InterfaceToNetwork lib n itf).state.assetPricingModels
          = c.pricingModels
      ∧ (Network.InterfaceToNetwork lib n itf).state.start
          = c.start
      ∧ (Network.InterfaceToNetwork lib n itf).state.end_
          = c.end_
      ∧ (Network.InterfaceToNetwork lib n itf).state.window
          = ({ start := some c.start, end_ := some c.end_ } : Window) := by
  cases h1 : assertMap itf with
  | error f =>
    simp only [Network.InterfaceToNetwork, h1] at h
    exact absurd h (toStatus_ne_ok f)
  | ok fmap =>
    have hi := assertMap_ok h1
    subst hi
    cases h2 : parseCommon lib fmap with
    | error f =>
      simp only [Network.InterfaceToNetwork, assertMap_obj, h2] at h
      exact absurd h (toStatus_ne_ok f)
    | ok c =>
      have key : Network.common (Network.InterfaceToNetwork lib n (.obj fmap)).state
          = (some c.properties,
            some c.labels,
            c.pricingModels,
            c.start,
            c.end_,
            ({ start := some c.start, end_ := some c.end_ } : Window)) := by
        simp only [Network.InterfaceToNetwork, assertMap_obj, h2]
        rw [andThen_frame Network.common _ _
            (fun s => setFloat64_frame Network.common _ _ s (by intros; rfl)),
          andThen_frame Network.common _ _
            (fun s => setFloat64_frame Network.common _ _ s (by intros; rfl)),
          andThen_frame Network.common _ _
            (fun s => setFloat64_frame Network.common _ _ s (by intros; rfl)),
          setFloat64_frame Network.common _ _ _ (by intros; rfl)]
        rfl
      exact ⟨fmap, c, rfl, h2,
        congrArg (fun t => t.1) key,
        congrArg (fun t => t.2.1) key,
        congrArg (fun t => t.2.2.1) key,
        congrArg (fun t => t.2.2.2.1) key,
        congrArg (fun t => t.2.2.2.2.1) key,
        congrArg (fun t => t.2.2.2.2.2) key⟩

theorem ok_common_of_Node [Zero F] (lib : Lib F) (n : Node F) (itf : JSON F)
    (h : (Node.InterfaceToNode lib n itf).status = .ok) :
    ∃ fmap c fcpuBreakdown framBreakdown, itf = .obj fmap ∧ parseCommon lib fmap = .ok c
      ∧ index fmap "cpuBreakdown" = .obj fcpuBreakdown
      ∧ index fmap "ramBreakdown" = .obj framBreakdown
      ∧ (Node.InterfaceToNode lib n itf).state.properties
          = some c.properties
      ∧ (Node.InterfaceToNode lib n itf).state.labels
          = some c.labels
      ∧ (Node.InterfaceToNode lib n itf).state.assetPricingModels
          = c.pricingModels
      ∧ (Node.InterfaceToNode lib n itf).state.start
          = c.start
      ∧ (Node.InterfaceToNode lib n itf).state.end_
          = c.end_
      ∧ (Node.InterfaceToNode lib n itf).state.window
          = ({ start := some c.start, end_ := some c.end_ } : Window)
      ∧ (Node.InterfaceToNode lib n itf).state.CPUBreakdown
          = some (toBreakdown fcpuBreakdown)
      ∧ (Node.InterfaceToNode lib n itf).state.RAMBreakdown
          = some (toBreakdown framBreakdown) := by
  cases h1 : assertMap itf with
  | error f =>
    simp only [Node.InterfaceToNode, h1] at h
    exact absurd h (toStatus_ne_ok f)
  | ok fmap =>
    have hi := assertMap_ok h1
    subst hi
    cases h2 : parseCommon lib fmap with
    | error f =>
      simp only [Node.InterfaceToNode, assertMap_obj, h2] at h
      exact absurd h (toStatus_ne_ok f)
    | ok c =>
      cases h3 : assertMap (index fmap "cpuBreakdown") with
      | error f =>
        simp only [Node.InterfaceToNode, assertMap_obj, h2, h3] at h
        exact absurd h (toStatus_ne_ok f)
      | ok fcpuBreakdown =>
        cases h4 : assertMap (index fmap "ramBreakdown") with
        | error f =>
          simp only [Node.InterfaceToNode, assertMap_obj, h2, h3, h4] at h
          exact absurd h (toStatus_ne_ok f)
        | ok framBreakdown =>
          have key : Node.common (Node.InterfaceToNode lib n (.obj fmap)).state
              = (some c.properties,
                some c.labels,
                c.pricingModels,
                c.start,
                c.end_,
                ({ start := some c.start, end_ := some c.end_ } : Window),
                some (toBreakdown fcpuBreakdown),
                some (toBreakdown framBreakdown)) := by
            simp only [Node.InterfaceToNode, assertMap_obj, h2, h3, h4]
            rw [andThen_frame Node.common _ _
                (fun s => setFloat64_frame Node.common _ _ s (by intros; rfl)),
              andThen_frame Node.common _ _
                (fun s => setFloat64_frame Node.common _ _ s (by intros; rfl)),
              andThen_frame Node.common _ _
                (fun s => setFloat64_frame Node.common _ _ s (by intros; rfl)),
              andThen_frame Node.common _ _
                (fun s => setFloat64_frame Node.common _ _ s (by intros; rfl)),
              andThen_frame Node.common _ _
                (fun s => setFloat64_frame Node.common _ _ s (by intros; rfl)),
              andThen_frame Node.common _ _
                (fun s => setFloat64_frame Node.common _ _ s (by intros; rfl)),
              andThen_frame Node.common _ _
                (fun s => setFloat64_frame Node.common _ _ s (by intros; rfl)),
              andThen_frame Node.common _ _
                (fun s => setString_frame Node.common _ _ s (by intros; rfl)),
              andThen_frame Node.common _ _
                (fun s => setFloat64_frame Node.common _ _ s (by intros; rfl)),
              andThen_frame Node.common _ _
                (fun s => setFloat64_frame Node.common _ _ s (by intros; rfl)),
              setFloat64_frame Node.common _ _ _ (by intros; rfl)]
            rfl
          exact ⟨fmap, c, fcpuBreakdown, framBreakdown, rfl, h2, assertMap_ok h3, assertMap_ok h4,
            congrArg (fun t => t.1) key,
            congrArg (fun t => t.2.1) key,
            congrArg (fun t => t.2.2.1) key,
            congrArg (fun t => t.2.2.2.1) key,
            congrArg (fun t => t.2.2.2.2.1) key,
            congrArg (fun t => t.2.2.2.2.2.1) key,
            congrArg (fun t => t.2.2.2.2.2.2.1) key,
            congrArg (fun t => t.2.2.2.2.2.2.2) key⟩

theorem ok_common_of_LoadBalancer [Zero F] [Sub F] (lib : Lib F) (lb : LoadBalancer F) (itf : JSON F)
    (h : (LoadBalancer.InterfaceToLoadBalancer lib lb itf).status = .ok) :
    ∃ fmap c, itf = .obj fmap ∧ parseCommon lib fmap = .ok c
      ∧ (LoadBalancer.InterfaceToLoadBalancer lib lb itf).state.properties
          = some c.properties
      ∧ (LoadBalancer.InterfaceToLoadBalancer lib lb itf).state.labels
          = some c.labels
      ∧ (LoadBalancer.InterfaceToLoadBalancer lib lb itf).state.assetPricingModels
          = c.pricingModels
      ∧ (LoadBalancer.InterfaceToLoadBalancer lib lb itf).state.start
          = c.start
      ∧ (LoadBalancer.InterfaceToLoadBalancer lib lb itf).state.end_
          = c.end_
      ∧ (LoadBalancer.InterfaceToLoadBalancer lib lb itf).state.window
          = ({ start := some c.start, end_ := some c.end_ } : Window) := by
  cases h1 : assertMap itf with
  | error f =>
    simp only [LoadBalancer.InterfaceToLoadBalancer, h1] at h
    exact absurd h (toStatus_ne_ok f)
  | ok fmap =>
    have hi := assertMap_ok h1
    subst hi
    cases h2 : parseCommon lib fmap with
    | error f =>
      simp only [LoadBalancer.InterfaceToLoadBalancer, assertMap_obj, h2] at h
      exact absurd h (toStatus_ne_ok f)
    | ok c =>
      have key : LoadBalancer.common (LoadBalancer.InterfaceToLoadBalancer lib lb (.obj fmap)).state
          = (some c.properties,
            some c.labels,
            c.pricingModels,
            c.start,
            c.end_,
            ({ start := some c.start, end_ := some c.end_ } : Window)) := by
        simp only [LoadBalancer.InterfaceToLoadBalancer, assertMap_obj, h2]
        rw [andThen_frame LoadBalancer.common _ _
            (fun s => setFloat64_frame LoadBalancer.common _ _ s (by intros; rfl)),
          andThen_frame LoadBalancer.common _ _
            (fun s => setFloat64_frame LoadBalancer.common _ _ s (by intros; rfl)),
          andThen_frame LoadBalancer.common _ _
            (fun s => setFloat64_frame LoadBalancer.common _ _ s (by intros; rfl)),
          setFloat64_frame LoadBalancer.common _ _ _ (by intros; rfl)]
        rfl
      exact ⟨fmap, c, rfl, h2,
        congrArg (fun t => t.1) key,
        congrArg (fun t => t.2.1) key,
        congrArg (fun t => t.2.2.1) key,
        congrArg (fun t => t.2.2.2.1) key,
        congrArg (fun t => t.2.2.2.2.1) key,
        congrArg (fun t => t.2.2.2.2.2) key⟩

theorem ok_common_of_SharedAsset [Zero F] [Sub F] (lib : Lib F) (sa : SharedAsset F) (itf : JSON F)
    (h : (SharedAsset.InterfaceToSharedAsset lib sa itf).status = .ok) :
    ∃ fmap c, itf = .obj fmap ∧ parseCommon lib fmap = .ok c
      ∧ (SharedAsset.InterfaceToSharedAsset lib sa itf).state.properties
          = some c.properties
      ∧ (SharedAsset.InterfaceToSharedAsset lib sa itf).state.labels
          = some c.labels
      ∧ (SharedAsset.InterfaceToSharedAsset lib sa itf).state.assetPricingModels
          = c.pricingModels
      ∧ (SharedAsset.InterfaceToSharedAsset lib sa itf).state.window
          = ({ start := some c.start, end_ := some c.end_ } : Window) := by
  cases h1 : assertMap itf with
  | error f =>
    simp only [SharedAsset.InterfaceToSharedAsset, h1] at h
    exact absurd h (toStatus_ne_ok f)
  | ok fmap =>
    have hi := assertMap_ok h1
    subst hi
    cases h2 : parseCommon lib fmap with
    | error f =>
      simp only [SharedAsset.InterfaceToSharedAsset, assertMap_obj, h2] at h
      exact absurd h (toStatus_ne_ok f)
    | ok c =>
      have key : SharedAsset.common (SharedAsset.InterfaceToSharedAsset lib sa (.obj fmap)).state
          = (some c.properties,
            some c.labels,
            c.pricingModels,
            ({ start := some c.start, end_ := some c.end_ } : Window)) := by
        simp only [SharedAsset.InterfaceToSharedAsset, assertMap_obj, h2]
        rw [andThen_frame SharedAsset.common _ _
            (fun s => setFloat64_frame SharedAsset.common _ _ s (by intros; rfl)),
          andThen_frame SharedAsset.common _ _
            (fun s => setFloat64_frame SharedAsset.common _ _ s (by intros; rfl)),
          andThen_frame SharedAsset.common _ _
            (fun s => setFloat64_frame SharedAsset.common _ _ s (by intros; rfl)),
          setFloat64_frame SharedAsset.common _ _ _ (by intros; rfl)]
        rfl
      exact ⟨fmap, c, rfl, h2,
        congrArg (fun t => t.1) key,
        congrArg (fun t => t.2.1) key,
        congrArg (fun t => t.2.2.1) key,
        congrArg (fun t => t.2.2.2) key⟩

theorem parsePricingModels_ok [Zero F] {fmap : List (String × JSON F)}
    {pm : Option (AssetPricingModels F)} (h : parsePricingModels fmap = .ok pm) :
    pm = pricingOf (index fmap "assetPricingModels")
      ∧ ((index fmap "assetPricingModels").isNull
          || (index fmap "assetPricingModels").isObj) = true := by
  unfold parsePricingModels at h
  cases hv : index fmap "assetPricingModels" <;>
    simp [hv, assertMap, pricingOf, JSON.isNull, JSON.isObj] at h ⊢ <;> exact h.symm

theorem parseCommon_fields [Zero F] (lib : Lib F) (fmap : List (String × JSON F))
    (c : Common F) (h : parseCommon lib fmap = .ok c) :
    ∃ p l s e, index fmap "properties" = .obj p ∧ c.properties = toAssetProp p
      ∧ c.pricingModels = pricingOf (index fmap "assetPricingModels")
      ∧ ((index fmap "assetPricingModels").isNull
          || (index fmap "assetPricingModels").isObj) = true
      ∧ index fmap "labels" = .obj l ∧ labelsLoop l [] = .ok c.labels
      ∧ index fmap "start" = .str s ∧ lib.parseRFC3339 s = .ok c.start
      ∧ index fmap "end" = .str e ∧ lib.parseRFC3339 e = .ok c.end_ := by
  unfold parseCommon at h
  cases h1 : assertMap (index fmap "properties") <;> simp [h1] at h
  cases h2 : parsePricingModels fmap <;> simp [h2] at h
  cases h3 : parseLabels fmap <;> simp [h3] at h
  cases h4 : parseTime lib (index fmap "start") <;> simp [h4] at h
  cases h5 : parseTime lib (index fmap "end") <;> simp [h5] at h
  obtain ⟨l, hl, hll⟩ := parseLabels_ok h3
  obtain ⟨s, hs, hst⟩ := parseTime_ok h4
  obtain ⟨e, he, het⟩ := parseTime_ok h5
  obtain ⟨hpm, hshape⟩ := parsePricingModels_ok h2
  subst h
  exact ⟨_, l, s, e, assertMap_ok h1, rfl, hpm, hshape, hl, hll, hs, hst, he, het⟩

theorem setIfString_put (v : JSON F) (put : AssetProperties → String → AssetProperties)
    (get : AssetProperties → String) (s : AssetProperties) (hid : put s (get s) = s) :
    setIfString v put s = put s (stringOr v (get s)) := by
  cases v <;> simp [setIfString, asString, stringOr, hid]

theorem toAssetProp_chain (p : List (String × JSON F)) :
    toAssetProp p = (setIfString (index p "currency") (fun s x => { s with Currency := x })
      (setIfString (index p "pricingSource") (fun s x => { s with PricingSource := x })
      (setIfString (index p "region") (fun s x => { s with Region := x })
      (setIfString (index p "providerID") (fun s x => { s with ProviderID := x })
      (setIfString (index p "name") (fun s x => { s with Name := x })
      (setIfString (index p "cluster") (fun s x => { s with Cluster := x })
      (setIfString (index p "service") (fun s x => { s with Service := x })
      (setIfString (index p "project") (fun s x => { s with Project := x })
      (setIfString (index p "account") (fun s x => { s with Account := x })
      (setIfString (index p "provider") (fun s x => { s with Provider := x })
      (setIfString (index p "category") (fun s x => { s with Category := x })
      ({} : AssetProperties)))))))))))) := rfl

theorem toAssetProp_eq (p : List (String × JSON F)) :
    toAssetProp p =
      { Category := stringOr (index p "category") "",
        Provider := stringOr (index p "provider") "",
        Account := stringOr (index p "account") "",
        Project := stringOr (index p "project") "",
        Service := stringOr (index p "service") "",
        Cluster := stringOr (index p "cluster") "",
        Name := stringOr (index p "name") "",
        ProviderID := stringOr (index p "providerID") "",
        Region := stringOr (index p "region") "",
        PricingSource := stringOr (index p "pricingSource") "",
        Currency := stringOr (index p "currency") "" } := by
  rw [toAssetProp_chain]
  rw [setIfString_put (index p "category") _ (fun s => s.Category) _ rfl]
  dsimp only
  rw [setIfString_put (index p "provider") _ (fun s => s.Provider) _ rfl]
  dsimp only
  rw [setIfString_put (index p "account") _ (fun s => s.Account) _ rfl]
  dsimp only
  rw [setIfString_put (index p "project") _ (fun s => s.Project) _ rfl]
  dsimp only
  rw [setIfString_put (index p "service") _ (fun s => s.Service) _ rfl]
  dsimp only
  rw [setIfString_put (index p "cluster") _ (fun s => s.Cluster) _ rfl]
  dsimp only
  rw [setIfString_put (index p "name") _ (fun s => s.Name) _ rfl]
  dsimp only
  rw [setIfString_put (index p "providerID") _ (fun s => s.ProviderID) _ rfl]
  dsimp only
  rw [setIfString_put (index p "region") _ (fun s => s.Region) _ rfl]
  dsimp only
  rw [setIfString_put (index p "pricingSource") _ (fun s => s.PricingSource) _ rfl]
  dsimp only
  rw [setIfString_put (index p "currency") _ (fun s => s.Currency) _ rfl]

theorem parsePricingModels_of_shape [Zero F] (fmap : List (String × JSON F))
    (h : ((index fmap "assetPricingModels").isNull
      || (index fmap "assetPricingModels").isObj) = true) :
    parsePricingModels fmap = .ok (pricingOf (index fmap "assetPricingModels")) := by
  unfold parsePricingModels
  cases hv : index fmap "assetPricingModels" <;>
    simp [hv, JSON.isNull, JSON.isObj] at h <;> simp [assertMap, pricingOf]

theorem parseLabels_of_shape (fmap : List (String × JSON F))
    (h : isStringMap (index fmap "labels") = true) : ∃ ls, parseLabels fmap = .ok ls := by
  obtain ⟨l, hl, hall⟩ := isStringMap_elim h
  obtain ⟨ls, hls⟩ := labelsLoop_ok l [] hall
  exact ⟨ls, by simp [parseLabels, hl, assertMap, hls]⟩

theorem parseCommon_time_error [Zero F] (lib : Lib F) (fmap : List (String × JSON F))
    (err : Error) (hs : validUpToTime fmap = true)
    (he : timestampError lib fmap = some err) :
    parseCommon lib fmap = .error (.error err) := by
  simp only [validUpToTime, Bool.and_eq_true] at hs
  obtain ⟨⟨hp, hm⟩, hl⟩ := hs
  obtain ⟨p, hp⟩ := isObj_elim hp
  obtain ⟨ls, hls⟩ := parseLabels_of_shape fmap hl
  have hpm := parsePricingModels_of_shape fmap hm
  unfold timestampError at he
  simp only [parseCommon, hp, assertMap, hpm, hls, parseTime]
  cases h1 : index fmap "start" <;> simp only [h1] at he <;> try exact absurd he (by simp)
  rename_i s
  cases h2 : lib.parseRFC3339 s with
  | error e =>
    simp only [h2, Option.some.injEq] at he
    simp [assertString, h2, he]
  | ok t =>
    simp only [h2] at he
    cases h3 : index fmap "end" <;> simp only [h3] at he <;> try exact absurd he (by simp)
    rename_i e
    cases h4 : lib.parseRFC3339 e with
    | error e' =>
      simp only [h4, Option.some.injEq] at he
      simp [assertString, h2, h4, he]
    | ok t' => simp [h4] at he

theorem decodeEntry_of_parseCommon_error [Zero F] [Sub F] (lib : Lib F) (raw : RawMessage)
    (fmap : List (String × JSON F)) (f : Fail) (hraw : lib.unmarshal raw = .ok (.obj fmap))
    (hpc : parseCommon lib fmap = .error f) : decodeEntry lib (some raw) = .error f := by
  simp only [decodeEntry, hraw, assertMap]
  split <;>
    simp only [Cloud.InterfaceToCloud, ClusterManagement.InterfaceToClusterManagement,
      Disk.InterfaceToDisk, Network.InterfaceToNetwork, Node.InterfaceToNode,
      LoadBalancer.InterfaceToLoadBalancer, SharedAsset.InterfaceToSharedAsset,
      Any.InterfaceToAny, assertMap, hpc, boxed] <;>
    cases f <;> rfl

theorem decodeLoop_first_error [Zero F] [Sub F] (lib : Lib F)
    (pre post : GoMap (Option RawMessage)) (key : String) (raw : Option RawMessage)
    (acc : GoMap (Asset F)) (f : Fail)
    (hpre : ∀ e ∈ pre, isOk (decodeEntry lib e.2) = true)
    (hraw : decodeEntry lib raw = .error f) :
    decodeLoop lib (pre ++ (key, raw) :: post) acc = .error f := by
  obtain ⟨acc1, h1⟩ := decodeLoop_ok_of_all lib pre acc hpre
  rw [decodeLoop_append, h1]
  simp only [decodeLoop, hraw]

theorem rangeLoop_first_error [Zero F] [Sub F] (lib : Lib F)
    (bpre bpost : List (GoMap (Option RawMessage))) (bucket : GoMap (Option RawMessage))
    (acc : List (AssetSetResponse F)) (e : Error)
    (hpre : ∀ m ∈ bpre, (AssetSetResponse.RawMessageToAssetSetResponse lib
      (AssetSetResponse.zero F) m).status = .ok)
    (hb : (AssetSetResponse.RawMessageToAssetSetResponse lib
      (AssetSetResponse.zero F) bucket).status = .error e) :
    rangeLoop lib (bpre ++ bucket :: bpost) acc = .error (.error e) := by
  induction bpre generalizing acc with
  | nil => simp only [List.nil_append, rangeLoop, hb]
  | cons m rest ih =>
    have hm := hpre m (List.mem_cons_self _ _)
    simp only [List.cons_append, rangeLoop, hm]
    exact ih _ (fun m' hm' => hpre m' (List.mem_cons_of_mem _ hm'))

theorem decoded_of_valid_Any [Zero F] [Sub F] (lib : Lib F) (fmap : List (String × JSON F))
    (h : validGeneric lib fmap = true) (a : Any F) :
    ∃ c, parseCommon lib fmap = .ok c
      ∧ Any.InterfaceToAny lib a (.obj fmap) = ⟨Any.decoded a c fmap, .ok⟩ := by
  simp only [validGeneric, Bool.and_eq_true] at h
  obtain ⟨c, hc⟩ := parseCommon_of_valid lib fmap h.1
  exact ⟨c, hc, Any.InterfaceToAny_ok lib a fmap c hc h.2⟩

theorem decoded_of_valid_ClusterManagement [Zero F] [Sub F] (lib : Lib F)
    (fmap : List (String × JSON F)) (h : validGeneric lib fmap = true) (a : ClusterManagement F) :
    ∃ c, parseCommon lib fmap = .ok c
      ∧ ClusterManagement.InterfaceToClusterManagement lib a (.obj fmap) = ⟨ClusterManagement.decoded a c fmap, .ok⟩ := by
  simp only [validGeneric, Bool.and_eq_true] at h
  obtain ⟨c, hc⟩ := parseCommon_of_valid lib fmap h.1
  exact ⟨c, hc, ClusterManagement.InterfaceToClusterManagement_ok lib a fmap c hc h.2⟩

theorem decoded_of_valid_Network [Zero F] [Sub F] (lib : Lib F)
    (fmap : List (String × JSON F)) (h : validGeneric lib fmap = true) (a : Network F) :
    ∃ c, parseCommon lib fmap = .ok c
      ∧ Network.InterfaceToNetwork lib a (.obj fmap) = ⟨Network.decoded a c fmap, .ok⟩ := by
  simp only [validGeneric, Bool.and_eq_true] at h
  obtain ⟨c, hc⟩ := parseCommon_of_valid lib fmap h.1
  exact ⟨c, hc, Network.InterfaceToNetwork_ok lib a fmap c hc h.2⟩

theorem decoded_of_valid_LoadBalancer [Zero F] [Sub F] (lib : Lib F)
    (fmap : List (String × JSON F)) (h : validGeneric lib fmap = true) (a : LoadBalancer F) :
    ∃ c, parseCommon lib fmap = .ok c
      ∧ LoadBalancer.InterfaceToLoadBalancer lib a (.obj fmap) = ⟨LoadBalancer.decoded a c fmap, .ok⟩ := by
  simp only [validGeneric, Bool.and_eq_true] at h
  obtain ⟨c, hc⟩ := parseCommon_of_valid lib fmap h.1
  exact ⟨c, hc, LoadBalancer.InterfaceToLoadBalancer_ok lib a fmap c hc h.2⟩

theorem decoded_of_valid_SharedAsset [Zero F] [Sub F] (lib : Lib F)
    (fmap : List (String × JSON F)) (h : validGeneric lib fmap = true) (a : SharedAsset F) :
    ∃ c, parseCommon lib fmap = .ok c
      ∧ SharedAsset.InterfaceToSharedAsset lib a (.obj fmap) = ⟨SharedAsset.decoded a c fmap, .ok⟩ := by
  simp only [validGeneric, Bool.and_eq_true] at h
  obtain ⟨c, hc⟩ := parseCommon_of_valid lib fmap h.1
  exact ⟨c, hc, SharedAsset.InterfaceToSharedAsset_ok lib a fmap c hc h.2⟩

theorem decoded_of_valid_Cloud [Zero F] [Sub F] (lib : Lib F) (fmap : List (String × JSON F))
    (h : validCloud lib fmap = true) (ca : Cloud F) :
    ∃ c, parseCommon lib fmap = .ok c
      ∧ Cloud.InterfaceToCloud lib ca (.obj fmap) = ⟨Cloud.decoded ca c fmap, .ok⟩ := by
  simp only [validCloud, Bool.and_eq_true] at h
  obtain ⟨c, hc⟩ := parseCommon_of_valid lib fmap h.1.1
  exact ⟨c, hc, Cloud.InterfaceToCloud_ok lib ca fmap c hc h.1.2 h.2⟩

theorem decoded_of_valid_Disk [Zero F] [Sub F] (lib : Lib F) (fmap : List (String × JSON F))
    (h : validDisk lib fmap = true) (d : Disk F) :
    ∃ c fb, parseCommon lib fmap = .ok c ∧ index fmap "breakdown" = .obj fb
      ∧ Disk.InterfaceToDisk lib d (.obj fmap) = ⟨Disk.decoded d c fmap fb, .ok⟩ := by
  simp only [validDisk, Bool.and_eq_true] at h
  obtain ⟨c, hc⟩ := parseCommon_of_valid lib fmap h.1.1.1
  obtain ⟨fb, hfb⟩ := isObj_elim h.1.1.2
  exact ⟨c, fb, hc, hfb, Disk.InterfaceToDisk_ok lib d fmap c fb hc hfb h.1.2 h.2⟩

theorem decoded_of_valid_Node [Zero F] (lib : Lib F) (fmap : List (String × JSON F))
    (h : validNode lib fmap = true) (n : Node F) :
    ∃ c fc fr, parseCommon lib fmap = .ok c ∧ index fmap "cpuBreakdown" = .obj fc
      ∧ index fmap "ramBreakdown" = .obj fr
      ∧ Node.InterfaceToNode lib n (.obj fmap) = ⟨Node.decoded n c fmap fc fr, .ok⟩ := by
  simp only [validNode, Bool.and_eq_true] at h
  obtain ⟨c, hc⟩ := parseCommon_of_valid lib fmap h.1.1.1.1
  obtain ⟨fc, hfc⟩ := isObj_elim h.1.1.1.2
  obtain ⟨fr, hfr⟩ := isObj_elim h.1.1.2
  exact ⟨c, fc, fr, hc, hfc, hfr, Node.InterfaceToNode_ok lib n fmap c fc fr hc hfc hfr h.1.2 h.2⟩


theorem pricingOf_obj [Zero F] (m : List (String × JSON F)) :
    pricingOf (.obj m) = some
      { Preemptible := floatOr (index m "preemptible") 0,
        ReservedInstance := floatOr (index m "reservedInstance") 0,
        SavingsPlan := floatOr (index m "savingsPlan") 0 } := by
  simp only [pricingOf, toAssetPricingModels]
  generalize index m "preemptible" = v1
  generalize index m "reservedInstance" = v2
  generalize index m "savingsPlan" = v3
  cases v1 <;> cases v2 <;> cases v3 <;> rfl

theorem parseCommon_pricing [Zero F] (lib : Lib F) (fmap : List (String × JSON F))
    (c : Common F) (h : parseCommon lib fmap = .ok c) :
    c.pricingModels = pricingOf (index fmap "assetPricingModels") := by
  obtain ⟨_, _, _, _, _, _, hpm, _⟩ := parseCommon_fields lib fmap c h
  exact hpm

theorem parseCommon_error_of_pricing [Zero F] (lib : Lib F) (fmap : List (String × JSON F))
    (hn : (index fmap "assetPricingModels").isNull = false)
    (ho : (index fmap "assetPricingModels").isObj = false) :
    parseCommon lib fmap = .error (.panic .interfaceConversion) := by
  have hpm : parsePricingModels fmap = .error (.panic .interfaceConversion) := by
    unfold parsePricingModels
    cases hv : index fmap "assetPricingModels" <;>
      simp [hv, JSON.isNull, JSON.isObj] at hn ho <;> rfl
  unfold parseCommon
  cases hp : index fmap "properties" <;> simp [assertMap, hpm]

theorem decoders_fail_of_parseCommon_error [Zero F] [Sub F] (lib : Lib F)
    (fmap : List (String × JSON F)) (f : Fail) (hpc : parseCommon lib fmap = .error f) :
    (∀ a, Any.InterfaceToAny lib a (.obj fmap) = ⟨a, f.toStatus⟩)
    ∧ (∀ ca, Cloud.InterfaceToCloud lib ca (.obj fmap) = ⟨ca, f.toStatus⟩)
    ∧ (∀ cm, ClusterManagement.InterfaceToClusterManagement lib cm (.obj fmap)
        = ⟨cm, f.toStatus⟩)
    ∧ (∀ d, Disk.InterfaceToDisk lib d (.obj fmap) = ⟨d, f.toStatus⟩)
    ∧ (∀ n, Network.InterfaceToNetwork lib n (.obj fmap) = ⟨n, f.toStatus⟩)
    ∧ (∀ n, Node.InterfaceToNode lib n (.obj fmap) = ⟨n, f.toStatus⟩)
    ∧ (∀ lb, LoadBalancer.InterfaceToLoadBalancer lib lb (.obj fmap) = ⟨lb, f.toStatus⟩)
    ∧ (∀ sa, SharedAsset.InterfaceToSharedAsset lib sa (.obj fmap) = ⟨sa, f.toStatus⟩) := by
  refine ⟨?_, ?_, ?_, ?_, ?_, ?_, ?_, ?_⟩
  · intro a; simp only [Any.InterfaceToAny, assertMap_obj, hpc]
  · intro a; simp only [Cloud.InterfaceToCloud, assertMap_obj, hpc]
  · intro a; simp only [ClusterManagement.InterfaceToClusterManagement, assertMap_obj, hpc]
  · intro a; simp only [Disk.InterfaceToDisk, assertMap_obj, hpc]
  · intro a; simp only [Network.InterfaceToNetwork, assertMap_obj, hpc]
  · intro a; simp only [Node.InterfaceToNode, assertMap_obj, hpc]
  · intro a; simp only [LoadBalancer.InterfaceToLoadBalancer, assertMap_obj, hpc]
  · intro a; simp only [SharedAsset.InterfaceToSharedAsset, assertMap_obj, hpc]

theorem assertMap_error {v : JSON F} {f : Fail} (h : assertMap v = .error f) :
    f = .panic .interfaceConversion := by
  cases v <;> simp [assertMap] at h <;> exact h.symm

theorem setFloat64_okOrPanic {σ : Type} (v : JSON F) (assign : σ → F → σ) (s : σ) :
    okOrPanic (setFloat64 v assign s).status := setFloat64_status v assign s

theorem setString_okOrPanic {σ : Type} (v : JSON F) (assign : σ → String → σ) (s : σ) :
    okOrPanic (setString v assign s).status := setString_status v assign s

theorem andThen_okOrPanic {σ : Type} (r : Result σ) (f : σ → Result σ)
    (hr : okOrPanic r.status) (hf : ∀ s, okOrPanic (f s).status) :
    okOrPanic (r.andThen f).status := by
  unfold Result.andThen
  rcases hr with h | h
  · simp only [h]; exact hf _
  · simp only [h]; exact Or.inr rfl

theorem andThen_panic_of_step {σ : Type} (r : Result σ) (f : σ → Result σ)
    (hr : okOrPanic r.status) (hf : ∀ s, (f s).status = .panic .interfaceConversion) :
    (r.andThen f).status = .panic .interfaceConversion := by
  unfold Result.andThen
  rcases hr with h | h
  · simp only [h]; exact hf _
  · simp only [h]

theorem andThen_panic_keep {σ : Type} (r : Result σ) (f : σ → Result σ)
    (hr : r.status = .panic .interfaceConversion) :
    (r.andThen f).status = .panic .interfaceConversion := by
  unfold Result.andThen
  simp only [hr]

theorem setFloat64_panic_of_isStr {σ : Type} (v : JSON F) (assign : σ → F → σ) (s : σ)
    (h : v.isStr = true) : (setFloat64 v assign s).status = .panic .interfaceConversion := by
  cases v <;> simp [JSON.isStr] at h
  rfl

theorem setString_panic_of_isNum {σ : Type} (v : JSON F) (assign : σ → String → σ) (s : σ)
    (h : v.isNum = true) : (setString v assign s).status = .panic .interfaceConversion := by
  cases v <;> simp [JSON.isNum] at h
  rfl

theorem disk_fails_of_breakdown [Zero F] [Sub F] (lib : Lib F) (fmap : List (String × JSON F))
    (h : (index fmap "breakdown").isObj = false) (d : Disk F) :
    (Disk.InterfaceToDisk lib d (.obj fmap)).status ≠ .ok := by
  simp only [Disk.InterfaceToDisk, assertMap_obj]
  cases hc : parseCommon lib fmap with
  | error f => exact toStatus_ne_ok f
  | ok c =>
    simp only [assertMap_of_not_obj h]
    exact toStatus_ne_ok _

theorem node_fails_of_breakdown [Zero F] (lib : Lib F) (fmap : List (String × JSON F))
    (h : (index fmap "cpuBreakdown").isObj = false ∨ (index fmap "ramBreakdown").isObj = false)
    (n : Node F) : (Node.InterfaceToNode lib n (.obj fmap)).status ≠ .ok := by
  simp only [Node.InterfaceToNode, assertMap_obj]
  cases hc : parseCommon lib fmap with
  | error f => exact toStatus_ne_ok f
  | ok c =>
    cases h1 : assertMap (index fmap "cpuBreakdown") with
    | error f => exact toStatus_ne_ok f
    | ok fc =>
      rcases h with h | h
      · rw [assertMap_ok h1] at h
        simp [JSON.isObj] at h
      · simp only [assertMap_of_not_obj h]
        exact toStatus_ne_ok _

theorem panic_of_Cloud_usageType [Zero F] [Sub F] (lib : Lib F) (fmap : List (String × JSON F))
    (c : Common F) (hc : parseCommon lib fmap = .ok c)
    (h : (index fmap "usageType").isNum = true) (ca : Cloud F) :
    (Cloud.InterfaceToCloud lib ca (.obj fmap)).status = .panic .interfaceConversion := by
  simp only [Cloud.InterfaceToCloud, assertMap_obj, hc]
  apply andThen_panic_keep
  apply andThen_panic_keep
  apply andThen_panic_keep
  apply andThen_panic_keep
  apply andThen_panic_keep
  exact setString_panic_of_isNum _ _ _ h

theorem panic_of_Cloud_usageDetail [Zero F] [Sub F] (lib : Lib F) (fmap : List (String × JSON F))
    (c : Common F) (hc : parseCommon lib fmap = .ok c)
    (h : (index fmap "usageDetail").isNum = true) (ca : Cloud F) :
    (Cloud.InterfaceToCloud lib ca (.obj fmap)).status = .panic .interfaceConversion := by
  simp only [Cloud.InterfaceToCloud, assertMap_obj, hc]
  apply andThen_panic_keep
  apply andThen_panic_keep
  apply andThen_panic_keep
  apply andThen_panic_keep
  apply andThen_panic_of_step _ _ ?_ (fun s => setString_panic_of_isNum _ _ s h)
  exact setString_okOrPanic _ _ _

theorem panic_of_Disk_storageClass [Zero F] [Sub F] (lib : Lib F) (fmap : List (String × JSON F))
    (c : Common F) (hc : parseCommon lib fmap = .ok c)
    (h : (index fmap "storageClass").isNum = true) (d : Disk F) :
    (Disk.InterfaceToDisk lib d (.obj fmap)).status = .panic .interfaceConversion := by
  simp only [Disk.InterfaceToDisk, assertMap_obj, hc]
  cases hb0 : assertMap (index fmap "breakdown") with
  | error f => rw [assertMap_error hb0]; rfl
  | ok fb0 =>
    simp only []
    apply andThen_panic_keep
    apply andThen_panic_keep
    apply andThen_panic_keep
    apply andThen_panic_keep
    apply andThen_panic_keep
    exact setString_panic_of_isNum _ _ _ h

theorem panic_of_Disk_byteHours [Zero F] [Sub F] (lib : Lib F) (fmap : List (String × JSON F))
    (c : Common F) (hc : parseCommon lib fmap = .ok c)
    (h : (index fmap "byteHours").isStr = true) (d : Disk F) :
    (Disk.InterfaceToDisk lib d (.obj fmap)).status = .panic .interfaceConversion := by
  simp only [Disk.InterfaceToDisk, assertMap_obj, hc]
  cases hb0 : assertMap (index fmap "breakdown") with
  | error f => rw [assertMap_error hb0]; rfl
  | ok fb0 =>
    simp only []
    apply andThen_panic_of_step _ _ ?_ (fun s => setFloat64_panic_of_isStr _ _ s h)
    apply andThen_okOrPanic _ _ ?_ (fun s => setFloat64_okOrPanic _ _ s)
    apply andThen_okOrPanic _ _ ?_ (fun s => setFloat64_okOrPanic _ _ s)
    apply andThen_okOrPanic _ _ ?_ (fun s => setFloat64_okOrPanic _ _ s)
    apply andThen_okOrPanic _ _ ?_ (fun s => setFloat64_okOrPanic _ _ s)
    exact setString_okOrPanic _ _ _

theorem panic_of_Node_nodeType [Zero F] (lib : Lib F) (fmap : List (String × JSON F))
    (c : Common F) (hc : parseCommon lib fmap = .ok c)
    (h : (index fmap "nodeType").isNum = true) (n : Node F) :
    (Node.InterfaceToNode lib n (.obj fmap)).status = .panic .interfaceConversion := by
  simp only [Node.InterfaceToNode, assertMap_obj, hc]
  cases hb0 : assertMap (index fmap "cpuBreakdown") with
  | error f => rw [assertMap_error hb0]; rfl
  | ok fb0 =>
    cases hb1 : assertMap (index fmap "ramBreakdown") with
    | error f => rw [assertMap_error hb1]; rfl
    | ok fb1 =>
      simp only []
      apply andThen_panic_keep
      apply andThen_panic_keep
      apply andThen_panic_keep
      apply andThen_panic_keep
      apply andThen_panic_keep
      apply andThen_panic_keep
      apply andThen_panic_keep
      apply andThen_panic_of_step _ _ ?_ (fun s => setString_panic_of_isNum _ _ s h)
      apply andThen_okOrPanic _ _ ?_ (fun s => setFloat64_okOrPanic _ _ s)
      apply andThen_okOrPanic _ _ ?_ (fun s => setFloat64_okOrPanic _ _ s)
      exact setFloat64_okOrPanic _ _ _

theorem panic_of_Node_cpuCoreHours [Zero F] (lib : Lib F) (fmap : List (String × JSON F))
    (c : Common F) (hc : parseCommon lib fmap = .ok c)
    (h : (index fmap "cpuCoreHours").isStr = true) (n : Node F) :
    (Node.InterfaceToNode lib n (.obj fmap)).status = .panic .interfaceConversion := by
  simp only [Node.InterfaceToNode, assertMap_obj, hc]
  cases hb0 : assertMap (index fmap "cpuBreakdown") with
  | error f => rw [assertMap_error hb0]; rfl
  | ok fb0 =>
    cases hb1 : assertMap (index fmap "ramBreakdown") with
    | error f => rw [assertMap_error hb1]; rfl
    | ok fb1 =>
      simp only []
      apply andThen_panic_keep
      apply andThen_panic_keep
      apply andThen_panic_keep
      apply andThen_panic_keep
      apply andThen_panic_keep
      apply andThen_panic_keep
      apply andThen_panic_of_step _ _ ?_ (fun s => setFloat64_panic_of_isStr _ _ s h)
      apply andThen_okOrPanic _ _ ?_ (fun s => setString_okOrPanic _ _ s)
      apply andThen_okOrPanic _ _ ?_ (fun s => setFloat64_okOrPanic _ _ s)
      apply andThen_okOrPanic _ _ ?_ (fun s => setFloat64_okOrPanic _ _ s)
      exact setFloat64_okOrPanic _ _ _

theorem panic_of_Node_ramByteHours [Zero F] (lib : Lib F) (fmap : List (String × JSON F))
    (c : Common F) (hc : parseCommon lib fmap = .ok c)
    (h : (index fmap "ramByteHours").isStr = true) (n : Node F) :
    (Node.InterfaceToNode lib n (.obj fmap)).status = .panic .interfaceConversion := by
  simp only [Node.InterfaceToNode, assertMap_obj, hc]
  cases hb0 : assertMap (index fmap "cpuBreakdown") with
  | error f => rw [assertMap_error hb0]; rfl
  | ok fb0 =>
    cases hb1 : assertMap (index fmap "ramBreakdown") with
    | error f => rw [assertMap_error hb1]; rfl
    | ok fb1 =>
      simp only []
      apply andThen_panic_keep
      apply andThen_panic_keep
      apply andThen_panic_keep
      apply andThen_panic_keep
      apply andThen_panic_keep
      apply andThen_panic_of_step _ _ ?_ (fun s => setFloat64_panic_of_isStr _ _ s h)
      apply andThen_okOrPanic _ _ ?_ (fun s => setFloat64_okOrPanic _ _ s)
      apply andThen_okOrPanic _ _ ?_ (fun s => setString_okOrPanic _ _ s)
      apply andThen_okOrPanic _ _ ?_ (fun s => setFloat64_okOrPanic _ _ s)
      apply andThen_okOrPanic _ _ ?_ (fun s => setFloat64_okOrPanic _ _ s)
      exact setFloat64_okOrPanic _ _ _

theorem panic_of_Node_GPUHours [Zero F] (lib : Lib F) (fmap : List (String × JSON F))
    (c : Common F) (hc : parseCommon lib fmap = .ok c)
    (h : (index fmap "GPUHours").isStr = true) (n : Node F) :
    (Node.InterfaceToNode lib n (.obj fmap)).status = .panic .interfaceConversion := by
  simp only [Node.InterfaceToNode, assertMap_obj, hc]
  cases hb0 : assertMap (index fmap "cpuBreakdown") with
  | error f => rw [assertMap_error hb0]; rfl
  | ok fb0 =>
    cases hb1 : assertMap (index fmap "ramBreakdown") with
    | error f => rw [assertMap_error hb1]; rfl
    | ok fb1 =>
      simp only []
      apply andThen_panic_keep
      apply andThen_panic_keep
      apply andThen_panic_keep
      apply andThen_panic_keep
      apply andThen_panic_of_step _ _ ?_ (fun s => setFloat64_panic_of_isStr _ _ s h)
      apply andThen_okOrPanic _ _ ?_ (fun s => setFloat64_okOrPanic _ _ s)
      apply andThen_okOrPanic _ _ ?_ (fun s => setFloat64_okOrPanic _ _ s)
      apply andThen_okOrPanic _ _ ?_ (fun s => setString_okOrPanic _ _ s)
      apply andThen_okOrPanic _ _ ?_ (fun s => setFloat64_okOrPanic _ _ s)
      apply andThen_okOrPanic _ _ ?_ (fun s => setFloat64_okOrPanic _ _ s)
      exact setFloat64_okOrPanic _ _ _

theorem panic_of_Node_cpuCost [Zero F] (lib : Lib F) (fmap : List (String × JSON F))
    (c : Common F) (hc : parseCommon lib fmap = .ok c)
    (h : (index fmap "cpuCost").isStr = true) (n : Node F) :
    (Node.InterfaceToNode lib n (.obj fmap)).status = .panic .interfaceConversion := by
  simp only [Node.InterfaceToNode, assertMap_obj, hc]
  cases hb0 : assertMap (index fmap "cpuBreakdown") with
  | error f => rw [assertMap_error hb0]; rfl
  | ok fb0 =>
    cases hb1 : assertMap (index fmap "ramBreakdown") with
    | error f => rw [assertMap_error hb1]; rfl
    | ok fb1 =>
      simp only []
      apply andThen_panic_keep
      apply andThen_panic_keep
      apply andThen_panic_keep
      apply andThen_panic_of_step _ _ ?_ (fun s => setFloat64_panic_of_isStr _ _ s h)
      apply andThen_okOrPanic _ _ ?_ (fun s => setFloat64_okOrPanic _ _ s)
      apply andThen_okOrPanic _ _ ?_ (fun s => setFloat64_okOrPanic _ _ s)
      apply andThen_okOrPanic _ _ ?_ (fun s => setFloat64_okOrPanic _ _ s)
      apply andThen_okOrPanic _ _ ?_ (fun s => setString_okOrPanic _ _ s)
      apply andThen_okOrPanic _ _ ?_ (fun s => setFloat64_okOrPanic _ _ s)
      apply andThen_okOrPanic _ _ ?_ (fun s => setFloat64_okOrPanic _ _ s)
      exact setFloat64_okOrPanic _ _ _

theorem panic_of_Node_gpuCost [Zero F] (lib : Lib F) (fmap : List (String × JSON F))
    (c : Common F) (hc : parseCommon lib fmap = .ok c)
    (h : (index fmap "gpuCost").isStr = true) (n : Node F) :
    (Node.InterfaceToNode lib n (.obj fmap)).status = .panic .interfaceConversion := by
  simp only [Node.InterfaceToNode, assertMap_obj, hc]
  cases hb0 : assertMap (index fmap "cpuBreakdown") with
  | error f => rw [assertMap_error hb0]; rfl
  | ok fb0 =>
    cases hb1 : assertMap (index fmap "ramBreakdown") with
    | error f => rw [assertMap_error hb1]; rfl
    | ok fb1 =>
      simp only []
      apply andThen_panic_keep
      apply andThen_panic_keep
      apply andThen_panic_of_step _ _ ?_ (fun s => setFloat64_panic_of_isStr _ _ s h)
      apply andThen_okOrPanic _ _ ?_ (fun s => setFloat64_okOrPanic _ _ s)
      apply andThen_okOrPanic _ _ ?_ (fun s => setFloat64_okOrPanic _ _ s)
      apply andThen_okOrPanic _ _ ?_ (fun s => setFloat64_okOrPanic _ _ s)
      apply andThen_okOrPanic _ _ ?_ (fun s => setFloat64_okOrPanic _ _ s)
      apply andThen_okOrPanic _ _ ?_ (fun s => setString_okOrPanic _ _ s)
      apply andThen_okOrPanic _ _ ?_ (fun s => setFloat64_okOrPanic _ _ s)
      apply andThen_okOrPanic _ _ ?_ (fun s => setFloat64_okOrPanic _ _ s)
      exact setFloat64_okOrPanic _ _ _

theorem panic_of_Node_gpuCount [Zero F] (lib : Lib F) (fmap : List (String × JSON F))
    (c : Common F) (hc : parseCommon lib fmap = .ok c)
    (h : (index fmap "gpuCount").isStr = true) (n : Node F) :
    (Node.InterfaceToNode lib n (.obj fmap)).status = .panic .interfaceConversion := by
  simp only [Node.InterfaceToNode, assertMap_obj, hc]
  cases hb0 : assertMap (index fmap "cpuBreakdown") with
  | error f => rw [assertMap_error hb0]; rfl
  | ok fb0 =>
    cases hb1 : assertMap (index fmap "ramBreakdown") with
    | error f => rw [assertMap_error hb1]; rfl
    | ok fb1 =>
      simp only []
      apply andThen_panic_keep
      apply andThen_panic_of_step _ _ ?_ (fun s => setFloat64_panic_of_isStr _ _ s h)
      apply andThen_okOrPanic _ _ ?_ (fun s => setFloat64_okOrPanic _ _ s)
      apply andThen_okOrPanic _ _ ?_ (fun s => setFloat64_okOrPanic _ _ s)
      apply andThen_okOrPanic _ _ ?_ (fun s => setFloat64_okOrPanic _ _ s)
      apply andThen_okOrPanic _ _ ?_ (fun s => setFloat64_okOrPanic _ _ s)
      apply andThen_okOrPanic _ _ ?_ (fun s => setFloat64_okOrPanic _ _ s)
      apply andThen_okOrPanic _ _ ?_ (fun s => setString_okOrPanic _ _ s)
      apply andThen_okOrPanic _ _ ?_ (fun s => setFloat64_okOrPanic _ _ s)
      apply andThen_okOrPanic _ _ ?_ (fun s => setFloat64_okOrPanic _ _ s)
      exact setFloat64_okOrPanic _ _ _

theorem panic_of_Node_ramCost [Zero F] (lib : Lib F) (fmap : List (String × JSON F))
    (c : Common F) (hc : parseCommon lib fmap = .ok c)
    (h : (index fmap "ramCost").isStr = true) (n : Node F) :
    (Node.InterfaceToNode lib n (.obj fmap)).status = .panic .interfaceConversion := by
  simp only [Node.InterfaceToNode, assertMap_obj, hc]
  cases hb0 : assertMap (index fmap "cpuBreakdown") with
  | error f => rw [assertMap_error hb0]; rfl
  | ok fb0 =>
    cases hb1 : assertMap (index fmap "ramBreakdown") with
    | error f => rw [assertMap_error hb1]; rfl
    | ok fb1 =>
      simp only []
      apply andThen_panic_of_step _ _ ?_ (fun s => setFloat64_panic_of_isStr _ _ s h)
      apply andThen_okOrPanic _ _ ?_ (fun s => setFloat64_okOrPanic _ _ s)
      apply andThen_okOrPanic _ _ ?_ (fun s => setFloat64_okOrPanic _ _ s)
      apply andThen_okOrPanic _ _ ?_ (fun s => setFloat64_okOrPanic _ _ s)
      apply andThen_okOrPanic _ _ ?_ (fun s => setFloat64_okOrPanic _ _ s)
      apply andThen_okOrPanic _ _ ?_ (fun s => setFloat64_okOrPanic _ _ s)
      apply andThen_okOrPanic _ _ ?_ (fun s => setFloat64_okOrPanic _ _ s)
      apply andThen_okOrPanic _ _ ?_ (fun s => setString_okOrPanic _ _ s)
      apply andThen_okOrPanic _ _ ?_ (fun s => setFloat64_okOrPanic _ _ s)
      apply andThen_okOrPanic _ _ ?_ (fun s => setFloat64_okOrPanic _ _ s)
      exact setFloat64_okOrPanic _ _ _

theorem parseCommon_congr [Zero F] (lib : Lib F) (fmap fmap' : List (String × JSON F))
    (h : ∀ k ∈ commonKeys, index fmap k = index fmap' k) :
    parseCommon lib fmap = parseCommon lib fmap' := by
  have e1 := h "properties" (by simp [commonKeys])
  have e2 := h "assetPricingModels" (by simp [commonKeys])
  have e3 := h "labels" (by simp [commonKeys])
  have e4 := h "start" (by simp [commonKeys])
  have e5 := h "end" (by simp [commonKeys])
  simp only [parseCommon, parsePricingModels, parseLabels, e1, e2, e3, e4, e5]

theorem congr_of_readKeys_Any [Zero F] [Sub F] (lib : Lib F)
    (fmap fmap' : List (String × JSON F))
    (h : ∀ k ∈ readKeysGeneric, index fmap k = index fmap' k) (a : Any F) :
    Any.InterfaceToAny lib a (.obj fmap) = Any.InterfaceToAny lib a (.obj fmap') := by
  have hc := parseCommon_congr lib fmap fmap'
    (fun k hk => h k (by simp only [readKeysGeneric, List.mem_append]; exact Or.inl hk))
  have e0 := h "adjustment" (by simp [readKeysGeneric, commonKeys])
  have e1 := h "credit" (by simp [readKeysGeneric, commonKeys])
  have e2 := h "discount" (by simp [readKeysGeneric, commonKeys])
  have e3 := h "totalCost" (by simp [readKeysGeneric, commonKeys])
  simp only [Any.InterfaceToAny, assertMap_obj, hc, e0, e1, e2, e3]

theorem congr_of_readKeys_Cloud [Zero F] [Sub F] (lib : Lib F)
    (fmap fmap' : List (String × JSON F))
    (h : ∀ k ∈ readKeysCloud, index fmap k = index fmap' k) (ca : Cloud F) :
    Cloud.InterfaceToCloud lib ca (.obj fmap) = Cloud.InterfaceToCloud lib ca (.obj fmap') := by
  have hc := parseCommon_congr lib fmap fmap'
    (fun k hk => h k (by simp only [readKeysCloud, List.mem_append]; exact Or.inl hk))
  have e0 := h "usageType" (by simp [readKeysCloud, commonKeys])
  have e1 := h "usageDetail" (by simp [readKeysCloud, commonKeys])
  have e2 := h "adjustment" (by simp [readKeysCloud, commonKeys])
  have e3 := h "credit" (by simp [readKeysCloud, commonKeys])
  have e4 := h "discount" (by simp [readKeysCloud, commonKeys])
  have e5 := h "totalCost" (by simp [readKeysCloud, commonKeys])
  simp only [Cloud.InterfaceToCloud, assertMap_obj, hc, e0, e1, e2, e3, e4, e5]

theorem congr_of_readKeys_ClusterManagement [Zero F] [Sub F] (lib : Lib F)
    (fmap fmap' : List (String × JSON F))
    (h : ∀ k ∈ readKeysGeneric, index fmap k = index fmap' k) (cm : ClusterManagement F) :
    ClusterManagement.InterfaceToClusterManagement lib cm (.obj fmap) = ClusterManagement.InterfaceToClusterManagement lib cm (.obj fmap') := by
  have hc := parseCommon_congr lib fmap fmap'
    (fun k hk => h k (by simp only [readKeysGeneric, List.mem_append]; exact Or.inl hk))
  have e0 := h "adjustment" (by simp [readKeysGeneric, commonKeys])
  have e1 := h "credit" (by simp [readKeysGeneric, commonKeys])
  have e2 := h "discount" (by simp [readKeysGeneric, commonKeys])
  have e3 := h "totalCost" (by simp [readKeysGeneric, commonKeys])
  simp only [ClusterManagement.InterfaceToClusterManagement, assertMap_obj, hc, e0, e1, e2, e3]

theorem congr_of_readKeys_Disk [Zero F] [Sub F] (lib : Lib F)
    (fmap fmap' : List (String × JSON F))
    (h : ∀ k ∈ readKeysDisk, index fmap k = index fmap' k) (d : Disk F) :
    Disk.InterfaceToDisk lib d (.obj fmap) = Disk.InterfaceToDisk lib d (.obj fmap') := by
  have hc := parseCommon_congr lib fmap fmap'
    (fun k hk => h k (by simp only [readKeysDisk, List.mem_append]; exact Or.inl hk))
  have e0 := h "breakdown" (by simp [readKeysDisk, commonKeys])
  have e1 := h "storageClass" (by simp [readKeysDisk, commonKeys])
  have e2 := h "adjustment" (by simp [readKeysDisk, commonKeys])
  have e3 := h "credit" (by simp [readKeysDisk, commonKeys])
  have e4 := h "discount" (by simp [readKeysDisk, commonKeys])
  have e5 := h "totalCost" (by simp [readKeysDisk, commonKeys])
  have e6 := h "byteHours" (by simp [readKeysDisk, commonKeys])
  simp only [Disk.InterfaceToDisk, assertMap_obj, hc, e0, e1, e2, e3, e4, e5, e6]

theorem congr_of_readKeys_Network [Zero F] [Sub F] (lib : Lib F)
    (fmap fmap' : List (String × JSON F))
    (h : ∀ k ∈ readKeysGeneric, index fmap k = index fmap' k) (n : Network F) :
    Network.InterfaceToNetwork lib n (.obj fmap) = Network.InterfaceToNetwork lib n (.obj fmap') := by
  have hc := parseCommon_congr lib fmap fmap'
    (fun k hk => h k (by simp only [readKeysGeneric, List.mem_append]; exact Or.inl hk))
  have e0 := h "adjustment" (by simp [readKeysGeneric, commonKeys])
  have e1 := h "credit" (by simp [readKeysGeneric, commonKeys])
  have e2 := h "discount" (by simp [readKeysGeneric, commonKeys])
  have e3 := h "totalCost" (by simp [readKeysGeneric, commonKeys])
  simp only [Network.InterfaceToNetwork, assertMap_obj, hc, e0, e1, e2, e3]

theorem congr_of_readKeys_Node [Zero F] (lib : Lib F)
    (fmap fmap' : List (String × JSON F))
    (h : ∀ k ∈ readKeysNode, index fmap k = index fmap' k) (n : Node F) :
    Node.InterfaceToNode lib n (.obj fmap) = Node.InterfaceToNode lib n (.obj fmap') := by
  have hc := parseCommon_congr lib fmap fmap'
    (fun k hk => h k (by simp only [readKeysNode, List.mem_append]; exact Or.inl hk))
  have e0 := h "cpuBreakdown" (by simp [readKeysNode, commonKeys])
  have e1 := h "ramBreakdown" (by simp [readKeysNode, commonKeys])
  have e2 := h "adjustment" (by simp [readKeysNode, commonKeys])
  have e3 := h "credit" (by simp [readKeysNode, commonKeys])
  have e4 := h "discount" (by simp [readKeysNode, commonKeys])
  have e5 := h "nodeType" (by simp [readKeysNode, commonKeys])
  have e6 := h "cpuCoreHours" (by simp [readKeysNode, commonKeys])
  have e7 := h "ramByteHours" (by simp [readKeysNode, commonKeys])
  have e8 := h "GPUHours" (by simp [readKeysNode, commonKeys])
  have e9 := h "cpuCost" (by simp [readKeysNode, commonKeys])
  have e10 := h "gpuCost" (by simp [readKeysNode, commonKeys])
  have e11 := h "gpuCount" (by simp [readKeysNode, commonKeys])
  have e12 := h "ramCost" (by simp [readKeysNode, commonKeys])
  simp only [Node.InterfaceToNode, assertMap_obj, hc, e0, e1, e2, e3, e4, e5, e6, e7, e8, e9, e10, e11, e12]

theorem congr_of_readKeys_LoadBalancer [Zero F] [Sub F] (lib : Lib F)
    (fmap fmap' : List (String × JSON F))
    (h : ∀ k ∈ readKeysGeneric, index fmap k = index fmap' k) (lb : LoadBalancer F) :
    LoadBalancer.InterfaceToLoadBalancer lib lb (.obj fmap) = LoadBalancer.InterfaceToLoadBalancer lib lb (.obj fmap') := by
  have hc := parseCommon_congr lib fmap fmap'
    (fun k hk => h k (by simp only [readKeysGeneric, List.mem_append]; exact Or.inl hk))
  have e0 := h "adjustment" (by simp [readKeysGeneric, commonKeys])
  have e1 := h "credit" (by simp [readKeysGeneric, commonKeys])
  have e2 := h "discount" (by simp [readKeysGeneric, commonKeys])
  have e3 := h "totalCost" (by simp [readKeysGeneric, commonKeys])
  simp only [LoadBalancer.InterfaceToLoadBalancer, assertMap_obj, hc, e0, e1, e2, e3]

theorem congr_of_readKeys_SharedAsset [Zero F] [Sub F] (lib : Lib F)
    (fmap fmap' : List (String × JSON F))
    (h : ∀ k ∈ readKeysGeneric, index fmap k = index fmap' k) (sa : SharedAsset F) :
    SharedAsset.InterfaceToSharedAsset lib sa (.obj fmap) = SharedAsset.InterfaceToSharedAsset lib sa (.obj fmap') := by
  have hc := parseCommon_congr lib fmap fmap'
    (fun k hk => h k (by simp only [readKeysGeneric, List.mem_append]; exact Or.inl hk))
  have e0 := h "adjustment" (by simp [readKeysGeneric, commonKeys])
  have e1 := h "credit" (by simp [readKeysGeneric, commonKeys])
  have e2 := h "discount" (by simp [readKeysGeneric, commonKeys])
  have e3 := h "totalCost" (by simp [readKeysGeneric, commonKeys])
  simp only [SharedAsset.InterfaceToSharedAsset, assertMap_obj, hc, e0, e1, e2, e3]


theorem local_frame_of_Disk [Zero F] [Sub F] (lib : Lib F) (d : Disk F) (itf : JSON F) :
    (Disk.InterfaceToDisk lib d itf).state.Local = d.Local := by
  unfold Disk.InterfaceToDisk
  cases h1 : assertMap itf with
  | error f => rfl
  | ok fmap =>
    simp only []
    cases h2 : parseCommon lib fmap with
    | error f => rfl
    | ok c =>
      simp only []
      cases h3 : assertMap (index fmap "breakdown") with
      | error f => rfl
      | ok fb =>
        simp only []
        rw [andThen_frame (fun x : Disk F => x.Local) _ _
            (fun s => setFloat64_frame (fun x : Disk F => x.Local) _ _ s (by intros; rfl)),
          andThen_frame (fun x : Disk F => x.Local) _ _
            (fun s => setFloat64_frame (fun x : Disk F => x.Local) _ _ s (by intros; rfl)),
          andThen_frame (fun x : Disk F => x.Local) _ _
            (fun s => setFloat64_frame (fun x : Disk F => x.Local) _ _ s (by intros; rfl)),
          andThen_frame (fun x : Disk F => x.Local) _ _
            (fun s => setFloat64_frame (fun x : Disk F => x.Local) _ _ s (by intros; rfl)),
          andThen_frame (fun x : Disk F => x.Local) _ _
            (fun s => setFloat64_frame (fun x : Disk F => x.Local) _ _ s (by intros; rfl)),
          setString_frame (fun x : Disk F => x.Local) _ _ _ (by intros; rfl)]

theorem derived_not_read (ks : List String) (hks : ∀ k ∈ ks, k ∉ derivedKeys)
    (fmap fmap' : List (String × JSON F))
    (h : ∀ k, k ∉ derivedKeys → index fmap k = index fmap' k) :
    ∀ k ∈ ks, index fmap k = index fmap' k :=
  fun k hk => h k (hks k hk)

theorem index_of_not_mem (fmap : List (String × JSON F)) (k : String)
    (h : k ∉ GoMap.keys fmap) : index fmap k = .null := by
  induction fmap with
  | nil => rfl
  | cons kv rest ih =>
    obtain ⟨k', v⟩ := kv
    simp only [GoMap.keys, List.map_cons, List.mem_cons, not_or] at h
    rw [index_cons, if_neg h.1]
    exact ih h.2

theorem toBreakdown_eq [Zero F] (b : List (String × JSON F)) :
    toBreakdown b
      = { Idle := floatOr (index b "idle") 0, Other := floatOr (index b "other") 0,
          System := floatOr (index b "system") 0, User := floatOr (index b "user") 0 } := by
  simp only [toBreakdown]
  generalize index b "idle" = v1
  generalize index b "other" = v2
  generalize index b "system" = v3
  generalize index b "user" = v4
  cases v1 <;> cases v2 <;> cases v3 <;> cases v4 <;> rfl

theorem labelsLoop_all_str (l : List (String × JSON F)) (acc ls : GoMap String)
    (h : labelsLoop l acc = .ok ls) : ∀ kv ∈ l, kv.2.isStr = true := by
  induction l generalizing acc with
  | nil => intro kv hkv; cases hkv
  | cons e rest ih =>
    obtain ⟨k, v⟩ := e
    cases v <;> simp only [labelsLoop, assertString] at h <;> try exact absurd h (by simp)
    intro kv hkv
    rcases List.mem_cons.mp hkv with rfl | hmem
    · rfl
    · exact ih _ h kv hmem

theorem labelsLoop_error_of_not_str (l : List (String × JSON F)) (acc : GoMap String)
    (h : ∃ kv ∈ l, kv.2.isStr = false) :
    labelsLoop l acc = .error (.panic .interfaceConversion) := by
  cases hr : labelsLoop l acc with
  | error f =>
    induction l generalizing acc with
    | nil => simp [labelsLoop] at hr
    | cons e rest ih =>
      obtain ⟨k, v⟩ := e
      cases v <;> simp only [labelsLoop, assertString] at hr <;>
        first
        | exact (Except.error.inj hr) ▸ rfl
        | skip
      obtain ⟨kv, hkv, hs⟩ := h
      rcases List.mem_cons.mp hkv with rfl | hmem
      · simp [JSON.isStr] at hs
      · exact ih _ ⟨kv, hmem, hs⟩ hr
  | ok ls =>
    obtain ⟨kv, hkv, hs⟩ := h
    rw [labelsLoop_all_str l acc ls hr kv hkv] at hs
    exact absurd hs (by decide)

theorem map_str_of_all_str (l : List (String × JSON F))
    (h : ∀ kv ∈ l, kv.2.isStr = true) :
    (l.map (fun kv => (kv.1, stringOr kv.2 ""))).map
      (fun kv => (kv.1, (JSON.str kv.2 : JSON F))) = l := by
  induction l with
  | nil => rfl
  | cons e rest ih =>
    obtain ⟨k, v⟩ := e
    obtain ⟨s, hs⟩ := isStr_elim (h (k, v) (List.mem_cons_self _ _))
    simp only at hs
    subst hs
    simp only [List.map_cons]
    exact congrArg (List.cons (k, JSON.str s))
      (ih (fun kv hkv => h kv (List.mem_cons_of_mem _ hkv)))

theorem labelsLoop_wire (l : List (String × JSON F)) (ls : GoMap String)
    (h : labelsLoop l [] = .ok ls) (hn : (GoMap.keys l).Nodup) :
    ls.map (fun kv => (kv.1, (JSON.str kv.2 : JSON F))) = l := by
  have hall := labelsLoop_all_str l [] ls h
  have hm := map_str_of_all_str l hall
  have hk : (GoMap.keys ([] ++ l.map (fun kv => (kv.1, stringOr kv.2 "")))).Nodup := by
    simpa [GoMap.keys, List.map_map, Function.comp_def] using hn
  have := @labelsLoop_map F (l.map (fun kv => (kv.1, stringOr kv.2 ""))) [] hk
  rw [hm, h] at this
  cases this
  simpa using hm

theorem labels_of_parseCommon [Zero F] (lib : Lib F) (fmap l : List (String × JSON F))
    (c : Common F) (hc : parseCommon lib fmap = .ok c) (hl : index fmap "labels" = .obj l)
    (hn : (GoMap.keys l).Nodup) :
    c.labels.map (fun kv => (kv.1, (JSON.str kv.2 : JSON F))) = l := by
  obtain ⟨_, l', _, _, _, _, _, _, hl', hloop, _⟩ := parseCommon_fields lib fmap c hc
  cases JSON.obj.inj (hl.symm.trans hl')
  exact labelsLoop_wire l c.labels hloop hn

theorem parseCommon_error_of_labels [Zero F] (lib : Lib F) (fmap l : List (String × JSON F))
    (hl : index fmap "labels" = .obj l) (h : ∃ kv ∈ l, kv.2.isStr = false) :
    ∃ f, parseCommon lib fmap = .error f := by
  cases hc : parseCommon lib fmap with
  | error f => exact ⟨f, rfl⟩
  | ok c =>
    obtain ⟨_, l', _, _, _, _, _, _, hl', hloop, _⟩ := parseCommon_fields lib fmap c hc
    cases JSON.obj.inj (hl.symm.trans hl')
    rw [labelsLoop_error_of_not_str l [] h] at hloop
    cases hloop

theorem decodeLoop_entries [Zero F] [Sub F] (lib : Lib F) (m : GoMap (Option RawMessage))
    (acc : GoMap (Asset F)) (hn : (GoMap.keys acc ++ GoMap.keys m).Nodup)
    (h : ∀ e ∈ m, isOk (decodeEntry lib e.2) = true) :
    ∃ res, decodeLoop lib m acc = .ok (acc ++ res)
      ∧ List.Forall₂ (fun e r => r.1 = e.1 ∧ decodeEntry lib e.2 = .ok r.2) m res := by
  induction m generalizing acc with
  | nil => exact ⟨[], by simp [decodeLoop], List.Forall₂.nil⟩
  | cons kv rest ih =>
    obtain ⟨k, raw⟩ := kv
    have hk := h (k, raw) (List.mem_cons_self _ _)
    cases hd : decodeEntry lib raw with
    | error f => simp [hd, isOk] at hk
    | ok a =>
      have hnot : k ∉ GoMap.keys acc := by
        intro hmem
        exact (List.nodup_append.mp hn).2.2 hmem (by simp [GoMap.keys])
      have hn' : (GoMap.keys (acc ++ [(k, a)]) ++ GoMap.keys rest).Nodup := by
        simpa [GoMap.keys] using hn
      obtain ⟨res, hres, hall⟩ := ih (acc ++ [(k, a)]) hn'
        (fun e he => h e (List.mem_cons_of_mem _ he))
      refine ⟨(k, a) :: res, ?_, List.Forall₂.cons ⟨rfl, hd⟩ hall⟩
      simp only [decodeLoop, hd]
      rw [set_of_not_mem acc k a hnot, hres]
      simp

theorem keys_of_entries [Zero F] [Sub F] (lib : Lib F) (m : GoMap (Option RawMessage))
    (res : GoMap (Asset F))
    (h : List.Forall₂ (fun e r => r.1 = e.1 ∧ decodeEntry lib e.2 = .ok r.2) m res) :
    GoMap.keys res = GoMap.keys m := by
  induction h with
  | nil => rfl
  | cons hd _ ih =>
    simp only [GoMap.keys, List.map_cons] at ih ⊢
    rw [hd.1, ih]

theorem lookup_of_not_mem_keys {V : Type} (m : GoMap V) (k : String)
    (h : k ∉ GoMap.keys m) : List.lookup k m = none := by
  induction m with
  | nil => rfl
  | cons kv rest ih =>
    obtain ⟨k', v⟩ := kv
    simp only [GoMap.keys, List.map_cons, List.mem_cons, not_or] at h
    have hne : (k == k') = false := by simpa using h.1
    simp only [List.lookup, hne]
    exact ih h.2

theorem lookup_of_entries [Zero F] [Sub F] (lib : Lib F) (m : GoMap (Option RawMessage))
    (res : GoMap (Asset F))
    (h : List.Forall₂ (fun e r => r.1 = e.1 ∧ decodeEntry lib e.2 = .ok r.2) m res)
    (hn : (GoMap.keys m).Nodup) (key : String) (raw : Option RawMessage)
    (hmem : (key, raw) ∈ m) :
    ∃ asset, decodeEntry lib raw = .ok asset ∧ List.lookup key res = some asset := by
  induction h with
  | nil => cases hmem
  | @cons e r m' res' hd _ ih =>
    obtain ⟨k, raw'⟩ := e
    obtain ⟨k2, a⟩ := r
    simp only at hd
    obtain ⟨hk, hdec⟩ := hd
    subst hk
    simp only [GoMap.keys, List.map_cons, List.nodup_cons] at hn
    rcases List.mem_cons.mp hmem with heq | htail
    · cases heq
      exact ⟨a, hdec, by simp [List.lookup]⟩
    · have hne : (key == k2) = false := by
        have : key ≠ k2 := by
          rintro rfl
          exact hn.1 (List.mem_map.mpr ⟨(key, raw), htail, rfl⟩)
        simpa using this
      obtain ⟨asset, h1, h2⟩ := ih hn.2 htail
      exact ⟨asset, h1, by simp only [List.lookup, hne]; exact h2⟩

theorem single_entry [Zero F] [Sub F] (lib : Lib F) (asr : AssetSetResponse F) (key : String)
    (rawMessage : Option RawMessage) (asset : Asset F)
    (h : decodeEntry lib rawMessage = .ok asset) :
    AssetSetResponse.RawMessageToAssetSetResponse lib asr [(key, rawMessage)]
      = ⟨{ asr with Assets := some [(key, asset)] }, .ok⟩ := by
  simp [AssetSetResponse.RawMessageToAssetSetResponse, decodeLoop, h, GoMap.set]

theorem entry_outcome [Zero F] [Sub F] {σ : Type} (lib : Lib F) (raw : RawMessage)
    (r : Result σ) (box : σ → Asset F) (hd : decodeEntry lib (some raw) = boxed r box) :
    (r.status = .ok →
      decodeEntry lib (some raw) = .ok (box r.state)
      ∧ ∀ (asr : AssetSetResponse F) (key : String),
          AssetSetResponse.RawMessageToAssetSetResponse lib asr [(key, some raw)]
            = ⟨{ asr with Assets := some [(key, box r.state)] }, .ok⟩)
    ∧ (∀ e, r.status = .error e → decodeEntry lib (some raw) = .error (.error e))
    ∧ (∀ p, r.status = .panic p → decodeEntry lib (some raw) = .error (.panic p)) := by
  refine ⟨?_, ?_, ?_⟩
  · intro hs
    have he : decodeEntry lib (some raw) = .ok (box r.state) := by
      rw [hd]
      simp only [boxed, hs]
    exact ⟨he, fun asr key => single_entry lib asr key (some raw) _ he⟩
  · intro e hs
    rw [hd]
    simp only [boxed, hs]
  · intro p hs
    rw [hd]
    simp only [boxed, hs]

theorem decodeEncoded_of_readsBack {σ : Type} (h : Helpers F) (lib : Lib F)
    (encoded : Except Fail (List (String × HelperCall F))) (ks : List String)
    (decode : σ → JSON F → Result σ) (fresh : σ)
    (hcongr : ∀ fmap fmap' : List (String × JSON F),
      (∀ k ∈ ks, index fmap k = index fmap' k) →
        decode fresh (.obj fmap) = decode fresh (.obj fmap'))
    (hrb : readsBack h lib encoded ks) :
    decodeEncoded h lib encoded decode fresh = decodeWritten encoded decode fresh := by
  cases encoded with
  | error f => rfl
  | ok calls =>
    obtain ⟨fmap, hp, hk⟩ := hrb calls rfl
    simp only [decodeEncoded, decodeWritten, hp]
    exact hcongr _ _ hk

theorem decodeEncoded_cases {σ : Type} (h : Helpers F) (lib : Lib F)
    (encoded : Except Fail (List (String × HelperCall F)))
    (decode : σ → JSON F → Result σ) (fresh : σ) :
    (decodeEncoded h lib encoded decode fresh).state = fresh
      ∧ (decodeEncoded h lib encoded decode fresh).status ≠ .ok
    ∨ ∃ f, decodeEncoded h lib encoded decode fresh = decode fresh f := by
  cases encoded with
  | error f => exact Or.inl ⟨rfl, toStatus_ne_ok f⟩
  | ok calls =>
    cases hu : lib.unmarshal (buffer h calls) with
    | error err =>
      refine Or.inl ?_
      simp only [decodeEncoded, hu]
      exact ⟨trivial, fun hs => Status.noConfusion hs⟩
    | ok f =>
      refine Or.inr ⟨f, ?_⟩
      simp only [decodeEncoded, hu]

end Lemmas

/-! ## The claims -/

section Claims

variable {F : Type}

/-- C1. Type dispatch: an entry whose fragment parses to an object is decoded into a fresh
record by the decoder its `type` string names; with any other `type` value (absent, empty,
unrecognised, differently cased, not a string) it is decoded by `InterfaceToAny`. When the
selected decoder returns nil the entry's result is the decoded record boxed as that
variant (`Any` for the fallback), and a collection made of this entry alone binds its key
to that asset; the entry fails only when the selected decoder does, with the decoder's own
error or panic, so the discriminator itself never causes an error. -/
theorem dispatch_by_type [Zero F] [Sub F] (lib : Lib F) (raw : RawMessage)
    (fmap : List (String × JSON F)) (h : lib.unmarshal raw = .ok (.obj fmap)) :
    (index fmap "type" = .str "Cloud" →
      (((Cloud.InterfaceToCloud lib (Cloud.zero F) (.obj fmap)).status = .ok →
          decodeEntry lib (some raw)
              = .ok (Asset.cloud (Cloud.InterfaceToCloud lib (Cloud.zero F) (.obj fmap)).state)
          ∧ ∀ (asr : AssetSetResponse F) (key : String),
              AssetSetResponse.RawMessageToAssetSetResponse lib asr [(key, some raw)]
                = ⟨{ asr with Assets := some [(key, Asset.cloud (Cloud.InterfaceToCloud
                    lib (Cloud.zero F) (.obj fmap)).state)] }, .ok⟩)
        ∧ (∀ e, (Cloud.InterfaceToCloud lib (Cloud.zero F) (.obj fmap)).status = .error e →
            decodeEntry lib (some raw) = .error (.error e))
        ∧ (∀ p, (Cloud.InterfaceToCloud lib (Cloud.zero F) (.obj fmap)).status = .panic p →
            decodeEntry lib (some raw) = .error (.panic p))))
    ∧ (index fmap "type" = .str "ClusterManagement" →
      (((ClusterManagement.InterfaceToClusterManagement lib (ClusterManagement.zero F)
          (.obj fmap)).status
          = .ok →
          decodeEntry lib (some raw)
              = .ok (Asset.clusterManagement (ClusterManagement.InterfaceToClusterManagement
                  lib (ClusterManagement.zero F) (.obj fmap)).state)
          ∧ ∀ (asr : AssetSetResponse F) (key : String),
              AssetSetResponse.RawMessageToAssetSetResponse lib asr [(key, some raw)]
                = ⟨{ asr with Assets := some [(key, Asset.clusterManagement (ClusterManagement.InterfaceToClusterManagement lib (ClusterManagement.zero F) (.obj fmap)).state)] }, .ok⟩)
        ∧ (∀ e, (ClusterManagement.InterfaceToClusterManagement lib (ClusterManagement.zero F)
            (.obj fmap)).status
            = .error e →
            decodeEntry lib (some raw) = .error (.error e))
        ∧ (∀ p, (ClusterManagement.InterfaceToClusterManagement lib (ClusterManagement.zero F)
            (.obj fmap)).status
            = .panic p →
            decodeEntry lib (some raw) = .error (.panic p))))
    ∧ (index fmap "type" = .str "Disk" →
      (((Disk.InterfaceToDisk lib (Disk.zero F) (.obj fmap)).status = .ok →
          decodeEntry lib (some raw)
              = .ok (Asset.disk (Disk.InterfaceToDisk lib (Disk.zero F) (.obj fmap)).state)
          ∧ ∀ (asr : AssetSetResponse F) (key : String),
              AssetSetResponse.RawMessageToAssetSetResponse lib asr [(key, some raw)]
                = ⟨{ asr with Assets := some [(key, Asset.disk (Disk.InterfaceToDisk
                    lib (Disk.zero F) (.obj fmap)).state)] }, .ok⟩)
        ∧ (∀ e, (Disk.InterfaceToDisk lib (Disk.zero F) (.obj fmap)).status = .error e →
            decodeEntry lib (some raw) = .error (.error e))
        ∧ (∀ p, (Disk.InterfaceToDisk lib (Disk.zero F) (.obj fmap)).status = .panic p →
            decodeEntry lib (some raw) = .error (.panic p))))
    ∧ (index fmap "type" = .str "Network" →
      (((Network.InterfaceToNetwork lib (Network.zero F) (.obj fmap)).status = .ok →
          decodeEntry lib (some raw)
              = .ok (Asset.network (Network.InterfaceToNetwork lib (Network.zero F)
                  (.obj fmap)).state)
          ∧ ∀ (asr : AssetSetResponse F) (key : String),
              AssetSetResponse.RawMessageToAssetSetResponse lib asr [(key, some raw)]
                = ⟨{ asr with Assets := some [(key, Asset.network (Network.InterfaceToNetwork
                    lib (Network.zero F) (.obj fmap)).state)] }, .ok⟩)
        ∧ (∀ e, (Network.InterfaceToNetwork lib (Network.zero F) (.obj fmap)).status = .error e →
            decodeEntry lib (some raw) = .error (.error e))
        ∧ (∀ p, (Network.InterfaceToNetwork lib (Network.zero F) (.obj fmap)).status = .panic p →
            decodeEntry lib (some raw) = .error (.panic p))))
    ∧ (index fmap "type" = .str "Node" →
      (((Node.InterfaceToNode lib (Node.zero F) (.obj fmap)).status = .ok →
          decodeEntry lib (some raw)
              = .ok (Asset.node (Node.InterfaceToNode lib (Node.zero F) (.obj fmap)).state)
          ∧ ∀ (asr : AssetSetResponse F) (key : String),
              AssetSetResponse.RawMessageToAssetSetResponse lib asr [(key, some raw)]
                = ⟨{ asr with Assets := some [(key, Asset.node (Node.InterfaceToNode
                    lib (Node.zero F) (.obj fmap)).state)] }, .ok⟩)
        ∧ (∀ e, (Node.InterfaceToNode lib (Node.zero F) (.obj fmap)).status = .error e →
            decodeEntry lib (some raw) = .error (.error e))
        ∧ (∀ p, (Node.InterfaceToNode lib (Node.zero F) (.obj fmap)).status = .panic p →
            decodeEntry lib (some raw) = .error (.panic p))))
    ∧ (index fmap "type" = .str "LoadBalancer" →
      (((LoadBalancer.InterfaceToLoadBalancer lib (LoadBalancer.zero F) (.obj fmap)).status = .ok →
          decodeEntry lib (some raw)
              = .ok (Asset.loadBalancer (LoadBalancer.InterfaceToLoadBalancer
                  lib (LoadBalancer.zero F) (.obj fmap)).state)
          ∧ ∀ (asr : AssetSetResponse F) (key : String),
              AssetSetResponse.RawMessageToAssetSetResponse lib asr [(key, some raw)]
                = ⟨{ asr with Assets := some [(key, Asset.loadBalancer (LoadBalancer.InterfaceToLoadBalancer lib (LoadBalancer.zero F) (.obj fmap)).state)] }, .ok⟩)
        ∧ (∀ e, (LoadBalancer.InterfaceToLoadBalancer lib (LoadBalancer.zero F) (.obj fmap)).status
            = .error e →
            decodeEntry lib (some raw) = .error (.error e))
        ∧ (∀ p, (LoadBalancer.InterfaceToLoadBalancer lib (LoadBalancer.zero F) (.obj fmap)).status
            = .panic p →
            decodeEntry lib (some raw) = .error (.panic p))))
    ∧ (index fmap "type" = .str "Shared" →
      (((SharedAsset.InterfaceToSharedAsset lib (SharedAsset.zero F) (.obj fmap)).status = .ok →
          decodeEntry lib (some raw)
              = .ok (Asset.sharedAsset (SharedAsset.InterfaceToSharedAsset lib (SharedAsset.zero F)
                  (.obj fmap)).state)
          ∧ ∀ (asr : AssetSetResponse F) (key : String),
              AssetSetResponse.RawMessageToAssetSetResponse lib asr [(key, some raw)]
                = ⟨{ asr with Assets := some [(key, Asset.sharedAsset (SharedAsset.InterfaceToSharedAsset lib (SharedAsset.zero F) (.obj fmap)).state)] }, .ok⟩)
        ∧ (∀ e, (SharedAsset.InterfaceToSharedAsset lib (SharedAsset.zero F) (.obj fmap)).status
            = .error e →
            decodeEntry lib (some raw) = .error (.error e))
        ∧ (∀ p, (SharedAsset.InterfaceToSharedAsset lib (SharedAsset.zero F) (.obj fmap)).status
            = .panic p →
            decodeEntry lib (some raw) = .error (.panic p))))
    ∧ ((∀ s ∈ knownTypes, index fmap "type" ≠ .str s) →
      (((Any.InterfaceToAny lib (Any.zero F) (.obj fmap)).status = .ok →
          decodeEntry lib (some raw)
              = .ok (Asset.any (Any.InterfaceToAny lib (Any.zero F) (.obj fmap)).state)
          ∧ ∀ (asr : AssetSetResponse F) (key : String),
              AssetSetResponse.RawMessageToAssetSetResponse lib asr [(key, some raw)]
                = ⟨{ asr with Assets := some [(key, Asset.any (Any.InterfaceToAny lib (Any.zero F)
                    (.obj fmap)).state)] }, .ok⟩)
        ∧ (∀ e, (Any.InterfaceToAny lib (Any.zero F) (.obj fmap)).status = .error e →
            decodeEntry lib (some raw) = .error (.error e))
        ∧ (∀ p, (Any.InterfaceToAny lib (Any.zero F) (.obj fmap)).status = .panic p →
            decodeEntry lib (some raw) = .error (.panic p)))) := by
  refine ⟨?_, ?_, ?_, ?_, ?_, ?_, ?_, ?_⟩
  · intro ht
    have hd : decodeEntry lib (some raw)
        = boxed (Cloud.InterfaceToCloud lib (Cloud.zero F) (.obj fmap)) Asset.cloud := by
      simp [decodeEntry, h, assertMap, ht]
    exact entry_outcome lib raw _ _ hd
  · intro ht
    have hd : decodeEntry lib (some raw)
        = boxed (ClusterManagement.InterfaceToClusterManagement lib (ClusterManagement.zero F)
            (.obj fmap)) Asset.clusterManagement := by
      simp [decodeEntry, h, assertMap, ht]
    exact entry_outcome lib raw _ _ hd
  · intro ht
    have hd : decodeEntry lib (some raw)
        = boxed (Disk.InterfaceToDisk lib (Disk.zero F) (.obj fmap)) Asset.disk := by
      simp [decodeEntry, h, assertMap, ht]
    exact entry_outcome lib raw _ _ hd
  · intro ht
    have hd : decodeEntry lib (some raw)
        = boxed (Network.InterfaceToNetwork lib (Network.zero F) (.obj fmap)) Asset.network := by
      simp [decodeEntry, h, assertMap, ht]
    exact entry_outcome lib raw _ _ hd
  · intro ht
    have hd : decodeEntry lib (some raw)
        = boxed (Node.InterfaceToNode lib (Node.zero F) (.obj fmap)) Asset.node := by
      simp [decodeEntry, h, assertMap, ht]
    exact entry_outcome lib raw _ _ hd
  · intro ht
    have hd : decodeEntry lib (some raw)
        = boxed (LoadBalancer.InterfaceToLoadBalancer lib (LoadBalancer.zero F)
            (.obj fmap)) Asset.loadBalancer := by
      simp [decodeEntry, h, assertMap, ht]
    exact entry_outcome lib raw _ _ hd
  · intro ht
    have hd : decodeEntry lib (some raw)
        = boxed (SharedAsset.InterfaceToSharedAsset lib (SharedAsset.zero F)
            (.obj fmap)) Asset.sharedAsset := by
      simp [decodeEntry, h, assertMap, ht]
    exact entry_outcome lib raw _ _ hd
  · intro ht
    exact entry_outcome lib raw _ _ (decodeEntry_of_unknown_type lib raw fmap h ht)

/-- Witness of C1: the sample Disk fragment is stored as the Disk of the scenario, and the
sample fragment without `type` as an `Any`. -/
theorem dispatch_by_type_witness :
    sampleLib.unmarshal "disk" = .ok (.obj (diskScenario 1 2 3 4 10))
    ∧ index (diskScenario (1 : Int) 2 3 4 10) "type" = .str "Disk"
    ∧ decodeEntry sampleLib (some "disk") = .ok (Asset.disk sampleDiskDecoded)
    ∧ AssetSetResponse.RawMessageToAssetSetResponse sampleLib (AssetSetResponse.zero Int)
        [("d1", some "disk")]
      = ⟨{ Assets := some [("d1", Asset.disk sampleDiskDecoded)] }, .ok⟩
    ∧ sampleLib.unmarshal "generic" = .ok (.obj sampleGenericMembers)
    ∧ index sampleGenericMembers "type" = .null
    ∧ decodeEntry sampleLib (some "generic") = .ok (Asset.any sampleGenericDecoded) :=
  have hd : (Disk.InterfaceToDisk sampleLib (Disk.zero Int)
      (.obj (diskScenario 1 2 3 4 10))).state = sampleDiskDecoded := by decide
  have hg : (Any.InterfaceToAny sampleLib (Any.zero Int) (.obj sampleGenericMembers)).state
      = sampleGenericDecoded := by decide
  have t := ((dispatch_by_type sampleLib "disk" (diskScenario 1 2 3 4 10) rfl).2.2.1 rfl).1
    (by decide)
  have u := ((dispatch_by_type sampleLib "generic" sampleGenericMembers rfl).2.2.2.2.2.2.2
    (fun s _ hs => JSON.noConfusion
      ((rfl : index sampleGenericMembers "type" = .null).symm.trans hs))).1 (by decide)
  ⟨rfl, rfl, hd ▸ t.1, hd ▸ t.2 (AssetSetResponse.zero Int) "d1", rfl, rfl, hg ▸ u.1⟩

/-- C2. Collection decode atomicity: when the decode of at least one entry fails (nil or
unparseable fragment, fragment that is not an object, failing per-kind decoder),
`RawMessageToAssetSetResponse` does not return nil and leaves the receiver, hence its
`Assets`, exactly as it was; the same holds for `UnmarshalJSON` on bytes that split into
that mapping. -/
theorem collection_decode_atomic [Zero F] [Sub F] (lib : Lib F) (asr : AssetSetResponse F)
    (assetMap : GoMap (Option RawMessage))
    (h : ∃ e ∈ assetMap, isOk (decodeEntry lib e.2) = false) :
    (AssetSetResponse.RawMessageToAssetSetResponse lib asr assetMap).status ≠ .ok
    ∧ (AssetSetResponse.RawMessageToAssetSetResponse lib asr assetMap).state = asr
    ∧ ∀ b, lib.unmarshalRawMap b = .ok assetMap →
        (AssetSetResponse.UnmarshalJSON lib asr b).status ≠ .ok
        ∧ (AssetSetResponse.UnmarshalJSON lib asr b).state = asr := by
  obtain ⟨f, hf⟩ := decodeLoop_error lib assetMap [] h
  have h1 : AssetSetResponse.RawMessageToAssetSetResponse lib asr assetMap
      = ⟨asr, f.toStatus⟩ := by
    simp [AssetSetResponse.RawMessageToAssetSetResponse, hf]
  refine ⟨?_, ?_, ?_⟩
  · rw [h1]; exact toStatus_ne_ok f
  · rw [h1]
  · intro b hb
    simp only [AssetSetResponse.UnmarshalJSON, hb, h1]
    exact ⟨toStatus_ne_ok f, trivial⟩

/-- Witness of C2: a two-entry mapping whose second entry has no `labels`. -/
theorem collection_decode_atomic_witness :
    (∃ e ∈ [("d1", some "disk"), ("x", some "nolabels")],
        isOk (decodeEntry sampleLib e.2) = false)
    ∧ (AssetSetResponse.RawMessageToAssetSetResponse sampleLib (AssetSetResponse.zero Int)
        [("d1", some "disk"), ("x", some "nolabels")]).status ≠ .ok
    ∧ (AssetSetResponse.RawMessageToAssetSetResponse sampleLib (AssetSetResponse.zero Int)
        [("d1", some "disk"), ("x", some "nolabels")]).state.Assets = none :=
  have h : ∃ e ∈ [("d1", some "disk"), ("x", some "nolabels")],
      isOk (decodeEntry sampleLib e.2) = false :=
    ⟨("x", some "nolabels"), by simp, by decide⟩
  have t := collection_decode_atomic sampleLib (AssetSetResponse.zero Int) _ h
  ⟨h, t.1, by rw [t.2.1]; rfl⟩

/-- C3. Range decode keeps order and length: when the bytes split into the list `ms` of
raw collections and every one of them decodes, `AssetSetRangeResponse.UnmarshalJSON`
returns nil and `Assets` is the list of the collection decodes of the elements of `ms`,
position by position (so of the same length, and empty for the empty array). -/
theorem range_decode_order [Zero F] [Sub F] (lib : Lib F) (asrr : AssetSetRangeResponse F)
    (b : RawMessage) (ms : List (GoMap (Option RawMessage)))
    (hb : lib.unmarshalRawMapList b = .ok ms)
    (h : ∀ m ∈ ms, (AssetSetResponse.RawMessageToAssetSetResponse lib
      (AssetSetResponse.zero F) m).status = .ok) :
    (AssetSetRangeResponse.UnmarshalJSON lib asrr b).status = .ok
    ∧ (AssetSetRangeResponse.UnmarshalJSON lib asrr b).state.Assets
        = ms.map (fun m => (AssetSetResponse.RawMessageToAssetSetResponse lib
            (AssetSetResponse.zero F) m).state)
    ∧ (AssetSetRangeResponse.UnmarshalJSON lib asrr b).state.Assets.length = ms.length := by
  have hr := rangeLoop_ok lib ms [] h
  simp [AssetSetRangeResponse.UnmarshalJSON, hb, hr]

/-- Witness of C3: three one-entry buckets. -/
theorem range_decode_order_witness :
    (AssetSetRangeResponse.UnmarshalJSON sampleLib ⟨[]⟩ "range").status = .ok
    ∧ (AssetSetRangeResponse.UnmarshalJSON sampleLib ⟨[]⟩ "range").state.Assets.length = 3 :=
  have t := range_decode_order sampleLib ⟨[]⟩ "range"
    [[("d1", some "disk")], [("g1", some "generic")], [("n1", some "node")]] rfl (by decide)
  ⟨t.1, t.2.2⟩

/-- C4. Range decode atomicity: when the collection decode of some element of the array
fails, at whatever position, `AssetSetRangeResponse.UnmarshalJSON` does not return nil and
leaves the receiver, hence its `Assets`, exactly as it was. -/
theorem range_decode_atomic [Zero F] [Sub F] (lib : Lib F) (asrr : AssetSetRangeResponse F)
    (b : RawMessage) (ms : List (GoMap (Option RawMessage)))
    (hb : lib.unmarshalRawMapList b = .ok ms)
    (h : ∃ m ∈ ms, (AssetSetResponse.RawMessageToAssetSetResponse lib
      (AssetSetResponse.zero F) m).status ≠ .ok) :
    (AssetSetRangeResponse.UnmarshalJSON lib asrr b).status ≠ .ok
    ∧ (AssetSetRangeResponse.UnmarshalJSON lib asrr b).state = asrr := by
  obtain ⟨f, hf⟩ := rangeLoop_error lib ms [] h
  simp only [AssetSetRangeResponse.UnmarshalJSON, hb, hf]
  exact ⟨toStatus_ne_ok f, trivial⟩

/-- Witness of C4: the second of two buckets holds an entry without `labels`. -/
theorem range_decode_atomic_witness :
    (AssetSetRangeResponse.UnmarshalJSON sampleLib ⟨[⟨none⟩]⟩ "badrange").status ≠ .ok
    ∧ (AssetSetRangeResponse.UnmarshalJSON sampleLib ⟨[⟨none⟩]⟩ "badrange").state
        = ⟨[⟨none⟩]⟩ :=
  range_decode_atomic sampleLib ⟨[⟨none⟩]⟩ "badrange"
    [[("d1", some "disk")], [("g1", some "generic"), ("x", some "nolabels")]] rfl
    ⟨[("g1", some "generic"), ("x", some "nolabels")], by simp, by decide⟩

/-- C5. Required common fields: if `properties` or `labels` is not an object, or `start`
or `end` is not a string (in particular if one of the four keys is missing), then the
decoder of each of the eight kinds fails, whatever the receiver. -/
theorem required_common_fields [Zero F] [Sub F] (lib : Lib F) (fmap : List (String × JSON F))
    (h : (index fmap "properties").isObj = false ∨ (index fmap "labels").isObj = false
      ∨ (index fmap "start").isStr = false ∨ (index fmap "end").isStr = false) :
    (∀ a, (Any.InterfaceToAny lib a (.obj fmap)).status ≠ .ok)
    ∧ (∀ ca, (Cloud.InterfaceToCloud lib ca (.obj fmap)).status ≠ .ok)
    ∧ (∀ cm, (ClusterManagement.InterfaceToClusterManagement lib cm (.obj fmap)).status ≠ .ok)
    ∧ (∀ d, (Disk.InterfaceToDisk lib d (.obj fmap)).status ≠ .ok)
    ∧ (∀ n, (Network.InterfaceToNetwork lib n (.obj fmap)).status ≠ .ok)
    ∧ (∀ n, (Node.InterfaceToNode lib n (.obj fmap)).status ≠ .ok)
    ∧ (∀ lb, (LoadBalancer.InterfaceToLoadBalancer lib lb (.obj fmap)).status ≠ .ok)
    ∧ (∀ sa, (SharedAsset.InterfaceToSharedAsset lib sa (.obj fmap)).status ≠ .ok) := by
  obtain ⟨f, hf⟩ := parseCommon_error_of_missing lib fmap h
  refine ⟨?_, ?_, ?_, ?_, ?_, ?_, ?_, ?_⟩
  · intro a
    simp only [Any.InterfaceToAny, assertMap, hf]
    exact toStatus_ne_ok f
  · intro a
    simp only [Cloud.InterfaceToCloud, assertMap, hf]
    exact toStatus_ne_ok f
  · intro a
    simp only [ClusterManagement.InterfaceToClusterManagement, assertMap, hf]
    exact toStatus_ne_ok f
  · intro a
    simp only [Disk.InterfaceToDisk, assertMap, hf]
    exact toStatus_ne_ok f
  · intro a
    simp only [Network.InterfaceToNetwork, assertMap, hf]
    exact toStatus_ne_ok f
  · intro a
    simp only [Node.InterfaceToNode, assertMap, hf]
    exact toStatus_ne_ok f
  · intro a
    simp only [LoadBalancer.InterfaceToLoadBalancer, assertMap, hf]
    exact toStatus_ne_ok f
  · intro a
    simp only [SharedAsset.InterfaceToSharedAsset, assertMap, hf]
    exact toStatus_ne_ok f

/-- Witness of C5: an entry without `labels`, decoded as `Any`. -/
theorem required_common_fields_witness :
    (index [("properties", (.obj [] : JSON Int)), ("start", .str "2023-01-01T00:00:00Z"),
      ("end", .str "2023-01-02T00:00:00Z")] "labels").isObj = false
    ∧ (Any.InterfaceToAny sampleLib (Any.zero Int) sampleNoLabels).status ≠ .ok :=
  ⟨rfl, (required_common_fields sampleLib
    [("properties", (.obj [] : JSON Int)), ("start", .str "2023-01-01T00:00:00Z"),
      ("end", .str "2023-01-02T00:00:00Z")] (Or.inr (Or.inl rfl))).1 (Any.zero Int)⟩

/-- C6 (the code at the failing input). When the common fields are valid and `adjustment`
holds a JSON string, every decoder panics on the unchecked assertion
`adjustment.(float64)`: `getTypedVal` accepts a string, so the guard `err == nil` does not
protect the assertion. -/
theorem string_adjustment_panics [Zero F] [Sub F] (lib : Lib F) (fmap : List (String × JSON F))
    (s : String) (hv : validCommon lib fmap = true)
    (hadj : index fmap "adjustment" = .str s) :
    (∀ a, (Any.InterfaceToAny lib a (.obj fmap)).status = .panic .interfaceConversion)
    ∧ (∀ ca, (Cloud.InterfaceToCloud lib ca (.obj fmap)).status = .panic .interfaceConversion)
    ∧ (∀ cm, (ClusterManagement.InterfaceToClusterManagement lib cm (.obj fmap)).status
        = .panic .interfaceConversion)
    ∧ (∀ d, (Disk.InterfaceToDisk lib d (.obj fmap)).status = .panic .interfaceConversion)
    ∧ (∀ n, (Network.InterfaceToNetwork lib n (.obj fmap)).status = .panic .interfaceConversion)
    ∧ (∀ n, (Node.InterfaceToNode lib n (.obj fmap)).status = .panic .interfaceConversion)
    ∧ (∀ lb, (LoadBalancer.InterfaceToLoadBalancer lib lb (.obj fmap)).status
        = .panic .interfaceConversion)
    ∧ (∀ sa, (SharedAsset.InterfaceToSharedAsset lib sa (.obj fmap)).status
        = .panic .interfaceConversion) := by
  obtain ⟨c, hc⟩ := parseCommon_of_valid lib fmap hv
  refine ⟨?_, ?_, ?_, ?_, ?_, ?_, ?_, ?_⟩
  · intro a
    simp [Any.InterfaceToAny, assertMap, hc, hadj, setFloat64_of_str, andThen_panic_mk]
  · intro ca
    simp only [Cloud.InterfaceToCloud, assertMap, hc, hadj, setFloat64_of_str]
    rcases setString_cases (index fmap "usageType") (fun (ca : Cloud F) x => { ca with UsageType := x })
      { ca with
        properties := some c.properties, labels := some c.labels,
        assetPricingModels := c.pricingModels, start := c.start, end_ := c.end_,
        window := { start := some c.start, end_ := some c.end_ } } with ⟨s1, h1⟩ | h1
    · rw [h1, andThen_of_ok]
      rcases setString_cases (index fmap "usageDetail")
        (fun (ca : Cloud F) x => { ca with UsageDetail := x }) s1 with ⟨s2, h2⟩ | h2
      · rw [h2, andThen_of_ok]
        simp [Result.andThen, setFloat64_of_str]
      · rw [h2]
        simp [Result.andThen, setFloat64_of_str]
    · rw [h1]
      simp [Result.andThen, setFloat64_of_str]
  · intro cm
    simp [ClusterManagement.InterfaceToClusterManagement, assertMap, hc, hadj, setFloat64_of_str,
      andThen_panic_mk]
  · intro d
    simp only [Disk.InterfaceToDisk, assertMap, hc, hadj, setFloat64_of_str]
    cases hb : index fmap "breakdown" <;> simp only [Fail.toStatus]
    rename_i fb
    rcases setString_cases (index fmap "storageClass")
      (fun (d : Disk F) x => { d with StorageClass := x })
      { d with
          properties := some c.properties, labels := some c.labels,
          assetPricingModels := c.pricingModels, start := c.start, end_ := c.end_,
          window := { start := some c.start, end_ := some c.end_ },
          Breakdown := some (toBreakdown fb) } with ⟨s1, h1⟩ | h1
    · rw [h1, andThen_of_ok]
      simp [Result.andThen, setFloat64_of_str]
    · rw [h1]
      simp [Result.andThen, setFloat64_of_str]
  · intro n
    simp [Network.InterfaceToNetwork, assertMap, hc, hadj, setFloat64_of_str, andThen_panic_mk]
  · intro n
    simp only [Node.InterfaceToNode, assertMap, hc, hadj, setFloat64_of_str]
    cases hb : index fmap "cpuBreakdown" <;> simp only [Fail.toStatus]
    cases hb2 : index fmap "ramBreakdown" <;> simp only [Fail.toStatus]
    simp [Result.andThen, setFloat64_of_str]
  · intro lb
    simp [LoadBalancer.InterfaceToLoadBalancer, assertMap, hc, hadj, setFloat64_of_str,
      andThen_panic_mk]
  · intro sa
    simp [SharedAsset.InterfaceToSharedAsset, assertMap, hc, hadj, setFloat64_of_str,
      andThen_panic_mk]

/-- Witness of C6: the entry with `"adjustment": "1"` decoded into a fresh `Any`. -/
theorem string_adjustment_panics_witness :
    validCommon sampleLib sampleStringAdjustmentMembers = true
    ∧ index sampleStringAdjustmentMembers "adjustment" = .str "1"
    ∧ (Any.InterfaceToAny sampleLib (Any.zero Int) sampleStringAdjustment).status
        = .panic .interfaceConversion :=
  ⟨by decide, rfl, (string_adjustment_panics sampleLib sampleStringAdjustmentMembers "1"
    (by decide) rfl).1 (Any.zero Int)⟩

/-- C7 (counterexample). Two Node entries that differ only in `totalCost` (10 and 20, no
adjustment, no credit) decode successfully to the same record, so nothing read off the
decoded Node equals `totalCost - adjustment - credit` for both. -/
theorem node_base_cost_counterexample :
    (Node.InterfaceToNode sampleLib (Node.zero Int) (sampleNode 10)).status = .ok
    ∧ (Node.InterfaceToNode sampleLib (Node.zero Int) (sampleNode 20)).status = .ok
    ∧ (Node.InterfaceToNode sampleLib (Node.zero Int) (sampleNode 10)).state
        = (Node.InterfaceToNode sampleLib (Node.zero Int) (sampleNode 20)).state
    ∧ ¬ ∃ baseCost : Node Int → Int, ∀ tc ∈ [(10 : Int), 20],
        baseCost (Node.InterfaceToNode sampleLib (Node.zero Int) (sampleNode tc)).state
          = tc - (Node.InterfaceToNode sampleLib (Node.zero Int) (sampleNode tc)).state.adjustment
              - (Node.InterfaceToNode sampleLib (Node.zero Int) (sampleNode tc)).state.credit := by
  refine ⟨by decide, by decide, by decide, ?_⟩
  rintro ⟨baseCost, h⟩
  have h10 := h 10 (by simp)
  have h20 := h 20 (by simp)
  have e : (Node.InterfaceToNode sampleLib (Node.zero Int) (sampleNode 10)).state
      = (Node.InterfaceToNode sampleLib (Node.zero Int) (sampleNode 20)).state := by decide
  have a10 : (Node.InterfaceToNode sampleLib (Node.zero Int) (sampleNode 20)).state.adjustment
      = 0 := by decide
  have c10 : (Node.InterfaceToNode sampleLib (Node.zero Int) (sampleNode 20)).state.credit
      = 0 := by decide
  rw [e] at h10
  rw [a10, c10] at h10 h20
  omega

/-- C7 (amended). For the seven kinds that store a base cost, every entry with valid
common fields, no string under an optional numeric key, no number under an optional
string key, Disk's `breakdown` an object, and a number `tc` under `totalCost`: the decoder
returns nil and the decoded `Cost` is `tc - adjustment - credit` for the decoded
adjustment and credit, which are the entry's numbers or, for a key holding no number, the
receiver's values. The discount does not occur in the formula. -/
theorem derived_cost [Zero F] [Sub F] (lib : Lib F) (fmap : List (String × JSON F)) (tc : F)
    (hv : validCommon lib fmap = true)
    (hf : noStringAt fmap ["adjustment", "credit", "discount"] = true)
    (htc : index fmap "totalCost" = .num tc) :
    (∀ a, (Any.InterfaceToAny lib a (.obj fmap)).status = .ok
      ∧ (Any.InterfaceToAny lib a (.obj fmap)).state.Cost
          = tc - floatOr (index fmap "adjustment") a.adjustment
              - floatOr (index fmap "credit") a.credit
      ∧ (Any.InterfaceToAny lib a (.obj fmap)).state.adjustment
          = floatOr (index fmap "adjustment") a.adjustment
      ∧ (Any.InterfaceToAny lib a (.obj fmap)).state.credit
          = floatOr (index fmap "credit") a.credit)
    ∧ (noNumberAt fmap ["usageType", "usageDetail"] = true →
      ∀ ca, (Cloud.InterfaceToCloud lib ca (.obj fmap)).status = .ok
      ∧ (Cloud.InterfaceToCloud lib ca (.obj fmap)).state.Cost
          = tc - floatOr (index fmap "adjustment") ca.adjustment
              - floatOr (index fmap "credit") ca.credit
      ∧ (Cloud.InterfaceToCloud lib ca (.obj fmap)).state.adjustment
          = floatOr (index fmap "adjustment") ca.adjustment
      ∧ (Cloud.InterfaceToCloud lib ca (.obj fmap)).state.credit
          = floatOr (index fmap "credit") ca.credit)
    ∧ (∀ cm, (ClusterManagement.InterfaceToClusterManagement lib cm (.obj fmap)).status = .ok
      ∧ (ClusterManagement.InterfaceToClusterManagement lib cm (.obj fmap)).state.Cost
          = tc - floatOr (index fmap "adjustment") cm.adjustment
              - floatOr (index fmap "credit") cm.credit
      ∧ (ClusterManagement.InterfaceToClusterManagement lib cm (.obj fmap)).state.adjustment
          = floatOr (index fmap "adjustment") cm.adjustment
      ∧ (ClusterManagement.InterfaceToClusterManagement lib cm (.obj fmap)).state.credit
          = floatOr (index fmap "credit") cm.credit)
    ∧ ((index fmap "breakdown").isObj = true → noNumberAt fmap ["storageClass"] = true →
      noStringAt fmap ["byteHours"] = true →
      ∀ d, (Disk.InterfaceToDisk lib d (.obj fmap)).status = .ok
      ∧ (Disk.InterfaceToDisk lib d (.obj fmap)).state.Cost
          = tc - floatOr (index fmap "adjustment") d.adjustment
              - floatOr (index fmap "credit") d.credit
      ∧ (Disk.InterfaceToDisk lib d (.obj fmap)).state.adjustment
          = floatOr (index fmap "adjustment") d.adjustment
      ∧ (Disk.InterfaceToDisk lib d (.obj fmap)).state.credit
          = floatOr (index fmap "credit") d.credit)
    ∧ (∀ n, (Network.InterfaceToNetwork lib n (.obj fmap)).status = .ok
      ∧ (Network.InterfaceToNetwork lib n (.obj fmap)).state.Cost
          = tc - floatOr (index fmap "adjustment") n.adjustment
              - floatOr (index fmap "credit") n.credit
      ∧ (Network.InterfaceToNetwork lib n (.obj fmap)).state.adjustment
          = floatOr (index fmap "adjustment") n.adjustment
      ∧ (Network.InterfaceToNetwork lib n (.obj fmap)).state.credit
          = floatOr (index fmap "credit") n.credit)
    ∧ (∀ lb, (LoadBalancer.InterfaceToLoadBalancer lib lb (.obj fmap)).status = .ok
      ∧ (LoadBalancer.InterfaceToLoadBalancer lib lb (.obj fmap)).state.Cost
          = tc - floatOr (index fmap "adjustment") lb.adjustment
              - floatOr (index fmap "credit") lb.credit
      ∧ (LoadBalancer.InterfaceToLoadBalancer lib lb (.obj fmap)).state.adjustment
          = floatOr (index fmap "adjustment") lb.adjustment
      ∧ (LoadBalancer.InterfaceToLoadBalancer lib lb (.obj fmap)).state.credit
          = floatOr (index fmap "credit") lb.credit)
    ∧ (∀ sa, (SharedAsset.InterfaceToSharedAsset lib sa (.obj fmap)).status = .ok
      ∧ (SharedAsset.InterfaceToSharedAsset lib sa (.obj fmap)).state.Cost
          = tc - floatOr (index fmap "adjustment") sa.adjustment
              - floatOr (index fmap "credit") sa.credit
      ∧ (SharedAsset.InterfaceToSharedAsset lib sa (.obj fmap)).state.adjustment
          = floatOr (index fmap "adjustment") sa.adjustment
      ∧ (SharedAsset.InterfaceToSharedAsset lib sa (.obj fmap)).state.credit
          = floatOr (index fmap "credit") sa.credit) := by
  obtain ⟨c, hc⟩ := parseCommon_of_valid lib fmap hv
  have hf4 : noStringAt fmap ["adjustment", "credit", "discount", "totalCost"] = true := by
    have := noStringAt_append fmap ["adjustment", "credit", "discount"] ["totalCost"]
    simp only [List.cons_append, List.nil_append] at this
    rw [this, hf]
    simp [noStringAt, htc, JSON.isStr]
  refine ⟨?_, ?_, ?_, ?_, ?_, ?_, ?_⟩
  · intro a
    rw [Any.InterfaceToAny_ok lib a fmap c hc hf4]
    simp [Any.decoded, htc, costOr]
  · intro hs ca
    rw [Cloud.InterfaceToCloud_ok lib ca fmap c hc hf4 hs]
    simp [Cloud.decoded, htc, costOr]
  · intro cm
    rw [ClusterManagement.InterfaceToClusterManagement_ok lib cm fmap c hc hf4]
    simp [ClusterManagement.decoded, htc, costOr]
  · intro hb hs hbh d
    obtain ⟨fb, hfb⟩ := isObj_elim hb
    have hf5 : noStringAt fmap ["adjustment", "credit", "discount", "totalCost", "byteHours"]
        = true := by
      have := noStringAt_append fmap ["adjustment", "credit", "discount", "totalCost"]
        ["byteHours"]
      simp only [List.cons_append, List.nil_append] at this
      rw [this, hf4, hbh]
      rfl
    rw [Disk.InterfaceToDisk_ok lib d fmap c fb hc hfb hf5 hs]
    simp [Disk.decoded, htc, costOr]
  · intro n
    rw [Network.InterfaceToNetwork_ok lib n fmap c hc hf4]
    simp [Network.decoded, htc, costOr]
  · intro lb
    rw [LoadBalancer.InterfaceToLoadBalancer_ok lib lb fmap c hc hf4]
    simp [LoadBalancer.decoded, htc, costOr]
  · intro sa
    rw [SharedAsset.InterfaceToSharedAsset_ok lib sa fmap c hc hf4]
    simp [SharedAsset.decoded, htc, costOr]

/-- Witness of C7 (amended): the sample entry without discriminator, decoded as `Any`. -/
theorem derived_cost_witness :
    validCommon sampleLib sampleGenericMembers = true
    ∧ noStringAt sampleGenericMembers ["adjustment", "credit", "discount"] = true
    ∧ index sampleGenericMembers "totalCost" = .num 10
    ∧ (Any.InterfaceToAny sampleLib (Any.zero Int) (.obj sampleGenericMembers)).status = .ok
    ∧ (Any.InterfaceToAny sampleLib (Any.zero Int) (.obj sampleGenericMembers)).state.Cost
        = 10 - floatOr (index sampleGenericMembers "adjustment") (Any.zero Int).adjustment
            - floatOr (index sampleGenericMembers "credit") (Any.zero Int).credit :=
  have t := (derived_cost sampleLib sampleGenericMembers 10 (by decide) (by decide) rfl).1
    (Any.zero Int)
  ⟨by decide, by decide, rfl, t.1, t.2.1⟩

/-- C8. Generic fallback keeps the cost formula: in a collection whose other entries decode
and in which the key is not visited again later, an entry with valid common fields, no
string under `adjustment`, `credit` or `discount`, a `type` that is none of the seven known
strings (absent, unrecognised, ...) and a number `tc` under `totalCost` makes the collection
decode return nil with that key bound to an `Any` whose `Cost` is `tc - adjustment - credit`,
the adjustment and credit being the entry's own numbers, or 0 where the key holds none. -/
theorem generic_fallback_cost [Zero F] [Sub F] (lib : Lib F) (asr : AssetSetResponse F)
    (pre post : GoMap (Option RawMessage)) (key : String) (raw : RawMessage)
    (fmap : List (String × JSON F)) (tc : F)
    (hpre : ∀ e ∈ pre, isOk (decodeEntry lib e.2) = true)
    (hpost : ∀ e ∈ post, isOk (decodeEntry lib e.2) = true)
    (hkey : key ∉ GoMap.keys post)
    (hraw : lib.unmarshal raw = .ok (.obj fmap))
    (hv : validCommon lib fmap = true)
    (hf : noStringAt fmap ["adjustment", "credit", "discount"] = true)
    (ht : ∀ s ∈ knownTypes, index fmap "type" ≠ .str s)
    (htc : index fmap "totalCost" = .num tc) :
    (AssetSetResponse.RawMessageToAssetSetResponse lib asr
        (pre ++ (key, some raw) :: post)).status = .ok
    ∧ ∃ m a, (AssetSetResponse.RawMessageToAssetSetResponse lib asr
        (pre ++ (key, some raw) :: post)).state.Assets = some m
      ∧ List.lookup key m = some (Asset.any a)
      ∧ a.Cost = tc - floatOr (index fmap "adjustment") 0 - floatOr (index fmap "credit") 0 := by
  obtain ⟨c, hc⟩ := parseCommon_of_valid lib fmap hv
  have hany := Any.InterfaceToAny_ok lib (Any.zero F) fmap c hc
    (noStringAt_snoc_num fmap _ "totalCost" tc hf htc)
  have hd : decodeEntry lib (some raw)
      = .ok (Asset.any (Any.InterfaceToAny lib (Any.zero F) (.obj fmap)).state) := by
    rw [decodeEntry_of_unknown_type lib raw fmap hraw ht, hany]
    rfl
  obtain ⟨acc1, h1⟩ := decodeLoop_ok_of_all lib pre [] hpre
  obtain ⟨res, h2⟩ := decodeLoop_ok_of_all lib post
    (GoMap.set acc1 key (Asset.any (Any.InterfaceToAny lib (Any.zero F) (.obj fmap)).state)) hpost
  have hloop : decodeLoop lib (pre ++ (key, some raw) :: post) [] = .ok res := by
    rw [decodeLoop_append, h1]
    simp only [decodeLoop, hd, h2]
  have hl := decodeLoop_lookup_of_not_mem lib post _ res key h2 hkey
  rw [lookup_set_self] at hl
  simp only [AssetSetResponse.RawMessageToAssetSetResponse, hloop]
  refine ⟨trivial, res, _, rfl, hl, ?_⟩
  rw [hany]
  simp [Any.decoded, htc, costOr, Any.zero]

/-- Witness of C8: the sample entry without discriminator, second of two entries. -/
theorem generic_fallback_cost_witness :
    (AssetSetResponse.RawMessageToAssetSetResponse sampleLib (AssetSetResponse.zero Int)
        ([("d1", some "disk")] ++ ("g1", some "generic") :: [])).status = .ok
    ∧ ∃ m a, (AssetSetResponse.RawMessageToAssetSetResponse sampleLib (AssetSetResponse.zero Int)
        ([("d1", some "disk")] ++ ("g1", some "generic") :: [])).state.Assets = some m
      ∧ List.lookup "g1" m = some (Asset.any a)
      ∧ a.Cost = 10 - floatOr (index sampleGenericMembers "adjustment") 0
          - floatOr (index sampleGenericMembers "credit") 0 :=
  generic_fallback_cost sampleLib (AssetSetResponse.zero Int) [("d1", some "disk")] []
    "g1" "generic" sampleGenericMembers 10 (by decide) (by simp) (by simp [GoMap.keys]) rfl
    (by decide) (by decide)
    (fun s _ h => JSON.noConfusion ((rfl : index sampleGenericMembers "type" = .null).symm.trans h))
    rfl

/-- C9. Concrete Disk scenario: the one-entry collection with key `d1` and the Disk entry
of the scenario (where the parser yields `n1`, `n2`, `n3`, `n4`, `n10` for the literals 1, 2,
3, 4, 10, the timestamp parser accepts both instants, and `n10 - n1 - n2` is `n7`, the
value of 7) decodes with nil error to a mapping with the single key `d1`, bound to a Disk
with `Cost` 7, `Breakdown` (1, 2, 3, 4), adjustment 1, credit 2 and a nil pricing-model
reference. -/
theorem disk_scenario [Zero F] [Sub F] (lib : Lib F) (asr : AssetSetResponse F)
    (raw : RawMessage) (n1 n2 n3 n4 n7 n10 : F) (t0 t1 : Time)
    (hraw : lib.unmarshal raw = .ok (.obj (diskScenario n1 n2 n3 n4 n10)))
    (h0 : lib.parseRFC3339 "2023-01-01T00:00:00Z" = .ok t0)
    (h1 : lib.parseRFC3339 "2023-01-02T00:00:00Z" = .ok t1)
    (h7 : n10 - n1 - n2 = n7) :
    (AssetSetResponse.RawMessageToAssetSetResponse lib asr [("d1", some raw)]).status = .ok
    ∧ ∃ d : Disk F,
      (AssetSetResponse.RawMessageToAssetSetResponse lib asr [("d1", some raw)]).state.Assets
        = some [("d1", Asset.disk d)]
      ∧ d.Cost = n7
      ∧ d.Breakdown = some { Idle := n1, Other := n2, System := n3, User := n4 }
      ∧ d.adjustment = n1 ∧ d.credit = n2
      ∧ d.assetPricingModels = none
      ∧ d.properties = some {} ∧ d.labels = some []
      ∧ d.start = t0 ∧ d.end_ = t1 ∧ d.window = { start := some t0, end_ := some t1 }
      ∧ d.Local = false := by
  have hc : parseCommon lib (diskScenario n1 n2 n3 n4 n10)
      = .ok ⟨toAssetProp ([] : List (String × JSON F)), pricingOf (index (diskScenario n1 n2 n3 n4 n10)
          "assetPricingModels"), [], t0, t1⟩ :=
    parseCommon_eq_ok lib _ [] [] [] _ _ t0 t1 rfl rfl rfl rfl rfl h0 rfl h1
  have hd := Disk.InterfaceToDisk_ok lib (Disk.zero F) (diskScenario n1 n2 n3 n4 n10) _
    [("idle", .num n1), ("other", .num n2), ("system", .num n3), ("user", .num n4)]
    hc rfl rfl rfl
  have he : decodeEntry lib (some raw) = .ok (Asset.disk (Disk.decoded (Disk.zero F)
      ⟨toAssetProp ([] : List (String × JSON F)), pricingOf (index (diskScenario n1 n2 n3 n4 n10)
          "assetPricingModels"), [], t0, t1⟩ (diskScenario n1 n2 n3 n4 n10)
      [("idle", .num n1), ("other", .num n2), ("system", .num n3), ("user", .num n4)])) := by
    have ht : index (diskScenario n1 n2 n3 n4 n10) "type" = .str "Disk" := rfl
    simp only [decodeEntry, hraw, assertMap, ht, hd, boxed]
  simp only [AssetSetResponse.RawMessageToAssetSetResponse, decodeLoop, he, GoMap.set]
  refine ⟨trivial, _, rfl, ?_, rfl, rfl, rfl, rfl, rfl, rfl, rfl, rfl, rfl, rfl⟩
  exact h7

/-- Witness of C9 on the sample library, with integers for the parsed numbers. -/
theorem disk_scenario_witness :
    (AssetSetResponse.RawMessageToAssetSetResponse sampleLib (AssetSetResponse.zero Int)
      [("d1", some "disk")]).status = .ok
    ∧ ∃ d : Disk Int,
      (AssetSetResponse.RawMessageToAssetSetResponse sampleLib (AssetSetResponse.zero Int)
        [("d1", some "disk")]).state.Assets = some [("d1", Asset.disk d)]
      ∧ d.Cost = 7
      ∧ d.Breakdown = some { Idle := 1, Other := 2, System := 3, User := 4 }
      ∧ d.adjustment = 1 ∧ d.credit = 2
      ∧ d.assetPricingModels = none
      ∧ d.properties = some {} ∧ d.labels = some []
      ∧ d.start = 63808128000 ∧ d.end_ = 63808214400
      ∧ d.window = { start := some 63808128000, end_ := some 63808214400 }
      ∧ d.Local = false :=
  disk_scenario sampleLib (AssetSetResponse.zero Int) "disk" 1 2 3 4 7 10 63808128000
    63808214400 rfl rfl rfl (by decide)

set_option maxRecDepth 100000 in
/-- C10 (counterexample). A Disk with non-nil properties and labels, a window equal to its
start and end, `TotalCost` equal to cost + adjustment + credit, and a nil `Breakdown`
pointer: the encoder writes `"breakdown":null`, the parser reads the text back, and
`InterfaceToDisk` panics on the object. Whatever the helpers and the parser are, a Disk
decode that returns nil leaves a non-nil `Breakdown`, so this Disk is never reproduced.
And a Node with 48 GPU hours over one day and a stored GPU count of 5 is written with
`"gpuCount":2.000000`, the value of `GPUs()`, and decoded with `GPUCount` 2. -/
theorem round_trip_counterexample :
    sampleAccessors.totalCost (.disk (sampleDiskAsset none))
        = (sampleDiskAsset none).Cost + (sampleDiskAsset none).adjustment
            + (sampleDiskAsset none).credit
    ∧ buffer sampleHelpers
        (callsOf (Disk.MarshalJSON sampleAccessors wireLib (sampleDiskAsset none)))
        = sampleDiskText "null"
    ∧ (decodeEncoded sampleHelpers wireLib
        (Disk.MarshalJSON sampleAccessors wireLib (sampleDiskAsset none))
        (Disk.InterfaceToDisk wireLib) (Disk.zero Int)).status = .panic .interfaceConversion
    ∧ (∀ (h : Helpers Int) (acc : Accessors Int) (lib : Lib Int),
        (decodeEncoded h lib (Disk.MarshalJSON acc lib (sampleDiskAsset none))
          (Disk.InterfaceToDisk lib) (Disk.zero Int)).status = .ok →
        (decodeEncoded h lib (Disk.MarshalJSON acc lib (sampleDiskAsset none))
          (Disk.InterfaceToDisk lib) (Disk.zero Int)).state.Breakdown
          ≠ (sampleDiskAsset none).Breakdown)
    ∧ sampleGpuNode.GPUCount = 5
    ∧ buffer sampleHelpers (callsOf (Node.MarshalJSON sampleAccessors wireLib sampleGpuNode))
        = sampleGpuNodeText
    ∧ (decodeEncoded sampleHelpers wireLib
        (Node.MarshalJSON sampleAccessors wireLib sampleGpuNode)
        (Node.InterfaceToNode wireLib) (Node.zero Int)).status = .ok
    ∧ (decodeEncoded sampleHelpers wireLib
        (Node.MarshalJSON sampleAccessors wireLib sampleGpuNode)
        (Node.InterfaceToNode wireLib) (Node.zero Int)).state
        = { sampleGpuNode with GPUCount := 2 } := by
  refine ⟨by decide, by decide, by decide, ?_, rfl, by decide, by decide, by decide⟩
  intro h acc lib hok heq
  rcases decodeEncoded_cases h lib (Disk.MarshalJSON acc lib (sampleDiskAsset none))
    (Disk.InterfaceToDisk lib) (Disk.zero Int) with ⟨-, hne⟩ | ⟨f, hf⟩
  · exact hne hok
  · rw [hf] at hok heq
    have hb := Disk.breakdown_of_ok lib (Disk.zero Int) f hok
    rw [heq] at hb
    exact absurd hb (by decide)

/-- C10 (amended). Round trip: take, for a kind, an asset whose properties pointer and
labels map are not nil (and, for Disk and Node, whose breakdown pointers are not nil),
whose window is its own start and end, whose start and end are returned by the timestamp
parser from their RFC 3339 renderings, for which (for the seven kinds with a base cost)
`TotalCost - adjustment - credit` evaluates to its `Cost`, and for which the JSON parser
reads the bytes `MarshalJSON` returns back to an object holding, under every key the
decoder reads, the value that was written. Then `json.Unmarshal` of those bytes followed
by the kind's decoder, into a fresh record, returns nil and reproduces the asset in every
field but two: Disk's `Local`, which is false after the decode, and Node's `GPUCount`,
which is the value of `GPUs()` that the encoder wrote under `gpuCount`. -/
theorem round_trip [Zero F] [Sub F] (h : Helpers F) (acc : Accessors F) (lib : Lib F) :
    (∀ a : Any F, wireReady lib a.properties a.labels a.start a.end_ →
        a.window = { start := some a.start, end_ := some a.end_ } →
        acc.totalCost (.any a) - a.adjustment - a.credit = a.Cost →
        readsBack h lib (Any.MarshalJSON acc lib a) readKeysGeneric →
        decodeEncoded h lib (Any.MarshalJSON acc lib a)
            (Any.InterfaceToAny lib) (Any.zero F)
          = ⟨a, .ok⟩)
    ∧ (∀ ca : Cloud F, wireReady lib ca.properties ca.labels ca.start ca.end_ →
        ca.window = { start := some ca.start, end_ := some ca.end_ } →
        acc.totalCost (.cloud ca) - ca.adjustment - ca.credit = ca.Cost →
        readsBack h lib (Cloud.MarshalJSON acc lib ca) readKeysCloud →
        decodeEncoded h lib (Cloud.MarshalJSON acc lib ca)
            (Cloud.InterfaceToCloud lib) (Cloud.zero F)
          = ⟨ca, .ok⟩)
    ∧ (∀ (cm : ClusterManagement F) (s e : Time), wireReady lib cm.properties cm.labels s e →
        cm.window = { start := some s, end_ := some e } →
        acc.totalCost (.clusterManagement cm) - cm.adjustment - cm.credit = cm.Cost →
        readsBack h lib (ClusterManagement.MarshalJSON acc lib cm) readKeysGeneric →
        decodeEncoded h lib (ClusterManagement.MarshalJSON acc lib cm)
            (ClusterManagement.InterfaceToClusterManagement lib) (ClusterManagement.zero F)
          = ⟨cm, .ok⟩)
    ∧ (∀ d : Disk F, wireReady lib d.properties d.labels d.start d.end_ →
        d.window = { start := some d.start, end_ := some d.end_ } →
        d.Breakdown.isSome = true →
        acc.totalCost (.disk d) - d.adjustment - d.credit = d.Cost →
        readsBack h lib (Disk.MarshalJSON acc lib d) readKeysDisk →
        decodeEncoded h lib (Disk.MarshalJSON acc lib d)
            (Disk.InterfaceToDisk lib) (Disk.zero F)
          = ⟨{ d with Local := false }, .ok⟩)
    ∧ (∀ n : Network F, wireReady lib n.properties n.labels n.start n.end_ →
        n.window = { start := some n.start, end_ := some n.end_ } →
        acc.totalCost (.network n) - n.adjustment - n.credit = n.Cost →
        readsBack h lib (Network.MarshalJSON acc lib n) readKeysGeneric →
        decodeEncoded h lib (Network.MarshalJSON acc lib n)
            (Network.InterfaceToNetwork lib) (Network.zero F)
          = ⟨n, .ok⟩)
    ∧ (∀ n : Node F, wireReady lib n.properties n.labels n.start n.end_ →
        n.window = { start := some n.start, end_ := some n.end_ } →
        n.CPUBreakdown.isSome = true →
        n.RAMBreakdown.isSome = true →
        readsBack h lib (Node.MarshalJSON acc lib n) readKeysNode →
        decodeEncoded h lib (Node.MarshalJSON acc lib n)
            (Node.InterfaceToNode lib) (Node.zero F)
          = ⟨{ n with GPUCount := acc.gpus n }, .ok⟩)
    ∧ (∀ lb : LoadBalancer F, wireReady lib lb.properties lb.labels lb.start lb.end_ →
        lb.window = { start := some lb.start, end_ := some lb.end_ } →
        acc.totalCost (.loadBalancer lb) - lb.adjustment - lb.credit = lb.Cost →
        readsBack h lib (LoadBalancer.MarshalJSON acc lib lb) readKeysGeneric →
        decodeEncoded h lib (LoadBalancer.MarshalJSON acc lib lb)
            (LoadBalancer.InterfaceToLoadBalancer lib) (LoadBalancer.zero F)
          = ⟨lb, .ok⟩)
    ∧ (∀ (sa : SharedAsset F) (s e : Time), wireReady lib sa.properties sa.labels s e →
        sa.window = { start := some s, end_ := some e } →
        acc.totalCost (.sharedAsset sa) - sa.adjustment - sa.credit = sa.Cost →
        readsBack h lib (SharedAsset.MarshalJSON acc lib sa) readKeysGeneric →
        decodeEncoded h lib (SharedAsset.MarshalJSON acc lib sa)
            (SharedAsset.InterfaceToSharedAsset lib) (SharedAsset.zero F)
          = ⟨sa, .ok⟩) :=
  ⟨fun a hr hw hc hrb =>
     (decodeEncoded_of_readsBack h lib _ readKeysGeneric _ _
       (fun fmap fmap' hk => congr_of_readKeys_Any lib fmap fmap' hk _) hrb).trans
       (round_trip_of_Any acc lib a hr hw hc),
   fun ca hr hw hc hrb =>
     (decodeEncoded_of_readsBack h lib _ readKeysCloud _ _
       (fun fmap fmap' hk => congr_of_readKeys_Cloud lib fmap fmap' hk _) hrb).trans
       (round_trip_of_Cloud acc lib ca hr hw hc),
   fun cm s e hr hw hc hrb =>
     (decodeEncoded_of_readsBack h lib _ readKeysGeneric _ _
       (fun fmap fmap' hk => congr_of_readKeys_ClusterManagement lib fmap fmap' hk _) hrb).trans
       (round_trip_of_ClusterManagement acc lib cm s e hr hw hc),
   fun d hr hw hb0 hc hrb =>
     (decodeEncoded_of_readsBack h lib _ readKeysDisk _ _
       (fun fmap fmap' hk => congr_of_readKeys_Disk lib fmap fmap' hk _) hrb).trans
       (round_trip_of_Disk acc lib d hr hw hb0 hc),
   fun n hr hw hc hrb =>
     (decodeEncoded_of_readsBack h lib _ readKeysGeneric _ _
       (fun fmap fmap' hk => congr_of_readKeys_Network lib fmap fmap' hk _) hrb).trans
       (round_trip_of_Network acc lib n hr hw hc),
   fun n hr hw hb0 hb1 hrb =>
     (decodeEncoded_of_readsBack h lib _ readKeysNode _ _
       (fun fmap fmap' hk => congr_of_readKeys_Node lib fmap fmap' hk _) hrb).trans
       (round_trip_of_Node acc lib n hr hw hb0 hb1),
   fun lb hr hw hc hrb =>
     (decodeEncoded_of_readsBack h lib _ readKeysGeneric _ _
       (fun fmap fmap' hk => congr_of_readKeys_LoadBalancer lib fmap fmap' hk _) hrb).trans
       (round_trip_of_LoadBalancer acc lib lb hr hw hc),
   fun sa s e hr hw hc hrb =>
     (decodeEncoded_of_readsBack h lib _ readKeysGeneric _ _
       (fun fmap fmap' hk => congr_of_readKeys_SharedAsset lib fmap fmap' hk _) hrb).trans
       (round_trip_of_SharedAsset acc lib sa s e hr hw hc)⟩

set_option maxRecDepth 100000 in
/-- Witness of C10 (amended): the sample Disk with a breakdown, the sample helpers and the
parser that knows the text they write for it. -/
theorem round_trip_witness :
    wireReady wireLib (sampleDiskAsset (some ⟨1, 2, 3, 4⟩)).properties
      (sampleDiskAsset (some ⟨1, 2, 3, 4⟩)).labels (sampleDiskAsset (some ⟨1, 2, 3, 4⟩)).start
      (sampleDiskAsset (some ⟨1, 2, 3, 4⟩)).end_
    ∧ buffer sampleHelpers (callsOf
        (Disk.MarshalJSON sampleAccessors wireLib (sampleDiskAsset (some ⟨1, 2, 3, 4⟩))))
        = sampleDiskText sampleBreakdownText
    ∧ readsBack sampleHelpers wireLib
        (Disk.MarshalJSON sampleAccessors wireLib (sampleDiskAsset (some ⟨1, 2, 3, 4⟩)))
        readKeysDisk
    ∧ decodeEncoded sampleHelpers wireLib
        (Disk.MarshalJSON sampleAccessors wireLib (sampleDiskAsset (some ⟨1, 2, 3, 4⟩)))
        (Disk.InterfaceToDisk wireLib) (Disk.zero Int)
      = ⟨{ sampleDiskAsset (some ⟨1, 2, 3, 4⟩) with Local := false }, .ok⟩ :=
  have hr : wireReady wireLib (sampleDiskAsset (some ⟨1, 2, 3, 4⟩)).properties
      (sampleDiskAsset (some ⟨1, 2, 3, 4⟩)).labels (sampleDiskAsset (some ⟨1, 2, 3, 4⟩)).start
      (sampleDiskAsset (some ⟨1, 2, 3, 4⟩)).end_ :=
    ⟨rfl, ⟨[("app", "db")], rfl, by decide⟩, rfl, rfl⟩
  have ht : buffer sampleHelpers (callsOf
      (Disk.MarshalJSON sampleAccessors wireLib (sampleDiskAsset (some ⟨1, 2, 3, 4⟩))))
      = sampleDiskText sampleBreakdownText := by decide
  have hrb : readsBack sampleHelpers wireLib
      (Disk.MarshalJSON sampleAccessors wireLib (sampleDiskAsset (some ⟨1, 2, 3, 4⟩)))
      readKeysDisk := by
    intro calls hc
    cases hc
    have hu : wireLib.unmarshal (sampleDiskText sampleBreakdownText)
        = .ok (.obj (sampleParsedDisk sampleParsedBreakdown)) := by
      simp only [wireLib, if_true]
    exact ⟨sampleParsedDisk sampleParsedBreakdown, (congrArg wireLib.unmarshal ht).trans hu,
      fun k _ => rfl⟩
  ⟨hr, ht, hrb, (round_trip sampleHelpers sampleAccessors wireLib).2.2.2.1
    (sampleDiskAsset (some ⟨1, 2, 3, 4⟩)) hr rfl rfl (by decide) hrb⟩

/-- C11 (counterexample). An entry whose `properties` and `labels` are objects, whose
`start` and `end` are strings, whose `start` is rejected by the timestamp parser, and whose
`assetPricingModels` is a number: the decoder does not return the parser's error, it
panics on the pricing-model assertion, which comes before the timestamps. -/
theorem timestamp_error_counterexample :
    (index sampleBadStartPricing "properties").isObj = true
    ∧ (index sampleBadStartPricing "labels").isObj = true
    ∧ index sampleBadStartPricing "start" = .str "yesterday"
    ∧ (index sampleBadStartPricing "end").isStr = true
    ∧ sampleLib.parseRFC3339 "yesterday" = .error "parsing time: cannot parse"
    ∧ (Any.InterfaceToAny sampleLib (Any.zero Int) (.obj sampleBadStartPricing)).status
        = .panic .interfaceConversion := by
  refine ⟨rfl, rfl, rfl, rfl, rfl, by decide⟩

/-- C11 (amended). Timestamp errors propagate unchanged: when the opening block succeeds
up to the timestamps (`properties` an object, `assetPricingModels` absent or an object,
`labels` an object of strings) and the timestamp parser returns the error `err` on the
`start` string, or, `start` being accepted, on the `end` string, then each of the eight
decoders returns exactly `err` and leaves its receiver as it was; a collection decode in
which that entry is the first to fail returns `err`, and so does a range decode in which
that collection is the first to fail. -/
theorem timestamp_error_propagates [Zero F] [Sub F] (lib : Lib F)
    (fmap : List (String × JSON F)) (err : Error) (hs : validUpToTime fmap = true)
    (he : timestampError lib fmap = some err) :
    (∀ a, Any.InterfaceToAny lib a (.obj fmap) = ⟨a, .error err⟩)
    ∧ (∀ ca, Cloud.InterfaceToCloud lib ca (.obj fmap) = ⟨ca, .error err⟩)
    ∧ (∀ cm, ClusterManagement.InterfaceToClusterManagement lib cm (.obj fmap)
        = ⟨cm, .error err⟩)
    ∧ (∀ d, Disk.InterfaceToDisk lib d (.obj fmap) = ⟨d, .error err⟩)
    ∧ (∀ n, Network.InterfaceToNetwork lib n (.obj fmap) = ⟨n, .error err⟩)
    ∧ (∀ n, Node.InterfaceToNode lib n (.obj fmap) = ⟨n, .error err⟩)
    ∧ (∀ lb, LoadBalancer.InterfaceToLoadBalancer lib lb (.obj fmap) = ⟨lb, .error err⟩)
    ∧ (∀ sa, SharedAsset.InterfaceToSharedAsset lib sa (.obj fmap) = ⟨sa, .error err⟩)
    ∧ (∀ (asr : AssetSetResponse F) (pre post : GoMap (Option RawMessage)) (key : String)
        (raw : RawMessage), lib.unmarshal raw = .ok (.obj fmap) →
        (∀ e ∈ pre, isOk (decodeEntry lib e.2) = true) →
        (AssetSetResponse.RawMessageToAssetSetResponse lib asr
            (pre ++ (key, some raw) :: post)).status = .error err
        ∧ ∀ (asrr : AssetSetRangeResponse F) (b : RawMessage)
            (bpre bpost : List (GoMap (Option RawMessage))),
            lib.unmarshalRawMapList b = .ok (bpre ++ (pre ++ (key, some raw) :: post) :: bpost) →
            (∀ m ∈ bpre, (AssetSetResponse.RawMessageToAssetSetResponse lib
              (AssetSetResponse.zero F) m).status = .ok) →
            (AssetSetRangeResponse.UnmarshalJSON lib asrr b).status = .error err) := by
  have hpc := parseCommon_time_error lib fmap err hs he
  refine ⟨?_, ?_, ?_, ?_, ?_, ?_, ?_, ?_, ?_⟩
  · intro a; simp [Any.InterfaceToAny, assertMap, hpc, Fail.toStatus]
  · intro a; simp [Cloud.InterfaceToCloud, assertMap, hpc, Fail.toStatus]
  · intro a
    simp [ClusterManagement.InterfaceToClusterManagement, assertMap, hpc, Fail.toStatus]
  · intro a; simp [Disk.InterfaceToDisk, assertMap, hpc, Fail.toStatus]
  · intro a; simp [Network.InterfaceToNetwork, assertMap, hpc, Fail.toStatus]
  · intro a; simp [Node.InterfaceToNode, assertMap, hpc, Fail.toStatus]
  · intro a; simp [LoadBalancer.InterfaceToLoadBalancer, assertMap, hpc, Fail.toStatus]
  · intro a; simp [SharedAsset.InterfaceToSharedAsset, assertMap, hpc, Fail.toStatus]
  · intro asr pre post key raw hraw hpre
    have hd := decodeEntry_of_parseCommon_error lib raw fmap _ hraw hpc
    have hcoll : ∀ asr' : AssetSetResponse F,
        (AssetSetResponse.RawMessageToAssetSetResponse lib asr'
          (pre ++ (key, some raw) :: post)).status = .error err := by
      intro asr'
      simp [AssetSetResponse.RawMessageToAssetSetResponse,
        decodeLoop_first_error lib pre post key (some raw) [] _ hpre hd, Fail.toStatus]
    refine ⟨hcoll asr, ?_⟩
    intro asrr b bpre bpost hb hbpre
    simp [AssetSetRangeResponse.UnmarshalJSON, hb,
      rangeLoop_first_error lib bpre bpost _ [] err hbpre (hcoll _), Fail.toStatus]

/-- Witness of C11 (amended): the entry with `start` `yesterday`, decoded as `Any`, as the
second entry of a collection, and in the second bucket of a range. -/
theorem timestamp_error_propagates_witness :
    validUpToTime sampleBadStart = true
    ∧ timestampError badStartLib sampleBadStart = some "parsing time: cannot parse"
    ∧ Any.InterfaceToAny badStartLib (Any.zero Int) (.obj sampleBadStart)
        = ⟨Any.zero Int, .error "parsing time: cannot parse"⟩
    ∧ (AssetSetResponse.RawMessageToAssetSetResponse badStartLib (AssetSetResponse.zero Int)
        ([("g2", some "generic")] ++ ("b", some "badstart") :: [])).status
        = .error "parsing time: cannot parse"
    ∧ (AssetSetRangeResponse.UnmarshalJSON badStartLib ⟨[]⟩ "range").status
        = .error "parsing time: cannot parse" :=
  have t := timestamp_error_propagates badStartLib sampleBadStart
    "parsing time: cannot parse" (by decide) rfl
  have c := t.2.2.2.2.2.2.2.2 (AssetSetResponse.zero Int) [("g2", some "generic")] []
    "b" "badstart" rfl (by decide)
  ⟨by decide, rfl, t.1 (Any.zero Int), c.1,
    c.2 ⟨[]⟩ "range" [[("g1", some "generic")]] [] rfl (by decide)⟩

/-- C12 (the code at the failing input). Decoding the entry whose `adjustment` is a JSON
string into a fresh `Any` ends in a panic, and at that point the receiver has been
modified: its properties, labels, start, end and window hold the decoded values. -/
theorem record_modified_on_panic :
    (Any.InterfaceToAny sampleLib (Any.zero Int) sampleStringAdjustment).status
        = .panic .interfaceConversion
    ∧ (Any.InterfaceToAny sampleLib (Any.zero Int) sampleStringAdjustment).state
        ≠ Any.zero Int
    ∧ (Any.InterfaceToAny sampleLib (Any.zero Int) sampleStringAdjustment).state
        = { Any.zero Int with
            properties := some {}, labels := some [],
            start := 63808128000, end_ := 63808214400,
            window := { start := some 63808128000, end_ := some 63808214400 } } := by
  decide

/-- C13. Properties decoder: `toAssetProp` is total; each of its eleven fields is the
string under the field's key, or the empty string when the key is absent or holds a value
of another type; and the result depends on the object only through these eleven keys. -/
theorem properties_decoder (p : List (String × JSON F)) :
    toAssetProp p =
      { Category := stringOr (index p "category") "",
        Provider := stringOr (index p "provider") "",
        Account := stringOr (index p "account") "",
        Project := stringOr (index p "project") "",
        Service := stringOr (index p "service") "",
        Cluster := stringOr (index p "cluster") "",
        Name := stringOr (index p "name") "",
        ProviderID := stringOr (index p "providerID") "",
        Region := stringOr (index p "region") "",
        PricingSource := stringOr (index p "pricingSource") "",
        Currency := stringOr (index p "currency") "" }
    ∧ (∀ k v, index p k = JSON.str v → stringOr (index p k) "" = v)
    ∧ (∀ k, (index p k).isStr = false → stringOr (index p k) "" = "")
    ∧ ∀ q : List (String × JSON F), (∀ k ∈ propertyKeys, index p k = index q k) →
        toAssetProp p = toAssetProp q := by
  refine ⟨toAssetProp_eq p, ?_, ?_, ?_⟩
  · intro k v h
    rw [h]; rfl
  · intro k h
    cases hv : index p k <;> simp [hv, JSON.isStr] at h <;> rfl
  · intro q h
    rw [toAssetProp_eq p, toAssetProp_eq q]
    simp only [propertyKeys, List.mem_cons, List.mem_singleton, forall_eq_or_imp, forall_eq,
      List.not_mem_nil] at h
    obtain ⟨h1, h2, h3, h4, h5, h6, h7, h8, h9, h10, h11, -⟩ := h
    rw [h1, h2, h3, h4, h5, h6, h7, h8, h9, h10, h11]

/-- Witness of C13: two objects that agree on the eleven keys and differ elsewhere. -/
theorem properties_decoder_witness :
    (∀ k ∈ propertyKeys,
      index [("provider", (.str "aws" : JSON Int)), ("region", .num 3)] k
        = index [("zone", (.str "a" : JSON Int)), ("provider", .str "aws"),
            ("region", .num 3)] k)
    ∧ toAssetProp [("provider", (.str "aws" : JSON Int)), ("region", .num 3)]
        = toAssetProp [("zone", (.str "a" : JSON Int)), ("provider", .str "aws"),
            ("region", .num 3)] :=
  have h : ∀ k ∈ propertyKeys,
      index [("provider", (.str "aws" : JSON Int)), ("region", .num 3)] k
        = index [("zone", (.str "a" : JSON Int)), ("provider", .str "aws"),
            ("region", .num 3)] k := by
    intro k hk
    simp only [propertyKeys, List.mem_cons, List.mem_singleton, List.not_mem_nil,
      or_false] at hk
    rcases hk with rfl | rfl | rfl | rfl | rfl | rfl | rfl | rfl | rfl | rfl | rfl <;> rfl
  ⟨h, (properties_decoder _).2.2.2 _ h⟩

/-- C14. Pricing-model presence: for each kind and each entry its decoder accepts, the
decode returns nil and the decoded pricing-model reference is the one computed from the
value under `assetPricingModels`: nil when the key is absent (or null), and, when the key
holds an object, a non-nil record whose three fields are the object's numbers under
`preemptible`, `reservedInstance`, `savingsPlan`, or 0 where the object holds no number. -/
theorem pricing_model_presence [Zero F] [Sub F] (lib : Lib F)
    (fmap : List (String × JSON F)) :
    (∀ a, validGeneric lib fmap = true →
      (Any.InterfaceToAny lib a (.obj fmap)).status = .ok
      ∧ (Any.InterfaceToAny lib a (.obj fmap)).state.assetPricingModels
          = pricingOf (index fmap "assetPricingModels"))
    ∧ (∀ ca, validCloud lib fmap = true →
      (Cloud.InterfaceToCloud lib ca (.obj fmap)).status = .ok
      ∧ (Cloud.InterfaceToCloud lib ca (.obj fmap)).state.assetPricingModels
          = pricingOf (index fmap "assetPricingModels"))
    ∧ (∀ cm, validGeneric lib fmap = true →
      (ClusterManagement.InterfaceToClusterManagement lib cm (.obj fmap)).status = .ok
      ∧ (ClusterManagement.InterfaceToClusterManagement lib cm (.obj fmap)).state.assetPricingModels
          = pricingOf (index fmap "assetPricingModels"))
    ∧ (∀ d, validDisk lib fmap = true →
      (Disk.InterfaceToDisk lib d (.obj fmap)).status = .ok
      ∧ (Disk.InterfaceToDisk lib d (.obj fmap)).state.assetPricingModels
          = pricingOf (index fmap "assetPricingModels"))
    ∧ (∀ n, validGeneric lib fmap = true →
      (Network.InterfaceToNetwork lib n (.obj fmap)).status = .ok
      ∧ (Network.InterfaceToNetwork lib n (.obj fmap)).state.assetPricingModels
          = pricingOf (index fmap "assetPricingModels"))
    ∧ (∀ n, validNode lib fmap = true →
      (Node.InterfaceToNode lib n (.obj fmap)).status = .ok
      ∧ (Node.InterfaceToNode lib n (.obj fmap)).state.assetPricingModels
          = pricingOf (index fmap "assetPricingModels"))
    ∧ (∀ lb, validGeneric lib fmap = true →
      (LoadBalancer.InterfaceToLoadBalancer lib lb (.obj fmap)).status = .ok
      ∧ (LoadBalancer.InterfaceToLoadBalancer lib lb (.obj fmap)).state.assetPricingModels
          = pricingOf (index fmap "assetPricingModels"))
    ∧ (∀ sa, validGeneric lib fmap = true →
      (SharedAsset.InterfaceToSharedAsset lib sa (.obj fmap)).status = .ok
      ∧ (SharedAsset.InterfaceToSharedAsset lib sa (.obj fmap)).state.assetPricingModels
          = pricingOf (index fmap "assetPricingModels"))
    ∧ pricingOf (JSON.null : JSON F) = none
    ∧ ∀ m : List (String × JSON F), pricingOf (.obj m) = some
        { Preemptible := floatOr (index m "preemptible") 0,
          ReservedInstance := floatOr (index m "reservedInstance") 0,
          SavingsPlan := floatOr (index m "savingsPlan") 0 } := by
  refine ⟨?_, ?_, ?_, ?_, ?_, ?_, ?_, ?_, rfl, pricingOf_obj⟩
  · intro a hv
    obtain ⟨c, hc, hd⟩ := decoded_of_valid_Any lib fmap hv a
    rw [hd]
    exact ⟨rfl, parseCommon_pricing lib fmap c hc⟩
  · intro ca hv
    obtain ⟨c, hc, hd⟩ := decoded_of_valid_Cloud lib fmap hv ca
    rw [hd]
    exact ⟨rfl, parseCommon_pricing lib fmap c hc⟩
  · intro cm hv
    obtain ⟨c, hc, hd⟩ := decoded_of_valid_ClusterManagement lib fmap hv cm
    rw [hd]
    exact ⟨rfl, parseCommon_pricing lib fmap c hc⟩
  · intro d hv
    obtain ⟨c, fb, hc, -, hd⟩ := decoded_of_valid_Disk lib fmap hv d
    rw [hd]
    exact ⟨rfl, parseCommon_pricing lib fmap c hc⟩
  · intro n hv
    obtain ⟨c, hc, hd⟩ := decoded_of_valid_Network lib fmap hv n
    rw [hd]
    exact ⟨rfl, parseCommon_pricing lib fmap c hc⟩
  · intro n hv
    obtain ⟨c, fc, fr, hc, -, -, hd⟩ := decoded_of_valid_Node lib fmap hv n
    rw [hd]
    exact ⟨rfl, parseCommon_pricing lib fmap c hc⟩
  · intro lb hv
    obtain ⟨c, hc, hd⟩ := decoded_of_valid_LoadBalancer lib fmap hv lb
    rw [hd]
    exact ⟨rfl, parseCommon_pricing lib fmap c hc⟩
  · intro sa hv
    obtain ⟨c, hc, hd⟩ := decoded_of_valid_SharedAsset lib fmap hv sa
    rw [hd]
    exact ⟨rfl, parseCommon_pricing lib fmap c hc⟩

/-- Witness of C14: an entry whose pricing-model object holds one number, decoded as `Any`. -/
theorem pricing_model_presence_witness :
    validGeneric sampleLib samplePricing = true
    ∧ (Any.InterfaceToAny sampleLib (Any.zero Int) (.obj samplePricing)).status = .ok
    ∧ (Any.InterfaceToAny sampleLib (Any.zero Int) (.obj samplePricing)).state.assetPricingModels
        = pricingOf (index samplePricing "assetPricingModels") :=
  ⟨by decide, (pricing_model_presence sampleLib samplePricing).1 (Any.zero Int) (by decide)⟩

/-- C15 (counterexample). An entry in which the key `assetPricingModels` is present with
the value `null`: the decode returns nil, with a nil pricing-model reference. -/
theorem pricing_model_null_counterexample :
    List.lookup "assetPricingModels" sampleNullPricing = some JSON.null
    ∧ (Any.InterfaceToAny sampleLib (Any.zero Int) (.obj sampleNullPricing)).status = .ok
    ∧ (Any.InterfaceToAny sampleLib (Any.zero Int)
        (.obj sampleNullPricing)).state.assetPricingModels = none := by
  refine ⟨rfl, by decide, by decide⟩

/-- C15 (amended). Pricing-model shape: when `assetPricingModels` holds a value that is
neither nil (key absent, or `null`) nor an object (so a number, a string, a boolean or an
array), each of the eight decoders fails, leaving its receiver as it was. -/
theorem pricing_model_shape [Zero F] [Sub F] (lib : Lib F) (fmap : List (String × JSON F))
    (hn : (index fmap "assetPricingModels").isNull = false)
    (ho : (index fmap "assetPricingModels").isObj = false) :
    (∀ a, Any.InterfaceToAny lib a (.obj fmap) = ⟨a, .panic .interfaceConversion⟩)
    ∧ (∀ ca, Cloud.InterfaceToCloud lib ca (.obj fmap) = ⟨ca, .panic .interfaceConversion⟩)
    ∧ (∀ cm, ClusterManagement.InterfaceToClusterManagement lib cm (.obj fmap)
        = ⟨cm, .panic .interfaceConversion⟩)
    ∧ (∀ d, Disk.InterfaceToDisk lib d (.obj fmap) = ⟨d, .panic .interfaceConversion⟩)
    ∧ (∀ n, Network.InterfaceToNetwork lib n (.obj fmap) = ⟨n, .panic .interfaceConversion⟩)
    ∧ (∀ n, Node.InterfaceToNode lib n (.obj fmap) = ⟨n, .panic .interfaceConversion⟩)
    ∧ (∀ lb, LoadBalancer.InterfaceToLoadBalancer lib lb (.obj fmap)
        = ⟨lb, .panic .interfaceConversion⟩)
    ∧ (∀ sa, SharedAsset.InterfaceToSharedAsset lib sa (.obj fmap)
        = ⟨sa, .panic .interfaceConversion⟩) :=
  decoders_fail_of_parseCommon_error lib fmap _ (parseCommon_error_of_pricing lib fmap hn ho)

/-- Witness of C15 (amended): an entry whose `assetPricingModels` is a string. -/
theorem pricing_model_shape_witness :
    (index sampleStringPricing "assetPricingModels").isNull = false
    ∧ (index sampleStringPricing "assetPricingModels").isObj = false
    ∧ Any.InterfaceToAny sampleLib (Any.zero Int) (.obj sampleStringPricing)
        = ⟨Any.zero Int, .panic .interfaceConversion⟩ :=
  ⟨rfl, rfl, (pricing_model_shape sampleLib sampleStringPricing rfl rfl).1 (Any.zero Int)⟩

/-- C16. Required breakdown objects: `InterfaceToDisk` fails whenever `breakdown` is absent
or not an object, `InterfaceToNode` fails whenever `cpuBreakdown` or `ramBreakdown` is
absent or not an object, and the decoders of the six other kinds return nil on every entry
they accept, a condition that does not mention any breakdown key. -/
theorem required_breakdowns [Zero F] [Sub F] (lib : Lib F) (fmap : List (String × JSON F)) :
    ((index fmap "breakdown").isObj = false →
      ∀ d, (Disk.InterfaceToDisk lib d (.obj fmap)).status ≠ .ok)
    ∧ ((index fmap "cpuBreakdown").isObj = false ∨ (index fmap "ramBreakdown").isObj = false →
      ∀ n, (Node.InterfaceToNode lib n (.obj fmap)).status ≠ .ok)
    ∧ (validCloud lib fmap = true →
      ∀ ca, (Cloud.InterfaceToCloud lib ca (.obj fmap)).status = .ok)
    ∧ (validGeneric lib fmap = true →
      (∀ a, (Any.InterfaceToAny lib a (.obj fmap)).status = .ok)
      ∧ (∀ cm, (ClusterManagement.InterfaceToClusterManagement lib cm (.obj fmap)).status = .ok)
      ∧ (∀ n, (Network.InterfaceToNetwork lib n (.obj fmap)).status = .ok)
      ∧ (∀ lb, (LoadBalancer.InterfaceToLoadBalancer lib lb (.obj fmap)).status = .ok)
      ∧ (∀ sa, (SharedAsset.InterfaceToSharedAsset lib sa (.obj fmap)).status = .ok)) := by
  refine ⟨disk_fails_of_breakdown lib fmap, node_fails_of_breakdown lib fmap, ?_, ?_⟩
  · intro hv ca
    obtain ⟨c, -, hd⟩ := decoded_of_valid_Cloud lib fmap hv ca
    rw [hd]
  · intro hv
    refine ⟨?_, ?_, ?_, ?_, ?_⟩
    · intro a
      obtain ⟨c, -, hd⟩ := decoded_of_valid_Any lib fmap hv a
      rw [hd]
    · intro a
      obtain ⟨c, -, hd⟩ := decoded_of_valid_ClusterManagement lib fmap hv a
      rw [hd]
    · intro a
      obtain ⟨c, -, hd⟩ := decoded_of_valid_Network lib fmap hv a
      rw [hd]
    · intro a
      obtain ⟨c, -, hd⟩ := decoded_of_valid_LoadBalancer lib fmap hv a
      rw [hd]
    · intro a
      obtain ⟨c, -, hd⟩ := decoded_of_valid_SharedAsset lib fmap hv a
      rw [hd]

/-- Witness of C16: the sample entry without discriminator has no breakdown key; it fails
as a Disk and decodes as `Any`. -/
theorem required_breakdowns_witness :
    (index sampleGenericMembers "breakdown").isObj = false
    ∧ validGeneric sampleLib sampleGenericMembers = true
    ∧ (Disk.InterfaceToDisk sampleLib (Disk.zero Int) (.obj sampleGenericMembers)).status ≠ .ok
    ∧ (Any.InterfaceToAny sampleLib (Any.zero Int) (.obj sampleGenericMembers)).status = .ok :=
  have t := required_breakdowns sampleLib sampleGenericMembers
  ⟨rfl, by decide, t.1 rfl (Disk.zero Int), (t.2.2.2 (by decide)).1 (Any.zero Int)⟩

/-- C17 (the code at the failing inputs). With valid common fields, a kind-specific
optional scalar of the other scalar type makes the decoder panic on the unchecked
assertion that follows `getTypedVal`: a number under Cloud's `usageType` or `usageDetail`,
Disk's `storageClass` or Node's `nodeType`, a string under Disk's `byteHours` or Node's
`cpuCoreHours`, `ramByteHours`, `GPUHours`, `cpuCost`, `gpuCost`, `gpuCount` or `ramCost`. -/
theorem kind_scalar_mismatch_panics [Zero F] [Sub F] (lib : Lib F)
    (fmap : List (String × JSON F)) (hv : validCommon lib fmap = true) :
    ((index fmap "usageType").isNum = true ∨ (index fmap "usageDetail").isNum = true →
      ∀ ca, (Cloud.InterfaceToCloud lib ca (.obj fmap)).status = .panic .interfaceConversion)
    ∧ ((index fmap "storageClass").isNum = true ∨ (index fmap "byteHours").isStr = true →
      ∀ d, (Disk.InterfaceToDisk lib d (.obj fmap)).status = .panic .interfaceConversion)
    ∧ ((index fmap "nodeType").isNum = true ∨ (index fmap "cpuCoreHours").isStr = true
        ∨ (index fmap "ramByteHours").isStr = true ∨ (index fmap "GPUHours").isStr = true
        ∨ (index fmap "cpuCost").isStr = true ∨ (index fmap "gpuCost").isStr = true
        ∨ (index fmap "gpuCount").isStr = true ∨ (index fmap "ramCost").isStr = true →
      ∀ n, (Node.InterfaceToNode lib n (.obj fmap)).status = .panic .interfaceConversion) := by
  obtain ⟨c, hc⟩ := parseCommon_of_valid lib fmap hv
  refine ⟨?_, ?_, ?_⟩
  · rintro (h | h) ca
    · exact panic_of_Cloud_usageType lib fmap c hc h ca
    · exact panic_of_Cloud_usageDetail lib fmap c hc h ca
  · rintro (h | h) d
    · exact panic_of_Disk_storageClass lib fmap c hc h d
    · exact panic_of_Disk_byteHours lib fmap c hc h d
  · rintro (h | h | h | h | h | h | h | h) n
    · exact panic_of_Node_nodeType lib fmap c hc h n
    · exact panic_of_Node_cpuCoreHours lib fmap c hc h n
    · exact panic_of_Node_ramByteHours lib fmap c hc h n
    · exact panic_of_Node_GPUHours lib fmap c hc h n
    · exact panic_of_Node_cpuCost lib fmap c hc h n
    · exact panic_of_Node_gpuCost lib fmap c hc h n
    · exact panic_of_Node_gpuCount lib fmap c hc h n
    · exact panic_of_Node_ramCost lib fmap c hc h n

/-- Witness of C17: the Cloud entry with `"usageType": 5`. -/
theorem kind_scalar_mismatch_panics_witness :
    validCommon sampleLib sampleNumericUsage = true
    ∧ (index sampleNumericUsage "usageType").isNum = true
    ∧ (Cloud.InterfaceToCloud sampleLib (Cloud.zero Int) (.obj sampleNumericUsage)).status
        = .panic .interfaceConversion :=
  ⟨by decide, rfl, (kind_scalar_mismatch_panics sampleLib sampleNumericUsage (by decide)).1
    (Or.inl rfl) (Cloud.zero Int)⟩

/-- C18. Window invariant after decode: whenever a decoder returns nil, the entry's `start`
and `end` are strings the timestamp parser accepts, the decoded window runs from the
instant parsed from `start` to the instant parsed from `end`, and these are the record's
own start and end: its `start` and `end` fields, or, for ClusterManagement and SharedAsset,
which keep their interval in the window only, what `Start()` and `End()` read from it.
No decoder reads the `window` key. -/
theorem window_invariant [Zero F] [Sub F] (lib : Lib F) (itf : JSON F) :
    (∀ a, (Any.InterfaceToAny lib a itf).status = .ok →
      ∃ fmap s e t0 t1, itf = .obj fmap ∧ index fmap "start" = .str s
        ∧ index fmap "end" = .str e
        ∧ lib.parseRFC3339 s = .ok t0 ∧ lib.parseRFC3339 e = .ok t1
        ∧ (Any.InterfaceToAny lib a itf).state.window = { start := some t0, end_ := some t1 }
        ∧ (Any.InterfaceToAny lib a itf).state.start = t0
        ∧ (Any.InterfaceToAny lib a itf).state.end_ = t1)
    ∧ (∀ ca, (Cloud.InterfaceToCloud lib ca itf).status = .ok →
      ∃ fmap s e t0 t1, itf = .obj fmap ∧ index fmap "start" = .str s
        ∧ index fmap "end" = .str e
        ∧ lib.parseRFC3339 s = .ok t0 ∧ lib.parseRFC3339 e = .ok t1
        ∧ (Cloud.InterfaceToCloud lib ca itf).state.window
            = { start := some t0, end_ := some t1 }
        ∧ (Cloud.InterfaceToCloud lib ca itf).state.start = t0
        ∧ (Cloud.InterfaceToCloud lib ca itf).state.end_ = t1)
    ∧ (∀ cm, (ClusterManagement.InterfaceToClusterManagement lib cm itf).status = .ok →
      ∃ fmap s e t0 t1, itf = .obj fmap ∧ index fmap "start" = .str s
        ∧ index fmap "end" = .str e
        ∧ lib.parseRFC3339 s = .ok t0 ∧ lib.parseRFC3339 e = .ok t1
        ∧ (ClusterManagement.InterfaceToClusterManagement lib cm itf).state.window
            = { start := some t0, end_ := some t1 }
        ∧ derefTime (ClusterManagement.InterfaceToClusterManagement lib cm itf).state.window.start
            = .ok t0
        ∧ derefTime (ClusterManagement.InterfaceToClusterManagement lib cm itf).state.window.end_
            = .ok t1)
    ∧ (∀ d, (Disk.InterfaceToDisk lib d itf).status = .ok →
      ∃ fmap s e t0 t1, itf = .obj fmap ∧ index fmap "start" = .str s
        ∧ index fmap "end" = .str e
        ∧ lib.parseRFC3339 s = .ok t0 ∧ lib.parseRFC3339 e = .ok t1
        ∧ (Disk.InterfaceToDisk lib d itf).state.window = { start := some t0, end_ := some t1 }
        ∧ (Disk.InterfaceToDisk lib d itf).state.start = t0
        ∧ (Disk.InterfaceToDisk lib d itf).state.end_ = t1)
    ∧ (∀ n, (Network.InterfaceToNetwork lib n itf).status = .ok →
      ∃ fmap s e t0 t1, itf = .obj fmap ∧ index fmap "start" = .str s
        ∧ index fmap "end" = .str e
        ∧ lib.parseRFC3339 s = .ok t0 ∧ lib.parseRFC3339 e = .ok t1
        ∧ (Network.InterfaceToNetwork lib n itf).state.window
            = { start := some t0, end_ := some t1 }
        ∧ (Network.InterfaceToNetwork lib n itf).state.start = t0
        ∧ (Network.InterfaceToNetwork lib n itf).state.end_ = t1)
    ∧ (∀ n, (Node.InterfaceToNode lib n itf).status = .ok →
      ∃ fmap s e t0 t1, itf = .obj fmap ∧ index fmap "start" = .str s
        ∧ index fmap "end" = .str e
        ∧ lib.parseRFC3339 s = .ok t0 ∧ lib.parseRFC3339 e = .ok t1
        ∧ (Node.InterfaceToNode lib n itf).state.window = { start := some t0, end_ := some t1 }
        ∧ (Node.InterfaceToNode lib n itf).state.start = t0
        ∧ (Node.InterfaceToNode lib n itf).state.end_ = t1)
    ∧ (∀ lb, (LoadBalancer.InterfaceToLoadBalancer lib lb itf).status = .ok →
      ∃ fmap s e t0 t1, itf = .obj fmap ∧ index fmap "start" = .str s
        ∧ index fmap "end" = .str e
        ∧ lib.parseRFC3339 s = .ok t0 ∧ lib.parseRFC3339 e = .ok t1
        ∧ (LoadBalancer.InterfaceToLoadBalancer lib lb itf).state.window
            = { start := some t0, end_ := some t1 }
        ∧ (LoadBalancer.InterfaceToLoadBalancer lib lb itf).state.start = t0
        ∧ (LoadBalancer.InterfaceToLoadBalancer lib lb itf).state.end_ = t1)
    ∧ (∀ sa, (SharedAsset.InterfaceToSharedAsset lib sa itf).status = .ok →
      ∃ fmap s e t0 t1, itf = .obj fmap ∧ index fmap "start" = .str s
        ∧ index fmap "end" = .str e
        ∧ lib.parseRFC3339 s = .ok t0 ∧ lib.parseRFC3339 e = .ok t1
        ∧ (SharedAsset.InterfaceToSharedAsset lib sa itf).state.window
            = { start := some t0, end_ := some t1 }
        ∧ derefTime (SharedAsset.InterfaceToSharedAsset lib sa itf).state.window.start = .ok t0
        ∧ derefTime (SharedAsset.InterfaceToSharedAsset lib sa itf).state.window.end_
            = .ok t1) := by
  refine ⟨?_, ?_, ?_, ?_, ?_, ?_, ?_, ?_⟩
  · intro a h
    obtain ⟨fmap, c, hi, hc, -, -, -, hs, he, hw⟩ := ok_common_of_Any lib a itf h
    obtain ⟨_, _, s, e, -, -, -, -, -, -, h1, h2, h3, h4⟩ := parseCommon_fields lib fmap c hc
    exact ⟨fmap, s, e, c.start, c.end_, hi, h1, h3, h2, h4, hw, hs, he⟩
  · intro a h
    obtain ⟨fmap, c, hi, hc, -, -, -, hs, he, hw⟩ := ok_common_of_Cloud lib a itf h
    obtain ⟨_, _, s, e, -, -, -, -, -, -, h1, h2, h3, h4⟩ := parseCommon_fields lib fmap c hc
    exact ⟨fmap, s, e, c.start, c.end_, hi, h1, h3, h2, h4, hw, hs, he⟩
  · intro a h
    obtain ⟨fmap, c, hi, hc, -, -, -, hw⟩ := ok_common_of_ClusterManagement lib a itf h
    obtain ⟨_, _, s, e, -, -, -, -, -, -, h1, h2, h3, h4⟩ := parseCommon_fields lib fmap c hc
    exact ⟨fmap, s, e, c.start, c.end_, hi, h1, h3, h2, h4, hw, by rw [hw]; rfl, by rw [hw]; rfl⟩
  · intro a h
    obtain ⟨fmap, c, fb, hi, hc, -, -, -, -, hs, he, hw, -⟩ := ok_common_of_Disk lib a itf h
    obtain ⟨_, _, s, e, -, -, -, -, -, -, h1, h2, h3, h4⟩ := parseCommon_fields lib fmap c hc
    exact ⟨fmap, s, e, c.start, c.end_, hi, h1, h3, h2, h4, hw, hs, he⟩
  · intro a h
    obtain ⟨fmap, c, hi, hc, -, -, -, hs, he, hw⟩ := ok_common_of_Network lib a itf h
    obtain ⟨_, _, s, e, -, -, -, -, -, -, h1, h2, h3, h4⟩ := parseCommon_fields lib fmap c hc
    exact ⟨fmap, s, e, c.start, c.end_, hi, h1, h3, h2, h4, hw, hs, he⟩
  · intro a h
    obtain ⟨fmap, c, fc, fr, hi, hc, -, -, -, -, -, hs, he, hw, -⟩ :=
      ok_common_of_Node lib a itf h
    obtain ⟨_, _, s, e, -, -, -, -, -, -, h1, h2, h3, h4⟩ := parseCommon_fields lib fmap c hc
    exact ⟨fmap, s, e, c.start, c.end_, hi, h1, h3, h2, h4, hw, hs, he⟩
  · intro a h
    obtain ⟨fmap, c, hi, hc, -, -, -, hs, he, hw⟩ := ok_common_of_LoadBalancer lib a itf h
    obtain ⟨_, _, s, e, -, -, -, -, -, -, h1, h2, h3, h4⟩ := parseCommon_fields lib fmap c hc
    exact ⟨fmap, s, e, c.start, c.end_, hi, h1, h3, h2, h4, hw, hs, he⟩
  · intro a h
    obtain ⟨fmap, c, hi, hc, -, -, -, hw⟩ := ok_common_of_SharedAsset lib a itf h
    obtain ⟨_, _, s, e, -, -, -, -, -, -, h1, h2, h3, h4⟩ := parseCommon_fields lib fmap c hc
    exact ⟨fmap, s, e, c.start, c.end_, hi, h1, h3, h2, h4, hw, by rw [hw]; rfl, by rw [hw]; rfl⟩

/-- Witness of C18: the sample entry without discriminator with a `window` member that
is no interval, decoded as `Any`. -/
theorem window_invariant_witness :
    (Any.InterfaceToAny sampleLib (Any.zero Int) (.obj sampleGenericDerived)).status = .ok
    ∧ ∃ fmap s e t0 t1, JSON.obj sampleGenericDerived = .obj fmap
        ∧ index fmap "start" = .str s ∧ index fmap "end" = .str e
        ∧ sampleLib.parseRFC3339 s = .ok t0 ∧ sampleLib.parseRFC3339 e = .ok t1
        ∧ (Any.InterfaceToAny sampleLib (Any.zero Int) (.obj sampleGenericDerived)).state.window
            = { start := some t0, end_ := some t1 }
        ∧ (Any.InterfaceToAny sampleLib (Any.zero Int) (.obj sampleGenericDerived)).state.start
            = t0
        ∧ (Any.InterfaceToAny sampleLib (Any.zero Int) (.obj sampleGenericDerived)).state.end_
            = t1 :=
  have h : (Any.InterfaceToAny sampleLib (Any.zero Int) (.obj sampleGenericDerived)).status
      = .ok := by decide
  ⟨h, (window_invariant sampleLib (.obj sampleGenericDerived)).1 (Any.zero Int) h⟩

/-- C19. The Disk `Local` flag is never touched by decode: whatever the receiver and the
entry, and however the call ends, `InterfaceToDisk` leaves `Local` as it was; so the decode
of a Disk's own encoding into a fresh record has `Local` false, whatever the rendering
helpers and the parser do, and a Disk with `Local` set is not reproduced. -/
theorem disk_local_untouched [Zero F] [Sub F] (lib : Lib F) (d : Disk F) :
    (∀ itf, (Disk.InterfaceToDisk lib d itf).state.Local = d.Local)
    ∧ (∀ h acc, (decodeEncoded h lib (Disk.MarshalJSON acc lib d) (Disk.InterfaceToDisk lib)
        (Disk.zero F)).state.Local = false)
    ∧ (d.Local = true → ∀ h acc, (decodeEncoded h lib (Disk.MarshalJSON acc lib d)
        (Disk.InterfaceToDisk lib) (Disk.zero F)).state ≠ d) := by
  have h2 : ∀ h acc, (decodeEncoded h lib (Disk.MarshalJSON acc lib d)
      (Disk.InterfaceToDisk lib) (Disk.zero F)).state.Local = false := by
    intro h acc
    rcases decodeEncoded_cases h lib (Disk.MarshalJSON acc lib d) (Disk.InterfaceToDisk lib)
      (Disk.zero F) with ⟨hs, -⟩ | ⟨f, hf⟩
    · rw [hs]
      rfl
    · rw [hf, local_frame_of_Disk]
      rfl
  refine ⟨local_frame_of_Disk lib d, h2, ?_⟩
  intro hl h acc heq
  have := h2 h acc
  rw [heq, hl] at this
  exact absurd this (by decide)

/-- Witness of C19: the sample Disk with `Local` set. -/
theorem disk_local_untouched_witness :
    ({ sampleDiskAsset (some ⟨1, 2, 3, 4⟩) with Local := true } : Disk Int).Local = true
    ∧ (decodeEncoded sampleHelpers sampleLib (Disk.MarshalJSON sampleAccessors sampleLib
          { sampleDiskAsset (some ⟨1, 2, 3, 4⟩) with Local := true })
        (Disk.InterfaceToDisk sampleLib) (Disk.zero Int)).state
        ≠ { sampleDiskAsset (some ⟨1, 2, 3, 4⟩) with Local := true } :=
  ⟨rfl, (disk_local_untouched sampleLib
    { sampleDiskAsset (some ⟨1, 2, 3, 4⟩) with Local := true }).2.2 rfl sampleHelpers
      sampleAccessors⟩

/-- C20. Derived wire fields are ignored on decode: two entries that agree on every key
other than `minutes`, `cost`, `window`, `bytes`, `cpuCores` and `ramBytes` (present or
not, with whatever value) give, for each of the eight decoders and each receiver, the same
outcome: the same way of ending and the same record. -/
theorem derived_keys_ignored [Zero F] [Sub F] (lib : Lib F)
    (fmap fmap' : List (String × JSON F))
    (h : ∀ k, k ∉ derivedKeys → index fmap k = index fmap' k) :
    (∀ a, Any.InterfaceToAny lib a (.obj fmap) = Any.InterfaceToAny lib a (.obj fmap'))
    ∧ (∀ ca, Cloud.InterfaceToCloud lib ca (.obj fmap)
        = Cloud.InterfaceToCloud lib ca (.obj fmap'))
    ∧ (∀ cm, ClusterManagement.InterfaceToClusterManagement lib cm (.obj fmap)
        = ClusterManagement.InterfaceToClusterManagement lib cm (.obj fmap'))
    ∧ (∀ d, Disk.InterfaceToDisk lib d (.obj fmap) = Disk.InterfaceToDisk lib d (.obj fmap'))
    ∧ (∀ n, Network.InterfaceToNetwork lib n (.obj fmap)
        = Network.InterfaceToNetwork lib n (.obj fmap'))
    ∧ (∀ n, Node.InterfaceToNode lib n (.obj fmap) = Node.InterfaceToNode lib n (.obj fmap'))
    ∧ (∀ lb, LoadBalancer.InterfaceToLoadBalancer lib lb (.obj fmap)
        = LoadBalancer.InterfaceToLoadBalancer lib lb (.obj fmap'))
    ∧ (∀ sa, SharedAsset.InterfaceToSharedAsset lib sa (.obj fmap)
        = SharedAsset.InterfaceToSharedAsset lib sa (.obj fmap')) := by
  have hg := derived_not_read readKeysGeneric (by decide) fmap fmap' h
  have hcl := derived_not_read readKeysCloud (by decide) fmap fmap' h
  have hd := derived_not_read readKeysDisk (by decide) fmap fmap' h
  have hn := derived_not_read readKeysNode (by decide) fmap fmap' h
  exact ⟨congr_of_readKeys_Any lib fmap fmap' hg, congr_of_readKeys_Cloud lib fmap fmap' hcl,
    congr_of_readKeys_ClusterManagement lib fmap fmap' hg,
    congr_of_readKeys_Disk lib fmap fmap' hd, congr_of_readKeys_Network lib fmap fmap' hg,
    congr_of_readKeys_Node lib fmap fmap' hn,
    congr_of_readKeys_LoadBalancer lib fmap fmap' hg,
    congr_of_readKeys_SharedAsset lib fmap fmap' hg⟩

/-- Witness of C20: the sample entry without discriminator, with and without the derived
members `minutes`, `cost` and `window`. -/
theorem derived_keys_ignored_witness :
    (∀ k, k ∉ derivedKeys → index sampleGenericMembers k = index sampleGenericDerived k)
    ∧ Any.InterfaceToAny sampleLib (Any.zero Int) (.obj sampleGenericMembers)
        = Any.InterfaceToAny sampleLib (Any.zero Int) (.obj sampleGenericDerived) :=
  have h : ∀ k, k ∉ derivedKeys →
      index sampleGenericMembers k = index sampleGenericDerived k := by
    intro k hk
    simp only [derivedKeys, List.mem_cons, List.mem_singleton, List.not_mem_nil, or_false,
      not_or] at hk
    obtain ⟨h1, h2, h3, -⟩ := hk
    simp [sampleGenericDerived, sampleGenericMembers, sampleCommon, index_cons, index_nil,
      h1, h2, h3]
  ⟨h, (derived_keys_ignored sampleLib sampleGenericMembers sampleGenericDerived h).1
    (Any.zero Int)⟩

/-- C21 (counterexample). The sample Node is written with `assetPricingModels` before
`labels`, and the sample Cloud asset with `usageType` and `usageDetail` before `window`:
whatever the kind-specific keys are taken to be, neither key sequence is the stated
order. -/
theorem encode_order_counterexample :
    writtenKeys (Node.MarshalJSON sampleAccessors sampleLib sampleNodeAsset)
      = some ["type", "properties", "assetPricingModels", "labels", "window", "start", "end",
          "minutes", "nodeType", "cpuCores", "ramBytes", "cpuCoreHours", "ramByteHours",
          "GPUHours", "cpuBreakdown", "ramBreakdown", "cpuCost", "gpuCost", "gpuCount",
          "ramCost", "adjustment", "credit", "discount", "totalCost"]
    ∧ (∀ kindSpecific,
        writtenKeys (Node.MarshalJSON sampleAccessors sampleLib sampleNodeAsset)
          ≠ some (specKeyOrder true kindSpecific))
    ∧ writtenKeys (Cloud.MarshalJSON sampleAccessors sampleLib sampleCloudAsset)
      = some ["type", "properties", "labels", "assetPricingModels", "usageType",
          "usageDetail", "window", "start", "end", "minutes", "adjustment", "credit",
          "discount", "totalCost"]
    ∧ (∀ kindSpecific,
        writtenKeys (Cloud.MarshalJSON sampleAccessors sampleLib sampleCloudAsset)
          ≠ some (specKeyOrder true kindSpecific)) := by
  refine ⟨rfl, ?_, rfl, ?_⟩
  · intro ks hk
    simp [writtenKeys, Node.MarshalJSON, GoMap.keys, specKeyOrder] at hk
  · intro ks hk
    simp [writtenKeys, Cloud.MarshalJSON, GoMap.keys, specKeyOrder] at hk

/-- C21 (amended). Encode field set and order: every encoder writes a fixed key sequence,
with `type` first for every kind except `Any`, which writes no `type` key,
and `adjustment`, `credit`, `discount`, `totalCost` last. `Any`, `ClusterManagement`,
`Disk`, `Network`, `LoadBalancer` and `SharedAsset` write the stated order (the encoders
of `ClusterManagement` and `SharedAsset` return when the window has both instants). `Cloud`
writes `usageType` and `usageDetail` after `assetPricingModels`, before `window`; `Node`
writes `assetPricingModels` before `labels`. -/
theorem encode_key_order (acc : Accessors F) (lib : Lib F) :
    (∀ a : Any F, writtenKeys (Any.MarshalJSON acc lib a) = some (specKeyOrder false []))
    ∧ (∀ ca : Cloud F, writtenKeys (Cloud.MarshalJSON acc lib ca)
        = some ["type", "properties", "labels", "assetPricingModels", "usageType",
            "usageDetail", "window", "start", "end", "minutes", "adjustment", "credit",
            "discount", "totalCost"])
    ∧ (∀ cm : ClusterManagement F, cm.window.start.isSome = true →
        cm.window.end_.isSome = true →
        writtenKeys (ClusterManagement.MarshalJSON acc lib cm) = some (specKeyOrder true []))
    ∧ (∀ d : Disk F, writtenKeys (Disk.MarshalJSON acc lib d)
        = some (specKeyOrder true ["byteHours", "bytes", "breakdown", "storageClass"]))
    ∧ (∀ n : Network F, writtenKeys (Network.MarshalJSON acc lib n)
        = some (specKeyOrder true []))
    ∧ (∀ n : Node F, writtenKeys (Node.MarshalJSON acc lib n)
        = some ["type", "properties", "assetPricingModels", "labels", "window", "start",
            "end", "minutes", "nodeType", "cpuCores", "ramBytes", "cpuCoreHours",
            "ramByteHours", "GPUHours", "cpuBreakdown", "ramBreakdown", "cpuCost", "gpuCost",
            "gpuCount", "ramCost", "adjustment", "credit", "discount", "totalCost"])
    ∧ (∀ lb : LoadBalancer F, writtenKeys (LoadBalancer.MarshalJSON acc lib lb)
        = some (specKeyOrder true []))
    ∧ (∀ sa : SharedAsset F, sa.window.start.isSome = true → sa.window.end_.isSome = true →
        writtenKeys (SharedAsset.MarshalJSON acc lib sa) = some (specKeyOrder true [])) := by
  refine ⟨fun _ => rfl, fun _ => rfl, ?_, fun _ => rfl, fun _ => rfl, fun _ => rfl,
    fun _ => rfl, ?_⟩
  · intro cm hs he
    obtain ⟨s, hs'⟩ := Option.isSome_iff_exists.mp hs
    obtain ⟨e, he'⟩ := Option.isSome_iff_exists.mp he
    simp only [ClusterManagement.MarshalJSON, hs', he', derefTime]
    rfl
  · intro sa hs he
    obtain ⟨s, hs'⟩ := Option.isSome_iff_exists.mp hs
    obtain ⟨e, he'⟩ := Option.isSome_iff_exists.mp he
    simp only [SharedAsset.MarshalJSON, hs', he', derefTime]
    rfl

/-- Witness of C21 (amended): the sample ClusterManagement asset. -/
theorem encode_key_order_witness :
    sampleClusterManagementAsset.window.start.isSome = true
    ∧ sampleClusterManagementAsset.window.end_.isSome = true
    ∧ writtenKeys (ClusterManagement.MarshalJSON sampleAccessors sampleLib
        sampleClusterManagementAsset)
      = some ["type", "properties", "labels", "assetPricingModels", "window", "start", "end",
          "minutes", "adjustment", "credit", "discount", "totalCost"] :=
  ⟨rfl, rfl, (encode_key_order sampleAccessors sampleLib).2.2.1
    sampleClusterManagementAsset rfl rfl⟩

/-- C22. Collection decode preserves identifiers: for every input mapping (each key once)
all of whose entries decode, `RawMessageToAssetSetResponse` returns nil and assigns a
non-nil `Assets` mapping with exactly the keys of the input (none added, dropped or
renamed; the empty mapping for the empty input), in which each key is bound to the
dispatcher's decode of that key's own fragment. Visiting the entries in any other order
gives a mapping with the same binding for every key. -/
theorem collection_decode_keys [Zero F] [Sub F] (lib : Lib F) (asr : AssetSetResponse F)
    (assetMap : GoMap (Option RawMessage)) (hn : (GoMap.keys assetMap).Nodup)
    (h : ∀ e ∈ assetMap, isOk (decodeEntry lib e.2) = true) :
    ∃ newAssetMap,
      AssetSetResponse.RawMessageToAssetSetResponse lib asr assetMap
        = ⟨{ asr with Assets := some newAssetMap }, .ok⟩
      ∧ GoMap.keys newAssetMap = GoMap.keys assetMap
      ∧ (∀ key rawMessage, (key, rawMessage) ∈ assetMap →
          ∃ asset, decodeEntry lib rawMessage = .ok asset
            ∧ List.lookup key newAssetMap = some asset)
      ∧ (∀ key, key ∉ GoMap.keys assetMap → List.lookup key newAssetMap = none)
      ∧ (assetMap = [] → newAssetMap = [])
      ∧ ∀ assetMap', List.Perm assetMap' assetMap →
          ∃ newAssetMap',
            AssetSetResponse.RawMessageToAssetSetResponse lib asr assetMap'
              = ⟨{ asr with Assets := some newAssetMap' }, .ok⟩
            ∧ ∀ key, List.lookup key newAssetMap' = List.lookup key newAssetMap := by
  obtain ⟨res, hres, hall⟩ :=
    decodeLoop_entries lib assetMap [] (by simpa [GoMap.keys] using hn) h
  simp only [List.nil_append] at hres
  have hkeys := keys_of_entries lib assetMap res hall
  refine ⟨res, by simp only [AssetSetResponse.RawMessageToAssetSetResponse, hres], hkeys,
    ?_, ?_, ?_, ?_⟩
  · intro key raw hmem
    exact lookup_of_entries lib assetMap res hall hn key raw hmem
  · intro key hk
    exact lookup_of_not_mem_keys res key (by rwa [hkeys])
  · intro he
    subst he
    cases hall
    rfl
  · intro assetMap' hp
    have hn' : (GoMap.keys assetMap').Nodup := ((hp.map Prod.fst).nodup_iff).mpr hn
    have h' : ∀ e ∈ assetMap', isOk (decodeEntry lib e.2) = true :=
      fun e he => h e (hp.mem_iff.mp he)
    obtain ⟨res', hres', hall'⟩ :=
      decodeLoop_entries lib assetMap' [] (by simpa [GoMap.keys] using hn') h'
    simp only [List.nil_append] at hres'
    have hkeys' := keys_of_entries lib assetMap' res' hall'
    refine ⟨res', by simp only [AssetSetResponse.RawMessageToAssetSetResponse, hres'], ?_⟩
    intro key
    by_cases hk : key ∈ GoMap.keys assetMap
    · obtain ⟨⟨k, raw⟩, hmem, rfl⟩ := List.mem_map.mp hk
      obtain ⟨a, ha, hl⟩ := lookup_of_entries lib assetMap res hall hn k raw hmem
      obtain ⟨a', ha', hl'⟩ :=
        lookup_of_entries lib assetMap' res' hall' hn' k raw (hp.mem_iff.mpr hmem)
      cases ha.symm.trans ha'
      exact hl'.trans hl.symm
    · have hk' : key ∉ GoMap.keys assetMap' :=
        fun hmem => hk ((hp.map Prod.fst).mem_iff.mp hmem)
      rw [lookup_of_not_mem_keys res key (by rwa [hkeys]),
        lookup_of_not_mem_keys res' key (by rwa [hkeys'])]

/-- Witness of C22: the sample collection of a Disk entry and an entry without
discriminator, and the empty collection. -/
theorem collection_decode_keys_witness :
    (GoMap.keys sampleSet).Nodup
    ∧ (∀ e ∈ sampleSet, isOk (decodeEntry sampleLib e.2) = true)
    ∧ (∃ newAssetMap,
        AssetSetResponse.RawMessageToAssetSetResponse sampleLib (AssetSetResponse.zero Int)
            sampleSet = ⟨{ Assets := some newAssetMap }, .ok⟩
        ∧ GoMap.keys newAssetMap = ["d1", "g1"])
    ∧ AssetSetResponse.RawMessageToAssetSetResponse sampleLib (AssetSetResponse.zero Int) []
        = ⟨{ Assets := some [] }, .ok⟩ :=
  ⟨by decide, by decide,
    (collection_decode_keys sampleLib (AssetSetResponse.zero Int) sampleSet (by decide)
      (by decide)).imp (fun _ hr => ⟨hr.1, hr.2.1⟩),
    rfl⟩

/-- C23. Labels decode: let the entry's `labels` be an object `l` (a map: each key once).
For each kind and every entry its decoder accepts, which requires every member of `l` to
be a string, the decode returns nil and the decoded labels are a non-nil map `ls` whose
members, written as strings, are exactly the members of `l`: the same keys with the same
string values, none added or dropped, and the empty map for the empty object. If some
member of `l` is not a string, every decoder fails and leaves its receiver untouched. -/
theorem labels_decode [Zero F] [Sub F] (lib : Lib F) (fmap l : List (String × JSON F))
    (hl : index fmap "labels" = .obj l) :
    ((GoMap.keys l).Nodup →
      (validGeneric lib fmap = true →
        (∀ a : Any F,
          (Any.InterfaceToAny lib a (.obj fmap)).status = .ok
          ∧ ∃ ls, (Any.InterfaceToAny lib a (.obj fmap)).state.labels = some ls
              ∧ ls.map (fun kv => (kv.1, (JSON.str kv.2 : JSON F))) = l)
        ∧ (∀ cm : ClusterManagement F,
          (ClusterManagement.InterfaceToClusterManagement lib cm (.obj fmap)).status = .ok
          ∧ ∃ ls, (ClusterManagement.InterfaceToClusterManagement lib cm (.obj fmap)).state.labels
              = some ls
              ∧ ls.map (fun kv => (kv.1, (JSON.str kv.2 : JSON F))) = l)
        ∧ (∀ n : Network F,
          (Network.InterfaceToNetwork lib n (.obj fmap)).status = .ok
          ∧ ∃ ls, (Network.InterfaceToNetwork lib n (.obj fmap)).state.labels = some ls
              ∧ ls.map (fun kv => (kv.1, (JSON.str kv.2 : JSON F))) = l)
        ∧ (∀ lb : LoadBalancer F,
          (LoadBalancer.InterfaceToLoadBalancer lib lb (.obj fmap)).status = .ok
          ∧ ∃ ls, (LoadBalancer.InterfaceToLoadBalancer lib lb (.obj fmap)).state.labels = some ls
              ∧ ls.map (fun kv => (kv.1, (JSON.str kv.2 : JSON F))) = l)
        ∧ (∀ sa : SharedAsset F,
          (SharedAsset.InterfaceToSharedAsset lib sa (.obj fmap)).status = .ok
          ∧ ∃ ls, (SharedAsset.InterfaceToSharedAsset lib sa (.obj fmap)).state.labels = some ls
              ∧ ls.map (fun kv => (kv.1, (JSON.str kv.2 : JSON F))) = l))
      ∧ (validCloud lib fmap = true →
        (∀ ca : Cloud F,
          (Cloud.InterfaceToCloud lib ca (.obj fmap)).status = .ok
          ∧ ∃ ls, (Cloud.InterfaceToCloud lib ca (.obj fmap)).state.labels = some ls
              ∧ ls.map (fun kv => (kv.1, (JSON.str kv.2 : JSON F))) = l))
      ∧ (validDisk lib fmap = true →
        (∀ d : Disk F,
          (Disk.InterfaceToDisk lib d (.obj fmap)).status = .ok
          ∧ ∃ ls, (Disk.InterfaceToDisk lib d (.obj fmap)).state.labels = some ls
              ∧ ls.map (fun kv => (kv.1, (JSON.str kv.2 : JSON F))) = l))
      ∧ (validNode lib fmap = true →
        (∀ n : Node F,
          (Node.InterfaceToNode lib n (.obj fmap)).status = .ok
          ∧ ∃ ls, (Node.InterfaceToNode lib n (.obj fmap)).state.labels = some ls
              ∧ ls.map (fun kv => (kv.1, (JSON.str kv.2 : JSON F))) = l)))
    ∧ ((∃ kv ∈ l, kv.2.isStr = false) →
      (∀ a : Any F,
        (Any.InterfaceToAny lib a (.obj fmap)).status ≠ .ok
        ∧ (Any.InterfaceToAny lib a (.obj fmap)).state = a)
      ∧ (∀ ca : Cloud F,
        (Cloud.InterfaceToCloud lib ca (.obj fmap)).status ≠ .ok
        ∧ (Cloud.InterfaceToCloud lib ca (.obj fmap)).state = ca)
      ∧ (∀ cm : ClusterManagement F,
        (ClusterManagement.InterfaceToClusterManagement lib cm (.obj fmap)).status ≠ .ok
        ∧ (ClusterManagement.InterfaceToClusterManagement lib cm (.obj fmap)).state = cm)
      ∧ (∀ d : Disk F,
        (Disk.InterfaceToDisk lib d (.obj fmap)).status ≠ .ok
        ∧ (Disk.InterfaceToDisk lib d (.obj fmap)).state = d)
      ∧ (∀ n : Network F,
        (Network.InterfaceToNetwork lib n (.obj fmap)).status ≠ .ok
        ∧ (Network.InterfaceToNetwork lib n (.obj fmap)).state = n)
      ∧ (∀ n : Node F,
        (Node.InterfaceToNode lib n (.obj fmap)).status ≠ .ok
        ∧ (Node.InterfaceToNode lib n (.obj fmap)).state = n)
      ∧ (∀ lb : LoadBalancer F,
        (LoadBalancer.InterfaceToLoadBalancer lib lb (.obj fmap)).status ≠ .ok
        ∧ (LoadBalancer.InterfaceToLoadBalancer lib lb (.obj fmap)).state = lb)
      ∧ (∀ sa : SharedAsset F,
        (SharedAsset.InterfaceToSharedAsset lib sa (.obj fmap)).status ≠ .ok
        ∧ (SharedAsset.InterfaceToSharedAsset lib sa (.obj fmap)).state = sa)) := by
  refine ⟨?_, ?_⟩
  · intro hn
    refine ⟨?_, ?_, ?_, ?_⟩
    · intro hv
      refine ⟨?_, ?_, ?_, ?_, ?_⟩
      · intro a
        obtain ⟨c, hc, hd⟩ := decoded_of_valid_Any lib fmap hv a
        rw [hd]
        exact ⟨rfl, c.labels, rfl, labels_of_parseCommon lib fmap l c hc hl hn⟩
      · intro cm
        obtain ⟨c, hc, hd⟩ := decoded_of_valid_ClusterManagement lib fmap hv cm
        rw [hd]
        exact ⟨rfl, c.labels, rfl, labels_of_parseCommon lib fmap l c hc hl hn⟩
      · intro n
        obtain ⟨c, hc, hd⟩ := decoded_of_valid_Network lib fmap hv n
        rw [hd]
        exact ⟨rfl, c.labels, rfl, labels_of_parseCommon lib fmap l c hc hl hn⟩
      · intro lb
        obtain ⟨c, hc, hd⟩ := decoded_of_valid_LoadBalancer lib fmap hv lb
        rw [hd]
        exact ⟨rfl, c.labels, rfl, labels_of_parseCommon lib fmap l c hc hl hn⟩
      · intro sa
        obtain ⟨c, hc, hd⟩ := decoded_of_valid_SharedAsset lib fmap hv sa
        rw [hd]
        exact ⟨rfl, c.labels, rfl, labels_of_parseCommon lib fmap l c hc hl hn⟩
    · intro hv ca
      obtain ⟨c, hc, hd⟩ := decoded_of_valid_Cloud lib fmap hv ca
      rw [hd]
      exact ⟨rfl, c.labels, rfl, labels_of_parseCommon lib fmap l c hc hl hn⟩
    · intro hv d
      obtain ⟨c, fb, hc, -, hd⟩ := decoded_of_valid_Disk lib fmap hv d
      rw [hd]
      exact ⟨rfl, c.labels, rfl, labels_of_parseCommon lib fmap l c hc hl hn⟩
    · intro hv n
      obtain ⟨c, fc, fr, hc, -, -, hd⟩ := decoded_of_valid_Node lib fmap hv n
      rw [hd]
      exact ⟨rfl, c.labels, rfl, labels_of_parseCommon lib fmap l c hc hl hn⟩
  · intro hbad
    obtain ⟨f, hf⟩ := parseCommon_error_of_labels lib fmap l hl hbad
    obtain ⟨h1, h2, h3, h4, h5, h6, h7, h8⟩ := decoders_fail_of_parseCommon_error lib fmap f hf
    refine ⟨?_, ?_, ?_, ?_, ?_, ?_, ?_, ?_⟩
    · intro a
      rw [h1 a]
      exact ⟨toStatus_ne_ok f, rfl⟩
    · intro ca
      rw [h2 ca]
      exact ⟨toStatus_ne_ok f, rfl⟩
    · intro cm
      rw [h3 cm]
      exact ⟨toStatus_ne_ok f, rfl⟩
    · intro d
      rw [h4 d]
      exact ⟨toStatus_ne_ok f, rfl⟩
    · intro n
      rw [h5 n]
      exact ⟨toStatus_ne_ok f, rfl⟩
    · intro n
      rw [h6 n]
      exact ⟨toStatus_ne_ok f, rfl⟩
    · intro lb
      rw [h7 lb]
      exact ⟨toStatus_ne_ok f, rfl⟩
    · intro sa
      rw [h8 sa]
      exact ⟨toStatus_ne_ok f, rfl⟩

/-- Witness of C23: an entry with two labels decoded as `Any`, and an entry with a numeric
label. -/
theorem labels_decode_witness :
    index sampleLabelled "labels" = .obj [("app", .str "db"), ("tier", .str "data")]
    ∧ validGeneric sampleLib sampleLabelled = true
    ∧ (Any.InterfaceToAny sampleLib (Any.zero Int) (.obj sampleLabelled)).status = .ok
    ∧ (Any.InterfaceToAny sampleLib (Any.zero Int) (.obj sampleLabelled)).state.labels
        = some [("app", "db"), ("tier", "data")]
    ∧ index sampleNumericLabel "labels" = .obj [("app", .str "db"), ("replicas", .num 3)]
    ∧ (Any.InterfaceToAny sampleLib (Any.zero Int) (.obj sampleNumericLabel)).status ≠ .ok :=
  have t := ((labels_decode sampleLib sampleLabelled _ rfl).1 (by decide)).1 (by decide)
  have u := (labels_decode sampleLib sampleNumericLabel _ rfl).2
    ⟨("replicas", .num 3), by simp, rfl⟩
  ⟨rfl, by decide, (t.1 (Any.zero Int)).1, by decide, rfl, (u.1 (Any.zero Int)).1⟩

/-- C24. Absent `totalCost` leaves the cost at zero: for each of the seven kinds that store
a base cost and every entry the kind's decoder accepts (valid common fields, no string
under an optional numeric key, no number under an optional string key, Disk's `breakdown`
an object) that has no `totalCost` key, the decode into a fresh record returns nil with
`Cost` equal to 0, while adjustment and credit are the entry's numbers: `Cost` is not set
to `0 - adjustment - credit`. -/
theorem absent_totalCost_zero_cost [Zero F] [Sub F] (lib : Lib F)
    (fmap : List (String × JSON F)) (hk : "totalCost" ∉ GoMap.keys fmap) :
    (validGeneric lib fmap = true →
      ((Any.InterfaceToAny lib (Any.zero F) (.obj fmap)).status = .ok
        ∧ (Any.InterfaceToAny lib (Any.zero F) (.obj fmap)).state.Cost = 0
        ∧ (Any.InterfaceToAny lib (Any.zero F) (.obj fmap)).state.adjustment
            = floatOr (index fmap "adjustment") 0
        ∧ (Any.InterfaceToAny lib (Any.zero F) (.obj fmap)).state.credit
            = floatOr (index fmap "credit") 0)
      ∧ ((ClusterManagement.InterfaceToClusterManagement lib (ClusterManagement.zero F)
            (.obj fmap)).status = .ok
        ∧ (ClusterManagement.InterfaceToClusterManagement lib (ClusterManagement.zero F)
            (.obj fmap)).state.Cost = 0
        ∧ (ClusterManagement.InterfaceToClusterManagement lib (ClusterManagement.zero F)
            (.obj fmap)).state.adjustment
            = floatOr (index fmap "adjustment") 0
        ∧ (ClusterManagement.InterfaceToClusterManagement lib (ClusterManagement.zero F)
            (.obj fmap)).state.credit
            = floatOr (index fmap "credit") 0)
      ∧ ((Network.InterfaceToNetwork lib (Network.zero F) (.obj fmap)).status = .ok
        ∧ (Network.InterfaceToNetwork lib (Network.zero F) (.obj fmap)).state.Cost = 0
        ∧ (Network.InterfaceToNetwork lib (Network.zero F) (.obj fmap)).state.adjustment
            = floatOr (index fmap "adjustment") 0
        ∧ (Network.InterfaceToNetwork lib (Network.zero F) (.obj fmap)).state.credit
            = floatOr (index fmap "credit") 0)
      ∧ ((LoadBalancer.InterfaceToLoadBalancer lib (LoadBalancer.zero F)
            (.obj fmap)).status = .ok
        ∧ (LoadBalancer.InterfaceToLoadBalancer lib (LoadBalancer.zero F)
            (.obj fmap)).state.Cost = 0
        ∧ (LoadBalancer.InterfaceToLoadBalancer lib (LoadBalancer.zero F)
            (.obj fmap)).state.adjustment
            = floatOr (index fmap "adjustment") 0
        ∧ (LoadBalancer.InterfaceToLoadBalancer lib (LoadBalancer.zero F)
            (.obj fmap)).state.credit
            = floatOr (index fmap "credit") 0)
      ∧ ((SharedAsset.InterfaceToSharedAsset lib (SharedAsset.zero F)
            (.obj fmap)).status = .ok
        ∧ (SharedAsset.InterfaceToSharedAsset lib (SharedAsset.zero F)
            (.obj fmap)).state.Cost = 0
        ∧ (SharedAsset.InterfaceToSharedAsset lib (SharedAsset.zero F)
            (.obj fmap)).state.adjustment
            = floatOr (index fmap "adjustment") 0
        ∧ (SharedAsset.InterfaceToSharedAsset lib (SharedAsset.zero F)
            (.obj fmap)).state.credit
            = floatOr (index fmap "credit") 0))
    ∧ (validCloud lib fmap = true →
      ((Cloud.InterfaceToCloud lib (Cloud.zero F) (.obj fmap)).status = .ok
        ∧ (Cloud.InterfaceToCloud lib (Cloud.zero F) (.obj fmap)).state.Cost = 0
        ∧ (Cloud.InterfaceToCloud lib (Cloud.zero F) (.obj fmap)).state.adjustment
            = floatOr (index fmap "adjustment") 0
        ∧ (Cloud.InterfaceToCloud lib (Cloud.zero F) (.obj fmap)).state.credit
            = floatOr (index fmap "credit") 0))
    ∧ (validDisk lib fmap = true →
      ((Disk.InterfaceToDisk lib (Disk.zero F) (.obj fmap)).status = .ok
        ∧ (Disk.InterfaceToDisk lib (Disk.zero F) (.obj fmap)).state.Cost = 0
        ∧ (Disk.InterfaceToDisk lib (Disk.zero F) (.obj fmap)).state.adjustment
            = floatOr (index fmap "adjustment") 0
        ∧ (Disk.InterfaceToDisk lib (Disk.zero F) (.obj fmap)).state.credit
            = floatOr (index fmap "credit") 0)) := by
  have hn : index fmap "totalCost" = .null := index_of_not_mem fmap "totalCost" hk
  refine ⟨?_, ?_, ?_⟩
  · intro hv
    refine ⟨?_, ?_, ?_, ?_, ?_⟩
    · obtain ⟨c, -, hd⟩ := decoded_of_valid_Any lib fmap hv (Any.zero F)
      rw [hd]
      refine ⟨rfl, ?_, rfl, rfl⟩
      simp only [Any.decoded, hn, costOr]
      rfl
    · obtain ⟨c, -, hd⟩ := decoded_of_valid_ClusterManagement lib fmap hv (ClusterManagement.zero F)
      rw [hd]
      refine ⟨rfl, ?_, rfl, rfl⟩
      simp only [ClusterManagement.decoded, hn, costOr]
      rfl
    · obtain ⟨c, -, hd⟩ := decoded_of_valid_Network lib fmap hv (Network.zero F)
      rw [hd]
      refine ⟨rfl, ?_, rfl, rfl⟩
      simp only [Network.decoded, hn, costOr]
      rfl
    · obtain ⟨c, -, hd⟩ := decoded_of_valid_LoadBalancer lib fmap hv (LoadBalancer.zero F)
      rw [hd]
      refine ⟨rfl, ?_, rfl, rfl⟩
      simp only [LoadBalancer.decoded, hn, costOr]
      rfl
    · obtain ⟨c, -, hd⟩ := decoded_of_valid_SharedAsset lib fmap hv (SharedAsset.zero F)
      rw [hd]
      refine ⟨rfl, ?_, rfl, rfl⟩
      simp only [SharedAsset.decoded, hn, costOr]
      rfl
  · intro hv
    obtain ⟨c, -, hd⟩ := decoded_of_valid_Cloud lib fmap hv (Cloud.zero F)
    rw [hd]
    refine ⟨rfl, ?_, rfl, rfl⟩
    simp only [Cloud.decoded, hn, costOr]
    rfl
  · intro hv
    obtain ⟨c, fb, -, -, hd⟩ := decoded_of_valid_Disk lib fmap hv (Disk.zero F)
    rw [hd]
    refine ⟨rfl, ?_, rfl, rfl⟩
    simp only [Disk.decoded, hn, costOr]
    rfl

/-- Witness of C24: the sample entry with adjustment 1, credit 2 and no `totalCost`,
decoded as `Any`. -/
theorem absent_totalCost_zero_cost_witness :
    "totalCost" ∉ GoMap.keys sampleNoTotalCost
    ∧ validGeneric sampleLib sampleNoTotalCost = true
    ∧ (Any.InterfaceToAny sampleLib (Any.zero Int) (.obj sampleNoTotalCost)).status = .ok
    ∧ (Any.InterfaceToAny sampleLib (Any.zero Int) (.obj sampleNoTotalCost)).state.Cost = 0
    ∧ (Any.InterfaceToAny sampleLib (Any.zero Int) (.obj sampleNoTotalCost)).state.adjustment
        = 1
    ∧ (Any.InterfaceToAny sampleLib (Any.zero Int) (.obj sampleNoTotalCost)).state.credit = 2 :=
  have t := ((absent_totalCost_zero_cost sampleLib sampleNoTotalCost (by decide)).1
    (by decide)).1
  ⟨by decide, by decide, t.1, t.2.1, t.2.2.1.trans (by decide), t.2.2.2.trans (by decide)⟩

/-- C25. Numeric sub-object decoders: for every object `b`, `toBreakdown b` is a plain
record (the function has no failing path) whose `Idle`, `Other`, `System`, `User` are the
values of `idle`, `other`, `system`, `user` read as numbers with default 0, and
`toAssetPricingModels` of the non-nil map `b` is a non-nil record whose three fields are
read the same way from `preemptible`, `reservedInstance`, `savingsPlan`. Reading a key as
a number with default 0 gives the number when the key holds one, and 0 when the key is
absent or holds a value of any other type, a string included. -/
theorem numeric_subobject_decoders [Zero F] (b : List (String × JSON F)) :
    toBreakdown b
      = { Idle := floatOr (index b "idle") 0, Other := floatOr (index b "other") 0,
          System := floatOr (index b "system") 0, User := floatOr (index b "user") 0 }
    ∧ toAssetPricingModels (some b)
      = some { Preemptible := floatOr (index b "preemptible") 0,
               ReservedInstance := floatOr (index b "reservedInstance") 0,
               SavingsPlan := floatOr (index b "savingsPlan") 0 }
    ∧ (∀ k x, index b k = .num x → floatOr (index b k) (0 : F) = x)
    ∧ (∀ k, k ∉ GoMap.keys b → floatOr (index b k) (0 : F) = 0)
    ∧ (∀ k, (index b k).isNum = false → floatOr (index b k) (0 : F) = 0)
    ∧ (∀ k s, index b k = .str s → floatOr (index b k) (0 : F) = 0) := by
  refine ⟨toBreakdown_eq b, pricingOf_obj b, ?_, ?_, ?_, ?_⟩
  · intro k x h
    rw [h]
    rfl
  · intro k h
    rw [index_of_not_mem b k h]
    rfl
  · intro k h
    cases hv : index b k <;> simp [hv, JSON.isNum, floatOr] at h ⊢
  · intro k s h
    rw [h]
    rfl

/-- Witness of C25: a breakdown object with a number, a string, a `null` and a missing
member, and a pricing-model object with a number, a boolean and a missing member. -/
theorem numeric_subobject_decoders_witness :
    index sampleMixedBreakdown "other" = .str "2"
    ∧ "user" ∉ GoMap.keys sampleMixedBreakdown
    ∧ toBreakdown sampleMixedBreakdown = { Idle := 1, Other := 0, System := 0, User := 0 }
    ∧ toAssetPricingModels (some sampleMixedPricing)
        = some { Preemptible := 1, ReservedInstance := 0, SavingsPlan := 0 }
    ∧ floatOr (index sampleMixedBreakdown "other") (0 : Int) = 0
    ∧ floatOr (index sampleMixedBreakdown "user") (0 : Int) = 0 :=
  have t := numeric_subobject_decoders sampleMixedBreakdown
  ⟨rfl, by decide, t.1.trans (by decide),
    (numeric_subobject_decoders sampleMixedPricing).2.1.trans (by decide),
    t.2.2.2.2.2 "other" "2" rfl, t.2.2.2.1 "user" (by decide)⟩

/-- C26. Decoding into a non-fresh record keeps stale optional values: for each kind, every
entry its decoder accepts and every receiver, the decode returns nil, each optional scalar
(adjustment, credit, discount, `Cost`, and the kind's own scalars) whose key is absent from
the entry keeps the value the receiver held before the call, and the fields assigned
before the optional scalars (properties, labels, pricing models, start, end, window, and
the required breakdowns of Disk and Node) do not depend on the receiver at all, so they
are overwritten. `Any.UnmarshalJSON` is this decode on the parsed bytes, into the same
receiver. -/
theorem stale_optional_values [Zero F] [Sub F] (lib : Lib F) (fmap : List (String × JSON F)) :
    (validGeneric lib fmap = true →
      (∀ a : Any F,
        (Any.InterfaceToAny lib a (.obj fmap)).status = .ok
        ∧ ("adjustment" ∉ GoMap.keys fmap →
            (Any.InterfaceToAny lib a (.obj fmap)).state.adjustment = a.adjustment)
        ∧ ("credit" ∉ GoMap.keys fmap →
            (Any.InterfaceToAny lib a (.obj fmap)).state.credit = a.credit)
        ∧ ("discount" ∉ GoMap.keys fmap →
            (Any.InterfaceToAny lib a (.obj fmap)).state.discount = a.discount)
        ∧ ("totalCost" ∉ GoMap.keys fmap →
            (Any.InterfaceToAny lib a (.obj fmap)).state.Cost = a.Cost)
        ∧ ∀ a' : Any F,
            Any.common (Any.InterfaceToAny lib a' (.obj fmap)).state
              = Any.common (Any.InterfaceToAny lib a (.obj fmap)).state)
      ∧ (∀ cm : ClusterManagement F,
        (ClusterManagement.InterfaceToClusterManagement lib cm (.obj fmap)).status = .ok
        ∧ ("adjustment" ∉ GoMap.keys fmap →
            (ClusterManagement.InterfaceToClusterManagement lib cm (.obj fmap)).state.adjustment
                = cm.adjustment)
        ∧ ("credit" ∉ GoMap.keys fmap →
            (ClusterManagement.InterfaceToClusterManagement lib cm (.obj fmap)).state.credit
                = cm.credit)
        ∧ ("discount" ∉ GoMap.keys fmap →
            (ClusterManagement.InterfaceToClusterManagement lib cm (.obj fmap)).state.discount
                = cm.discount)
        ∧ ("totalCost" ∉ GoMap.keys fmap →
            (ClusterManagement.InterfaceToClusterManagement lib cm (.obj fmap)).state.Cost
                = cm.Cost)
        ∧ ∀ cm' : ClusterManagement F,
            ClusterManagement.common (ClusterManagement.InterfaceToClusterManagement lib cm'
                (.obj fmap)).state
              = ClusterManagement.common (ClusterManagement.InterfaceToClusterManagement lib cm
                  (.obj fmap)).state)
      ∧ (∀ n : Network F,
        (Network.InterfaceToNetwork lib n (.obj fmap)).status = .ok
        ∧ ("adjustment" ∉ GoMap.keys fmap →
            (Network.InterfaceToNetwork lib n (.obj fmap)).state.adjustment = n.adjustment)
        ∧ ("credit" ∉ GoMap.keys fmap →
            (Network.InterfaceToNetwork lib n (.obj fmap)).state.credit = n.credit)
        ∧ ("discount" ∉ GoMap.keys fmap →
            (Network.InterfaceToNetwork lib n (.obj fmap)).state.discount = n.discount)
        ∧ ("totalCost" ∉ GoMap.keys fmap →
            (Network.InterfaceToNetwork lib n (.obj fmap)).state.Cost = n.Cost)
        ∧ ∀ n' : Network F,
            Network.common (Network.InterfaceToNetwork lib n' (.obj fmap)).state
              = Network.common (Network.InterfaceToNetwork lib n (.obj fmap)).state)
      ∧ (∀ lb : LoadBalancer F,
        (LoadBalancer.InterfaceToLoadBalancer lib lb (.obj fmap)).status = .ok
        ∧ ("adjustment" ∉ GoMap.keys fmap →
            (LoadBalancer.InterfaceToLoadBalancer lib lb (.obj fmap)).state.adjustment
                = lb.adjustment)
        ∧ ("credit" ∉ GoMap.keys fmap →
            (LoadBalancer.InterfaceToLoadBalancer lib lb (.obj fmap)).state.credit = lb.credit)
        ∧ ("discount" ∉ GoMap.keys fmap →
            (LoadBalancer.InterfaceToLoadBalancer lib lb (.obj fmap)).state.discount = lb.discount)
        ∧ ("totalCost" ∉ GoMap.keys fmap →
            (LoadBalancer.InterfaceToLoadBalancer lib lb (.obj fmap)).state.Cost = lb.Cost)
        ∧ ∀ lb' : LoadBalancer F,
            LoadBalancer.common (LoadBalancer.InterfaceToLoadBalancer lib lb' (.obj fmap)).state
              = LoadBalancer.common (LoadBalancer.InterfaceToLoadBalancer lib lb (.obj fmap)).state)
      ∧ (∀ sa : SharedAsset F,
        (SharedAsset.InterfaceToSharedAsset lib sa (.obj fmap)).status = .ok
        ∧ ("adjustment" ∉ GoMap.keys fmap →
            (SharedAsset.InterfaceToSharedAsset lib sa (.obj fmap)).state.adjustment
                = sa.adjustment)
        ∧ ("credit" ∉ GoMap.keys fmap →
            (SharedAsset.InterfaceToSharedAsset lib sa (.obj fmap)).state.credit = sa.credit)
        ∧ ("discount" ∉ GoMap.keys fmap →
            (SharedAsset.InterfaceToSharedAsset lib sa (.obj fmap)).state.discount = sa.discount)
        ∧ ("totalCost" ∉ GoMap.keys fmap →
            (SharedAsset.InterfaceToSharedAsset lib sa (.obj fmap)).state.Cost = sa.Cost)
        ∧ ∀ sa' : SharedAsset F,
            SharedAsset.common (SharedAsset.InterfaceToSharedAsset lib sa' (.obj fmap)).state
              = SharedAsset.common (SharedAsset.InterfaceToSharedAsset lib sa (.obj fmap)).state))
    ∧ (validCloud lib fmap = true →
      (∀ ca : Cloud F,
        (Cloud.InterfaceToCloud lib ca (.obj fmap)).status = .ok
        ∧ ("usageType" ∉ GoMap.keys fmap →
            (Cloud.InterfaceToCloud lib ca (.obj fmap)).state.UsageType = ca.UsageType)
        ∧ ("usageDetail" ∉ GoMap.keys fmap →
            (Cloud.InterfaceToCloud lib ca (.obj fmap)).state.UsageDetail = ca.UsageDetail)
        ∧ ("adjustment" ∉ GoMap.keys fmap →
            (Cloud.InterfaceToCloud lib ca (.obj fmap)).state.adjustment = ca.adjustment)
        ∧ ("credit" ∉ GoMap.keys fmap →
            (Cloud.InterfaceToCloud lib ca (.obj fmap)).state.credit = ca.credit)
        ∧ ("discount" ∉ GoMap.keys fmap →
            (Cloud.InterfaceToCloud lib ca (.obj fmap)).state.discount = ca.discount)
        ∧ ("totalCost" ∉ GoMap.keys fmap →
            (Cloud.InterfaceToCloud lib ca (.obj fmap)).state.Cost = ca.Cost)
        ∧ ∀ ca' : Cloud F,
            Cloud.common (Cloud.InterfaceToCloud lib ca' (.obj fmap)).state
              = Cloud.common (Cloud.InterfaceToCloud lib ca (.obj fmap)).state))
    ∧ (validDisk lib fmap = true →
      (∀ d : Disk F,
        (Disk.InterfaceToDisk lib d (.obj fmap)).status = .ok
        ∧ ("storageClass" ∉ GoMap.keys fmap →
            (Disk.InterfaceToDisk lib d (.obj fmap)).state.StorageClass = d.StorageClass)
        ∧ ("adjustment" ∉ GoMap.keys fmap →
            (Disk.InterfaceToDisk lib d (.obj fmap)).state.adjustment = d.adjustment)
        ∧ ("credit" ∉ GoMap.keys fmap →
            (Disk.InterfaceToDisk lib d (.obj fmap)).state.credit = d.credit)
        ∧ ("discount" ∉ GoMap.keys fmap →
            (Disk.InterfaceToDisk lib d (.obj fmap)).state.discount = d.discount)
        ∧ ("totalCost" ∉ GoMap.keys fmap →
            (Disk.InterfaceToDisk lib d (.obj fmap)).state.Cost = d.Cost)
        ∧ ("byteHours" ∉ GoMap.keys fmap →
            (Disk.InterfaceToDisk lib d (.obj fmap)).state.ByteHours = d.ByteHours)
        ∧ ∀ d' : Disk F,
            Disk.common (Disk.InterfaceToDisk lib d' (.obj fmap)).state
              = Disk.common (Disk.InterfaceToDisk lib d (.obj fmap)).state))
    ∧ (validNode lib fmap = true →
      (∀ n : Node F,
        (Node.InterfaceToNode lib n (.obj fmap)).status = .ok
        ∧ ("adjustment" ∉ GoMap.keys fmap →
            (Node.InterfaceToNode lib n (.obj fmap)).state.adjustment = n.adjustment)
        ∧ ("credit" ∉ GoMap.keys fmap →
            (Node.InterfaceToNode lib n (.obj fmap)).state.credit = n.credit)
        ∧ ("discount" ∉ GoMap.keys fmap →
            (Node.InterfaceToNode lib n (.obj fmap)).state.discount = n.discount)
        ∧ ("nodeType" ∉ GoMap.keys fmap →
            (Node.InterfaceToNode lib n (.obj fmap)).state.NodeType = n.NodeType)
        ∧ ("cpuCoreHours" ∉ GoMap.keys fmap →
            (Node.InterfaceToNode lib n (.obj fmap)).state.CPUCoreHours = n.CPUCoreHours)
        ∧ ("ramByteHours" ∉ GoMap.keys fmap →
            (Node.InterfaceToNode lib n (.obj fmap)).state.RAMByteHours = n.RAMByteHours)
        ∧ ("GPUHours" ∉ GoMap.keys fmap →
            (Node.InterfaceToNode lib n (.obj fmap)).state.GPUHours = n.GPUHours)
        ∧ ("cpuCost" ∉ GoMap.keys fmap →
            (Node.InterfaceToNode lib n (.obj fmap)).state.CPUCost = n.CPUCost)
        ∧ ("gpuCost" ∉ GoMap.keys fmap →
            (Node.InterfaceToNode lib n (.obj fmap)).state.GPUCost = n.GPUCost)
        ∧ ("gpuCount" ∉ GoMap.keys fmap →
            (Node.InterfaceToNode lib n (.obj fmap)).state.GPUCount = n.GPUCount)
        ∧ ("ramCost" ∉ GoMap.keys fmap →
            (Node.InterfaceToNode lib n (.obj fmap)).state.RAMCost = n.RAMCost)
        ∧ ∀ n' : Node F,
            Node.common (Node.InterfaceToNode lib n' (.obj fmap)).state
              = Node.common (Node.InterfaceToNode lib n (.obj fmap)).state))
    ∧ (∀ (a : Any F) (b : RawMessage), lib.unmarshal b = .ok (.obj fmap) →
        Any.UnmarshalJSON lib a b = Any.InterfaceToAny lib a (.obj fmap)) := by
  refine ⟨?_, ?_, ?_, ?_, ?_⟩
  · intro hv
    refine ⟨?_, ?_, ?_, ?_, ?_⟩
    · intro a
      obtain ⟨c, hc, hd⟩ := decoded_of_valid_Any lib fmap hv a
      rw [hd]
      refine ⟨rfl, ?_, ?_, ?_, ?_, ?_⟩
      · intro hk
        simp [Any.decoded, index_of_not_mem fmap _ hk, floatOr, stringOr, costOr]
      · intro hk
        simp [Any.decoded, index_of_not_mem fmap _ hk, floatOr, stringOr, costOr]
      · intro hk
        simp [Any.decoded, index_of_not_mem fmap _ hk, floatOr, stringOr, costOr]
      · intro hk
        simp [Any.decoded, index_of_not_mem fmap _ hk, floatOr, stringOr, costOr]
      · intro a'
        obtain ⟨c', hc', hd'⟩ := decoded_of_valid_Any lib fmap hv a'
        rw [hd']
        cases Except.ok.inj (hc.symm.trans hc')
        rfl
    · intro cm
      obtain ⟨c, hc, hd⟩ := decoded_of_valid_ClusterManagement lib fmap hv cm
      rw [hd]
      refine ⟨rfl, ?_, ?_, ?_, ?_, ?_⟩
      · intro hk
        simp [ClusterManagement.decoded, index_of_not_mem fmap _ hk, floatOr, stringOr, costOr]
      · intro hk
        simp [ClusterManagement.decoded, index_of_not_mem fmap _ hk, floatOr, stringOr, costOr]
      · intro hk
        simp [ClusterManagement.decoded, index_of_not_mem fmap _ hk, floatOr, stringOr, costOr]
      · intro hk
        simp [ClusterManagement.decoded, index_of_not_mem fmap _ hk, floatOr, stringOr, costOr]
      · intro cm'
        obtain ⟨c', hc', hd'⟩ := decoded_of_valid_ClusterManagement lib fmap hv cm'
        rw [hd']
        cases Except.ok.inj (hc.symm.trans hc')
        rfl
    · intro n
      obtain ⟨c, hc, hd⟩ := decoded_of_valid_Network lib fmap hv n
      rw [hd]
      refine ⟨rfl, ?_, ?_, ?_, ?_, ?_⟩
      · intro hk
        simp [Network.decoded, index_of_not_mem fmap _ hk, floatOr, stringOr, costOr]
      · intro hk
        simp [Network.decoded, index_of_not_mem fmap _ hk, floatOr, stringOr, costOr]
      · intro hk
        simp [Network.decoded, index_of_not_mem fmap _ hk, floatOr, stringOr, costOr]
      · intro hk
        simp [Network.decoded, index_of_not_mem fmap _ hk, floatOr, stringOr, costOr]
      · intro n'
        obtain ⟨c', hc', hd'⟩ := decoded_of_valid_Network lib fmap hv n'
        rw [hd']
        cases Except.ok.inj (hc.symm.trans hc')
        rfl
    · intro lb
      obtain ⟨c, hc, hd⟩ := decoded_of_valid_LoadBalancer lib fmap hv lb
      rw [hd]
      refine ⟨rfl, ?_, ?_, ?_, ?_, ?_⟩
      · intro hk
        simp [LoadBalancer.decoded, index_of_not_mem fmap _ hk, floatOr, stringOr, costOr]
      · intro hk
        simp [LoadBalancer.decoded, index_of_not_mem fmap _ hk, floatOr, stringOr, costOr]
      · intro hk
        simp [LoadBalancer.decoded, index_of_not_mem fmap _ hk, floatOr, stringOr, costOr]
      · intro hk
        simp [LoadBalancer.decoded, index_of_not_mem fmap _ hk, floatOr, stringOr, costOr]
      · intro lb'
        obtain ⟨c', hc', hd'⟩ := decoded_of_valid_LoadBalancer lib fmap hv lb'
        rw [hd']
        cases Except.ok.inj (hc.symm.trans hc')
        rfl
    · intro sa
      obtain ⟨c, hc, hd⟩ := decoded_of_valid_SharedAsset lib fmap hv sa
      rw [hd]
      refine ⟨rfl, ?_, ?_, ?_, ?_, ?_⟩
      · intro hk
        simp [SharedAsset.decoded, index_of_not_mem fmap _ hk, floatOr, stringOr, costOr]
      · intro hk
        simp [SharedAsset.decoded, index_of_not_mem fmap _ hk, floatOr, stringOr, costOr]
      · intro hk
        simp [SharedAsset.decoded, index_of_not_mem fmap _ hk, floatOr, stringOr, costOr]
      · intro hk
        simp [SharedAsset.decoded, index_of_not_mem fmap _ hk, floatOr, stringOr, costOr]
      · intro sa'
        obtain ⟨c', hc', hd'⟩ := decoded_of_valid_SharedAsset lib fmap hv sa'
        rw [hd']
        cases Except.ok.inj (hc.symm.trans hc')
        rfl
  · intro hv ca
    obtain ⟨c, hc, hd⟩ := decoded_of_valid_Cloud lib fmap hv ca
    rw [hd]
    refine ⟨rfl, ?_, ?_, ?_, ?_, ?_, ?_, ?_⟩
    · intro hk
      simp [Cloud.decoded, index_of_not_mem fmap _ hk, floatOr, stringOr, costOr]
    · intro hk
      simp [Cloud.decoded, index_of_not_mem fmap _ hk, floatOr, stringOr, costOr]
    · intro hk
      simp [Cloud.decoded, index_of_not_mem fmap _ hk, floatOr, stringOr, costOr]
    · intro hk
      simp [Cloud.decoded, index_of_not_mem fmap _ hk, floatOr, stringOr, costOr]
    · intro hk
      simp [Cloud.decoded, index_of_not_mem fmap _ hk, floatOr, stringOr, costOr]
    · intro hk
      simp [Cloud.decoded, index_of_not_mem fmap _ hk, floatOr, stringOr, costOr]
    · intro ca'
      obtain ⟨c', hc', hd'⟩ := decoded_of_valid_Cloud lib fmap hv ca'
      rw [hd']
      cases Except.ok.inj (hc.symm.trans hc')
      rfl
  · intro hv d
    obtain ⟨c, fb, hc, hb, hd⟩ := decoded_of_valid_Disk lib fmap hv d
    rw [hd]
    refine ⟨rfl, ?_, ?_, ?_, ?_, ?_, ?_, ?_⟩
    · intro hk
      simp [Disk.decoded, index_of_not_mem fmap _ hk, floatOr, stringOr, costOr]
    · intro hk
      simp [Disk.decoded, index_of_not_mem fmap _ hk, floatOr, stringOr, costOr]
    · intro hk
      simp [Disk.decoded, index_of_not_mem fmap _ hk, floatOr, stringOr, costOr]
    · intro hk
      simp [Disk.decoded, index_of_not_mem fmap _ hk, floatOr, stringOr, costOr]
    · intro hk
      simp [Disk.decoded, index_of_not_mem fmap _ hk, floatOr, stringOr, costOr]
    · intro hk
      simp [Disk.decoded, index_of_not_mem fmap _ hk, floatOr, stringOr, costOr]
    · intro d'
      obtain ⟨c', fb', hc', hb', hd'⟩ := decoded_of_valid_Disk lib fmap hv d'
      rw [hd']
      cases Except.ok.inj (hc.symm.trans hc')
      cases JSON.obj.inj (hb.symm.trans hb')
      rfl
  · intro hv n
    obtain ⟨c, fc, fr, hc, hfc, hfr, hd⟩ := decoded_of_valid_Node lib fmap hv n
    rw [hd]
    refine ⟨rfl, ?_, ?_, ?_, ?_, ?_, ?_, ?_, ?_, ?_, ?_, ?_, ?_⟩
    · intro hk
      simp [Node.decoded, index_of_not_mem fmap _ hk, floatOr, stringOr, costOr]
    · intro hk
      simp [Node.decoded, index_of_not_mem fmap _ hk, floatOr, stringOr, costOr]
    · intro hk
      simp [Node.decoded, index_of_not_mem fmap _ hk, floatOr, stringOr, costOr]
    · intro hk
      simp [Node.decoded, index_of_not_mem fmap _ hk, floatOr, stringOr, costOr]
    · intro hk
      simp [Node.decoded, index_of_not_mem fmap _ hk, floatOr, stringOr, costOr]
    · intro hk
      simp [Node.decoded, index_of_not_mem fmap _ hk, floatOr, stringOr, costOr]
    · intro hk
      simp [Node.decoded, index_of_not_mem fmap _ hk, floatOr, stringOr, costOr]
    · intro hk
      simp [Node.decoded, index_of_not_mem fmap _ hk, floatOr, stringOr, costOr]
    · intro hk
      simp [Node.decoded, index_of_not_mem fmap _ hk, floatOr, stringOr, costOr]
    · intro hk
      simp [Node.decoded, index_of_not_mem fmap _ hk, floatOr, stringOr, costOr]
    · intro hk
      simp [Node.decoded, index_of_not_mem fmap _ hk, floatOr, stringOr, costOr]
    · intro n'
      obtain ⟨c', fc', fr', hc', hfc', hfr', hd'⟩ := decoded_of_valid_Node lib fmap hv n'
      rw [hd']
      cases Except.ok.inj (hc.symm.trans hc')
      cases JSON.obj.inj (hfc.symm.trans hfc')
      cases JSON.obj.inj (hfr.symm.trans hfr')
      rfl
  · intro a b hb
    simp only [Any.UnmarshalJSON, hb]

/-- Witness of C26: the record left by decoding the sample entry without discriminator
(adjustment 1, credit 2, cost 7) receives an entry that has the common members only. -/
theorem stale_optional_values_witness :
    validGeneric sampleLib sampleCommon = true
    ∧ "adjustment" ∉ GoMap.keys sampleCommon
    ∧ "totalCost" ∉ GoMap.keys sampleCommon
    ∧ sampleStaleAny.adjustment = 1
    ∧ sampleStaleAny.Cost = 7
    ∧ (Any.InterfaceToAny sampleLib sampleStaleAny (.obj sampleCommon)).status = .ok
    ∧ (Any.InterfaceToAny sampleLib sampleStaleAny (.obj sampleCommon)).state.adjustment = 1
    ∧ (Any.InterfaceToAny sampleLib sampleStaleAny (.obj sampleCommon)).state.Cost = 7 :=
  have t := ((stale_optional_values sampleLib sampleCommon).1 (by decide)).1 sampleStaleAny
  ⟨by decide, by decide, by decide, by decide, by decide, t.1,
    (t.2.1 (by decide)).trans (by decide), (t.2.2.2.2.1 (by decide)).trans (by decide)⟩

/-- C27. Node decode does not depend on `totalCost`: two Node entries that agree on every
key other than `totalCost` (which may be present in one and absent in the other, or hold
different values of any type) give the same outcome of `InterfaceToNode` for every
receiver: the same way of ending and the same record. When the entry is a valid Node
entry the decode returns nil and the three cost components are read from `cpuCost`,
`gpuCost` and `ramCost` alone (the receiver's value where the key holds no number). -/
theorem node_ignores_totalCost [Zero F] (lib : Lib F) (fmap fmap' : List (String × JSON F))
    (h : ∀ k, k ≠ "totalCost" → index fmap k = index fmap' k) (n : Node F) :
    Node.InterfaceToNode lib n (.obj fmap) = Node.InterfaceToNode lib n (.obj fmap')
    ∧ (validNode lib fmap = true →
        (Node.InterfaceToNode lib n (.obj fmap')).status = .ok
        ∧ (Node.InterfaceToNode lib n (.obj fmap')).state.CPUCost
            = floatOr (index fmap "cpuCost") n.CPUCost
        ∧ (Node.InterfaceToNode lib n (.obj fmap')).state.GPUCost
            = floatOr (index fmap "gpuCost") n.GPUCost
        ∧ (Node.InterfaceToNode lib n (.obj fmap')).state.RAMCost
            = floatOr (index fmap "ramCost") n.RAMCost) := by
  have he : Node.InterfaceToNode lib n (.obj fmap) = Node.InterfaceToNode lib n (.obj fmap') :=
    congr_of_readKeys_Node lib fmap fmap'
      (fun k hk => h k (fun hkt => absurd (hkt ▸ hk) (by decide))) n
  refine ⟨he, ?_⟩
  intro hv
  obtain ⟨c, fc, fr, -, -, -, hd⟩ := decoded_of_valid_Node lib fmap hv n
  rw [← he, hd]
  exact ⟨rfl, rfl, rfl, rfl⟩

/-- Witness of C27: the sample Node entry without `totalCost` and with `totalCost` 10. -/
theorem node_ignores_totalCost_witness :
    (∀ k, k ≠ "totalCost" → index sampleNodeMembers k = index sampleNodeWithTotal k)
    ∧ validNode sampleLib sampleNodeMembers = true
    ∧ Node.InterfaceToNode sampleLib (Node.zero Int) (.obj sampleNodeMembers)
        = Node.InterfaceToNode sampleLib (Node.zero Int) (.obj sampleNodeWithTotal)
    ∧ (Node.InterfaceToNode sampleLib (Node.zero Int) (.obj sampleNodeWithTotal)).status = .ok
    ∧ (Node.InterfaceToNode sampleLib (Node.zero Int) (.obj sampleNodeWithTotal)).state.CPUCost
        = 1 :=
  have h : ∀ k, k ≠ "totalCost" →
      index sampleNodeMembers k = index sampleNodeWithTotal k := by
    intro k hk
    simp [sampleNodeWithTotal, sampleNodeMembers, sampleCommon, index_cons, index_nil, hk]
  have t := node_ignores_totalCost sampleLib sampleNodeMembers sampleNodeWithTotal h
    (Node.zero Int)
  ⟨h, by decide, t.1, (t.2 (by decide)).1, (t.2 (by decide)).2.1.trans (by decide)⟩

end Claims

end Kubecost
